import Mathlib

/-! # electron-app-base: request channel and data service

A shallow embedding of the request/response correlation code of
`src/lib/main/database.js` and `src/app/core/services/ipc.service.js`, of the
load/save state machine and the availability gate of
`src/lib/data/data-service.js`, and of the directory listing of
`src/lib/data/io-service.js`.

Conventions of the embedding:
* JavaScript objects that are compared by identity (promises, Loki instances) are
  natural-number handles.
* `null` and `undefined` are `none`.
* Request ids are JavaScript numbers; they are exact integers far beyond any
  reachable count of requests and are modelled as unbounded integers.
* A function that has side effects returns the new state together with the list
  of effects it performed, in program order.
-/

namespace AppBase

/-! ## Constants (`src/lib/common/constants.js`) -/

namespace CONST

def IPC_CMD_REQUEST : String := "DB_REQUEST"
def IPC_CMD_RESPONSE : String := "DB_RESPONSE"
def IPC_CMD_ALERT : String := "DB_ALERT"

def NG_EVENT_DB_STATUS_DATA : String := "db-status"

def ERROR_IPC_RESPONSE_NONEXISTENT_REQUEST : String :=
  "The database sent a response to a non-existent request."

def ERROR_DB_PROCESS_SEND_UNINITIALIZED : String :=
  "Failed to send request message to database, it has not been initialized."
def ERROR_DB_PROCESS_SEND_DISCONNECTED : String :=
  "Failed to send request message to database, it is not connected."

def ERROR_DB_LOAD_CONCURRENT_LOAD : String :=
  "Failed to load database, it is currently being loaded."
def ERROR_DB_LOAD_CONCURRENT_SAVE : String :=
  "Failed to load database, it is currently being saved."
def ERROR_DB_LOAD_PRODUCT_INVALID : String :=
  "Failed to load database, the requested product is invalid."
def ERROR_DB_LOAD_MODIFIED : String :=
  "The database has been modified, use force to drop changes and continue reloading."

def ERROR_DB_SAVE_CONCURRENT_LOAD : String :=
  "Failed to save database, it is currently being loaded."
def ERROR_DB_SAVE_CONCURRENT_SAVE : String :=
  "Failed to save database, it is currently being saved."

def ERROR_DB_PROJECT_SELECT_INVALID : String :=
  "Failed to select project directory, the directory is invalid."
def ERROR_DB_PROJECT_SELECT_ACTIVE : String :=
  "Failed to select project directory, a product is currently open."

def IPC_ALERT_DB_STATUS : String := "alert-db-status"
def IPC_ALERT_DB_STATUS_TEXT : String := "alert-db-status-text"

end CONST

/-! ## Messages -/

/-- An error object: `name` is the constructor name, `message` its text. -/
structure JsError where
  name : String
  message : String
deriving DecidableEq, Repr

/-- Payload of a message. `name` and `message` are the payload's own fields of
that name when they are strings; `body` stands for the rest of the value. -/
structure Payload where
  name : Option String
  message : Option String
  body : String
deriving DecidableEq, Repr

/-- The empty object literal. -/
def Payload.empty : Payload := ⟨none, none, ""⟩

/-- Request message as it is transmitted. `cmd` is the `cmd` field of a message
to the data process; a renderer message has no such field and `cmd` is the
channel it is sent on. -/
structure Request where
  cmd : String
  type : String
  requestId : Int
  payload : Payload
deriving DecidableEq, Repr

/-- Message object handed to `Database.sendRequest`: `cmd` and `requestId` may
be absent or carry a value chosen by the caller. -/
structure RequestData where
  cmd : Option String
  type : String
  requestId : Option Int
  payload : Payload
deriving DecidableEq, Repr

/-- Response message as it is received. `requestId` is `none` when the field is
absent; `name` is the message's own top-level `name` field when it is a string;
`status` is the handle of an attached status snapshot. -/
structure Response where
  requestId : Option Int
  name : Option String
  error : Bool
  status : Option Nat
  payload : Payload
deriving DecidableEq, Repr

/-- The value a request promise is settled with. -/
inductive Value
  | message (data : Response)
  | payload (p : Payload)
deriving DecidableEq, Repr

/-- The pair of resolver functions kept per request; both settle the promise
`future`. -/
structure Resolvers where
  future : Nat
deriving DecidableEq, Repr

/-- Observable actions of the request channel code. -/
inductive Effect
  | send (data : Request)
  | resolve (future : Nat) (v : Value)
  | reject (future : Nat) (v : Value)
  | logError (msg : String)
  | notifyError (msg : String)
  | publish (event : String) (status : Nat)
deriving DecidableEq, Repr

/-- Whether the effect settles a promise. -/
def Effect.isSettle : Effect → Bool
  | .resolve _ _ => true
  | .reject _ _ => true
  | _ => false

/-- Whether the effect settles the promise `f`. -/
def Effect.settles (f : Nat) : Effect → Bool
  | .resolve g _ => g == f
  | .reject g _ => g == f
  | _ => false

/-- Request ids of the transmitted requests, in order of transmission. -/
def sentIds : List Effect → List Int
  | [] => []
  | .send data :: fx => data.requestId :: sentIds fx
  | _ :: fx => sentIds fx

/-! ## The `_requestPromises` object -/

/-- The `_requestPromises` object: request id to resolver pair. -/
abbrev RequestPromises := List (Int × Resolvers)

/-- Property read `obj[k]`. -/
def RequestPromises.get : RequestPromises → Int → Option Resolvers
  | [], _ => none
  | (k, v) :: m, i => if k = i then some v else RequestPromises.get m i

/-- The statement `delete obj[k]`. -/
def RequestPromises.delete : RequestPromises → Int → RequestPromises
  | [], _ => []
  | (k, v) :: m, i =>
    if k = i then RequestPromises.delete m i else (k, v) :: RequestPromises.delete m i

/-- Property write `obj[k] = v`. -/
def RequestPromises.set (m : RequestPromises) (i : Int) (v : Resolvers) : RequestPromises :=
  (i, v) :: RequestPromises.delete m i

/-- The step `this._requestIdGenerator.next().value`: the generator yields
`requestId++`, so it returns the current counter and leaves it incremented. -/
def requestIdGenerator_next (requestId : Nat) : Int × Nat :=
  ((requestId : Int), requestId + 1)

/-! ## Renderer: `IPCService` (`src/app/core/services/ipc.service.js`) -/

/-- State of the renderer service: the `_requestPromises` object, the local
variable of the id generator and the count of promises created so far. -/
structure IPCService where
  requestPromises : RequestPromises
  requestIdGenerator : Nat
  promises : Nat
deriving DecidableEq, Repr

/-- State after the constructor ran. -/
def IPCService.new : IPCService := ⟨[], 1, 0⟩

/-- The method `IPCService.sendRequest(type, payload)`; returns the handle of the
promise it hands back. -/
def IPCService.sendRequest (s : IPCService) (type : String) (payload : Option Payload) :
    IPCService × Nat × List Effect :=
  let (requestId, gen) := requestIdGenerator_next s.requestIdGenerator
  let payload := payload.getD Payload.empty
  let requestPromise := s.promises
  let promises := RequestPromises.set s.requestPromises requestId ⟨requestPromise⟩
  let data : Request := ⟨CONST.IPC_CMD_REQUEST, type, requestId, payload⟩
  (⟨promises, gen, s.promises + 1⟩, requestPromise, [Effect.send data])

/-- The test `_.isString(data.name) && data.name.indexOf('Error') !== -1`. -/
def nameHasError : Option String → Bool
  | none => false
  | some n => decide (("Error".toList) <:+: n.toList)

/-- The method `IPCService._handleRequestResponse(data)`; `data` is `none` for a
falsy message. -/
def IPCService._handleRequestResponse (s : IPCService) (data : Option Response) :
    IPCService × List Effect :=
  let orphan : IPCService × List Effect :=
    (s, [Effect.logError CONST.ERROR_IPC_RESPONSE_NONEXISTENT_REQUEST,
         Effect.notifyError CONST.ERROR_IPC_RESPONSE_NONEXISTENT_REQUEST])
  match data with
  | none => orphan
  | some d =>
    match d.requestId with
    | none => orphan
    | some requestId =>
      match RequestPromises.get s.requestPromises requestId with
      | none => orphan
      | some requestPromiseResolvers =>
        let published :=
          match d.status with
          | some st => [Effect.publish CONST.NG_EVENT_DB_STATUS_DATA st]
          | none => []
        let settled :=
          if nameHasError d.name then
            Effect.reject requestPromiseResolvers.future (Value.message d)
          else if d.error then
            Effect.reject requestPromiseResolvers.future (Value.payload d.payload)
          else
            Effect.resolve requestPromiseResolvers.future (Value.payload d.payload)
        ({ s with requestPromises := RequestPromises.delete s.requestPromises requestId },
          published ++ [settled])

/-! ## Coordinator: `Database` (`src/lib/main/database.js`) -/

/-- The forked child process handle, as far as the request code reads it. -/
structure ChildProcess where
  connected : Bool
deriving DecidableEq, Repr

/-- State of the coordinator's `Database` object. -/
structure Database where
  databaseProcess : Option ChildProcess
  requestPromises : RequestPromises
  requestIdGenerator : Nat
  promises : Nat
deriving DecidableEq, Repr

/-- State after the constructor ran. -/
def Database.new : Database := ⟨none, [], 1, 0⟩

/-- What `_generateRequestPromise` hands back: a promise that is already
rejected with a `DatabaseError`, or the pending request promise. -/
inductive SendResult
  | rejected (err : JsError)
  | pending (future : Nat)
deriving DecidableEq, Repr

/-- The method `Database.prototype._generateRequestPromise(data)`. -/
def Database._generateRequestPromise (s : Database) (data : RequestData) :
    Database × SendResult × List Effect :=
  match s.databaseProcess with
  | none =>
    (s, SendResult.rejected ⟨"DatabaseError", CONST.ERROR_DB_PROCESS_SEND_UNINITIALIZED⟩, [])
  | some databaseProcess =>
    if !databaseProcess.connected then
      (s, SendResult.rejected ⟨"DatabaseError", CONST.ERROR_DB_PROCESS_SEND_DISCONNECTED⟩, [])
    else
      let (requestId, gen) := requestIdGenerator_next s.requestIdGenerator
      let requestPromise := s.promises
      let promises := RequestPromises.set s.requestPromises requestId ⟨requestPromise⟩
      let sent : Request := ⟨data.cmd.getD CONST.IPC_CMD_REQUEST, data.type, requestId, data.payload⟩
      ({ s with requestPromises := promises, requestIdGenerator := gen,
                promises := s.promises + 1 },
        SendResult.pending requestPromise, [Effect.send sent])

/-- The method `Database.prototype.sendRequest(data)`: defaults `cmd` and
delegates. -/
def Database.sendRequest (s : Database) (data : RequestData) :
    Database × SendResult × List Effect :=
  Database._generateRequestPromise s
    { data with cmd := some (data.cmd.getD CONST.IPC_CMD_REQUEST) }

/-- The method `Database.prototype._handleRequestResponse(data)`. -/
def Database._handleRequestResponse (s : Database) (data : Option Response) :
    Database × List Effect :=
  let orphan : Database × List Effect :=
    (s, [Effect.logError CONST.ERROR_IPC_RESPONSE_NONEXISTENT_REQUEST])
  match data with
  | none => orphan
  | some d =>
    match d.requestId with
    | none => orphan
    | some requestId =>
      match RequestPromises.get s.requestPromises requestId with
      | none => orphan
      | some requestPromiseResolvers =>
        let settled :=
          if d.error then
            Effect.reject requestPromiseResolvers.future (Value.message d)
          else
            Effect.resolve requestPromiseResolvers.future (Value.message d)
        ({ s with requestPromises := RequestPromises.delete s.requestPromises requestId },
          [settled])

/-! ## Interleavings of sends and responses -/

/-- What can happen to the renderer service. -/
inductive RendererEvent
  | sendRequest (type : String) (payload : Option Payload)
  | response (data : Option Response)
deriving DecidableEq, Repr

/-- One event on the renderer service. -/
def IPCService.step (s : IPCService) : RendererEvent → IPCService × List Effect
  | .sendRequest type payload =>
    let r := IPCService.sendRequest s type payload
    (r.1, r.2.2)
  | .response data => IPCService._handleRequestResponse s data

/-- A sequence of events on the renderer service, with all effects in order. -/
def IPCService.run (s : IPCService) : List RendererEvent → IPCService × List Effect
  | [] => (s, [])
  | e :: es =>
    let r := IPCService.step s e
    let rest := IPCService.run r.1 es
    (rest.1, r.2 ++ rest.2)

/-- Number of `sendRequest` calls among the events. -/
def RendererEvent.sends : List RendererEvent → Nat
  | [] => 0
  | .sendRequest _ _ :: es => RendererEvent.sends es + 1
  | .response _ :: es => RendererEvent.sends es

/-- What can happen to the coordinator's `Database`: a request, a response from
the data process, or a change of the process handle (fork, disconnect, exit). -/
inductive DatabaseEvent
  | sendRequest (data : RequestData)
  | response (data : Option Response)
  | setProcess (p : Option ChildProcess)
deriving DecidableEq, Repr

/-- One event on the coordinator. -/
def Database.step (s : Database) : DatabaseEvent → Database × List Effect
  | .sendRequest data =>
    let r := Database.sendRequest s data
    (r.1, r.2.2)
  | .response data => Database._handleRequestResponse s data
  | .setProcess p => ({ s with databaseProcess := p }, [])

/-- A sequence of events on the coordinator, with all effects in order. -/
def Database.run (s : Database) : List DatabaseEvent → Database × List Effect
  | [] => (s, [])
  | e :: es =>
    let r := Database.step s e
    let rest := Database.run r.1 es
    (rest.1, r.2 ++ rest.2)

/-! ## Data process: `DataService` (`src/lib/data/data-service.js`) -/

namespace CONST

def INFO_DB_LOAD_START : String := "Loading Database."
def INFO_DB_LOAD_SUCCESS : String := "Database Loaded Successfully."
def INFO_DB_LOAD_STATUS_START : String := "Loading: Initializing."
def INFO_DB_LOAD_STATUS_FILE_SYSTEM : String := "Loading: Reading file system."
def INFO_DB_LOAD_STATUS_CLEANUP : String := "Loading: Cleaning up."
def INFO_DB_SAVE_START : String := "Saving Database."
def INFO_DB_SAVE_SUCCESS : String := "Database Saved Successfully."
def INFO_DB_SAVE_STATUS_START : String := "Saving: Initializing."
def INFO_DB_SAVE_STATUS_DATABASE : String := "Saving: Dumping database, processing."
def INFO_DB_SAVE_STATUS_FILE_SYSTEM : String := "Saving: Writing to file system."
def INFO_DB_SAVE_STATUS_CLEANUP : String := "Saving: Cleaning up."
def WARNING_DB_SAVE_UNMODIFIED : String :=
  "The database has not been modified, no changes to save."

end CONST

/-- JavaScript truthiness of a value that is a string, `null` or `undefined`. -/
def truthy : Option String → Bool
  | none => false
  | some s => s != ""

/-- What `getStatus()` returns, without the wall-clock `timestamp`. -/
structure StatusSnapshot where
  projectDirectory : Option String
  availableProducts : List String
  selectedProduct : Option String
  isLoading : Bool
  isSaving : Bool
deriving DecidableEq, Repr

/-- Alert message given to `process.send` by `DataIPCService.sendAlert`; `payload`
is the `message` of the payload object, `none` when no payload was passed. -/
structure Alert where
  type : String
  error : Bool
  status : Option StatusSnapshot
  payload : Option String
deriving DecidableEq, Repr

/-- What the data service emits: alerts to the coordinator and log lines. -/
inductive Output
  | alert (a : Alert)
  | log (level : String) (msg : String)
deriving DecidableEq, Repr

/-- Which operation a scheduled `.then` continuation belongs to. -/
inductive Continuation
  | load
  | save
deriving DecidableEq, Repr

/-- State of the data process around the `DataService` singleton.

The first block are the fields of the object. The second block is what the
JavaScript runtime holds for it: `heap` counts the objects allocated so far (the
next `new` gets this handle), `settled` records which promises were settled and
how (`true` resolved, `false` rejected), `nextTicks` counts the callbacks given
to `process.nextTick`, `pendingLoads` holds the `dbBackup` captured by every
outstanding Loki load callback, `pendingExports` counts the saves whose adapter
waits for its first timer, `pendingSaves` counts the outstanding Loki save
callbacks, `pendingThens` the scheduled continuations of resolved load and save
promises, `pendingSelects` the directories with a listing in flight, and
`outbox` everything emitted so far. -/
structure DataService where
  db : Option Nat
  projectDirectory : Option String
  availableProducts : List String
  selectedProduct : Option String
  isModified : Bool
  isLoading : Bool
  isSaving : Bool
  availabilityPromiseCompleted : Bool
  availabilityPromise : Option Nat
  availabilityPromiseResolve : Option Nat
  availabilityPromiseReject : Option Nat
  heap : Nat
  settled : List (Nat × Bool)
  nextTicks : Nat
  pendingLoads : List (Option Nat)
  pendingExports : Nat
  pendingSaves : Nat
  pendingThens : List Continuation
  pendingSelects : List String
  outbox : List Output
deriving DecidableEq, Repr

namespace DataService

/-- The closure `this._initialize`. -/
def _initialize (s : DataService) : DataService :=
  { s with
    selectedProduct := none
    isModified := false
    isLoading := false
    isSaving := false
    availabilityPromiseCompleted := true
    nextTicks := s.nextTicks + 1 }

/-- The constructor `DataService()`. -/
def new : DataService :=
  _initialize
    { db := none, projectDirectory := none, availableProducts := [],
      selectedProduct := none, isModified := false, isLoading := false, isSaving := false,
      availabilityPromiseCompleted := false, availabilityPromise := none,
      availabilityPromiseResolve := none, availabilityPromiseReject := none,
      heap := 0, settled := [], nextTicks := 0, pendingLoads := [],
      pendingExports := 0, pendingSaves := 0,
      pendingThens := [], pendingSelects := [], outbox := [] }

/-- The method `getStatus()`. -/
def getStatus (s : DataService) : StatusSnapshot :=
  ⟨s.projectDirectory, s.availableProducts, s.selectedProduct, s.isLoading, s.isSaving⟩

/-- The call `log.<level>(msg)`. -/
def log (s : DataService) (level msg : String) : DataService :=
  { s with outbox := s.outbox ++ [Output.log level msg] }

/-- The method `DataIPCService.sendAlert(type, payload, isError, omitStatus)` for
payloads that are absent or a message object. The payload is passed on as it
is, which is what the code does unless `isError` is set on a present payload;
the data service never sends such an alert. -/
def sendAlert (s : DataService) (type : String) (payload : Option String)
    (isError omitStatus : Bool) : DataService :=
  { s with outbox := s.outbox ++
      [Output.alert ⟨type, isError, if omitStatus then none else some (getStatus s), payload⟩] }

/-- The method `DataIPCService.sendStatusAlert(message)`. -/
def sendStatusAlert (s : DataService) (message : String) : DataService :=
  sendAlert s CONST.IPC_ALERT_DB_STATUS_TEXT (some message) false true

/-- The method `_sendStatus(payload)`. -/
def _sendStatus (s : DataService) (payload : Option String) : DataService :=
  sendAlert s CONST.IPC_ALERT_DB_STATUS payload false false

/-- The method `_generateAvailabilityPromise()`. -/
def _generateAvailabilityPromise (s : DataService) : DataService :=
  if !s.availabilityPromiseCompleted then s
  else
    { s with
      availabilityPromiseCompleted := false
      availabilityPromise := some s.heap
      availabilityPromiseResolve := some s.heap
      availabilityPromiseReject := some s.heap
      heap := s.heap + 1 }

/-- Settling a promise: only the first settlement counts. -/
def settle (s : DataService) (promise : Nat) (resolved : Bool) : DataService :=
  if s.settled.any (fun e => e.1 == promise) then s
  else { s with settled := s.settled ++ [(promise, resolved)] }

/-- The call `this._availabilityPromiseResolve()`: resolves the gate the stored
closure belongs to and marks the gate completed; calling it while the field is
still `undefined` throws a `TypeError`. Returns the state and what was thrown. -/
def _availabilityPromiseResolve (s : DataService) : DataService × Option JsError :=
  match s.availabilityPromiseResolve with
  | none => (s, some ⟨"TypeError", "this._availabilityPromiseResolve is not a function"⟩)
  | some gate => ({ settle s gate true with availabilityPromiseCompleted := true }, none)

/-- The method `selectProduct(product)`; returns the new state and the boolean. -/
def selectProduct (s : DataService) (product : Option String) : DataService × Bool :=
  if truthy s.selectedProduct && !truthy product then (s, true)
  else
    match product with
    | some p =>
      if p ∈ s.availableProducts then ({ s with selectedProduct := some p }, true)
      else (s, false)
    | none => (s, false)

/-- The method `unloadDatabase()`. -/
def unloadDatabase (s : DataService) : DataService :=
  _sendStatus ( _initialize s) none

end DataService

/-! ## Data process: the adapter of the store (`src/lib/data/loki-adapter.js`) -/

/-- The method `LokiAdapter.prototype.loadDatabase(dbname, callback)`, which
`this._db.loadDatabase` calls with the name the store was created with, up to
the start of its timer: it sends the status text of the read. -/
def LokiAdapter.loadDatabase (s : DataService) : DataService :=
  DataService.sendStatusAlert s CONST.INFO_DB_LOAD_STATUS_FILE_SYSTEM

/-- The method `LokiAdapter.prototype.exportDatabase(dbname, dbRef, callback)`, which
`this._db.saveDatabase` calls, up to the start of its first timer: it sends the
status text of the dump. -/
def LokiAdapter.exportDatabase (s : DataService) : DataService :=
  let s1 := DataService.sendStatusAlert s CONST.INFO_DB_SAVE_STATUS_DATABASE
  { s1 with pendingExports := s1.pendingExports + 1 }

/-- The first timer of `exportDatabase`: it sends the status text of the write and
starts the timer that calls the callback of the save. -/
def LokiAdapter.exportDatabaseTimeout (s : DataService) : DataService :=
  let s1 := DataService.sendStatusAlert s CONST.INFO_DB_SAVE_STATUS_FILE_SYSTEM
  { s1 with pendingSaves := s1.pendingSaves + 1 }

/-- How a call of `loadDatabase` or `saveDatabase` leaves its promise: rejected
inside the executor, or pending on the callback handed to Loki. -/
inductive CallResult
  | rejected (err : JsError)
  | pending
deriving DecidableEq, Repr

/-- How a Loki callback leaves the promise of its call. -/
inductive Settlement
  | rejected (err : JsError)
  | resolved
deriving DecidableEq, Repr

namespace DataService

/-- The method `loadDatabase(product, force)` up to the point where the callback
has been handed to `this._db.loadDatabase` and Loki has called the adapter with
it. -/
def loadDatabase (s : DataService) (product : Option String) (force : Bool) :
    DataService × CallResult :=
  let dbBackup := s.db
  if s.isLoading then
    (s, CallResult.rejected ⟨"ConcurrentDatabaseError", CONST.ERROR_DB_LOAD_CONCURRENT_LOAD⟩)
  else if s.isSaving then
    (s, CallResult.rejected ⟨"ConcurrentDatabaseError", CONST.ERROR_DB_LOAD_CONCURRENT_SAVE⟩)
  else if s.isModified && !force then
    (s, CallResult.rejected ⟨"LoadDatabaseError", CONST.ERROR_DB_LOAD_MODIFIED⟩)
  else
    let selected := selectProduct s product
    if !selected.2 then
      (selected.1,
        CallResult.rejected ⟨"LoadDatabaseError", CONST.ERROR_DB_LOAD_PRODUCT_INVALID⟩)
    else
      let s1 := { selected.1 with isLoading := true }
      let s2 := _generateAvailabilityPromise s1
      let s3 := log s2 "debug" CONST.INFO_DB_LOAD_START
      let s4 := _sendStatus s3 none
      let s5 := sendStatusAlert s4 CONST.INFO_DB_LOAD_STATUS_START
      let s6 := { s5 with db := some s5.heap, heap := s5.heap + 1 }
      let s7 := LokiAdapter.loadDatabase s6
      ({ s7 with pendingLoads := s7.pendingLoads ++ [dbBackup] }, CallResult.pending)

/-- The callback `err => ...` given to `this._db.loadDatabase`, for the call that
captured `dbBackup`. -/
def loadDatabaseCallback (s : DataService) (dbBackup : Option Nat) (err : Option JsError) :
    DataService × Settlement :=
  match err with
  | some e => ({ s with db := dbBackup, isLoading := false }, Settlement.rejected e)
  | none =>
    let s1 := sendStatusAlert s CONST.INFO_DB_LOAD_STATUS_CLEANUP
    ({ s1 with isModified := false, isLoading := false,
               pendingThens := s1.pendingThens ++ [Continuation.load] },
      Settlement.resolved)

/-- The continuation `.then(() => ...)` of `loadDatabase`; returns the state and
what was thrown. -/
def loadDatabaseThen (s : DataService) : DataService × Option JsError :=
  let s1 := log s "info" CONST.INFO_DB_LOAD_SUCCESS
  let s2 := _sendStatus s1 (some CONST.INFO_DB_LOAD_SUCCESS)
  _availabilityPromiseResolve s2

/-- The method `saveDatabase()` up to the point where the callback has been
handed to `this._db.saveDatabase` and Loki has called the adapter with it; that
call throws a `TypeError` inside the executor when `this._db` is `undefined`,
which rejects the promise. -/
def saveDatabase (s : DataService) : DataService × CallResult :=
  if s.isLoading then
    (s, CallResult.rejected ⟨"ConcurrentDatabaseError", CONST.ERROR_DB_SAVE_CONCURRENT_LOAD⟩)
  else if s.isSaving then
    (s, CallResult.rejected ⟨"ConcurrentDatabaseError", CONST.ERROR_DB_SAVE_CONCURRENT_SAVE⟩)
  else
    let s1 := { s with isSaving := true }
    let s2 := _generateAvailabilityPromise s1
    let s3 := log s2 "debug" CONST.INFO_DB_SAVE_START
    let s4 := sendStatusAlert s3 CONST.INFO_DB_SAVE_STATUS_START
    let s5 := _sendStatus s4 none
    let s6 := if !s5.isModified then log s5 "warn" CONST.WARNING_DB_SAVE_UNMODIFIED else s5
    match s6.db with
    | none =>
      (s6, CallResult.rejected ⟨"TypeError", "Cannot read property saveDatabase of undefined"⟩)
    | some _ => (LokiAdapter.exportDatabase s6, CallResult.pending)

/-- The callback `err => ...` given to `this._db.saveDatabase`. -/
def saveDatabaseCallback (s : DataService) (err : Option JsError) :
    DataService × Settlement :=
  match err with
  | some e => ({ s with isSaving := false }, Settlement.rejected e)
  | none =>
    let s1 := sendStatusAlert s CONST.INFO_DB_SAVE_STATUS_CLEANUP
    ({ s1 with isModified := false, isSaving := false,
               pendingThens := s1.pendingThens ++ [Continuation.save] },
      Settlement.resolved)

/-- The continuation `.then(() => ...)` of `saveDatabase`; returns the state and
what was thrown. -/
def saveDatabaseThen (s : DataService) : DataService × Option JsError :=
  let s1 := log s "info" CONST.INFO_DB_SAVE_SUCCESS
  let s2 := _sendStatus s1 (some CONST.INFO_DB_SAVE_SUCCESS)
  _availabilityPromiseResolve s2

/-- The method `selectProjectDirectory(projectDirectory)` up to the call of
`IOService.getProducts`; the argument is `none` when it is not a string. Returns
the error of the immediate rejection, if any. -/
def selectProjectDirectory (s : DataService) (projectDirectory : Option String) :
    DataService × Option JsError :=
  if truthy s.selectedProduct then
    (s, some ⟨"DatabaseError", CONST.ERROR_DB_PROJECT_SELECT_ACTIVE⟩)
  else
    match projectDirectory with
    | none => (s, some ⟨"DatabaseError", CONST.ERROR_DB_PROJECT_SELECT_INVALID⟩)
    | some dir => ({ s with pendingSelects := s.pendingSelects ++ [dir] }, none)

/-- The continuation `products => ...` of `selectProjectDirectory`. -/
def selectProjectDirectoryThen (s : DataService) (projectDirectory : String)
    (products : List String) : DataService :=
  _sendStatus
    { s with projectDirectory := some projectDirectory, availableProducts := products } none

end DataService

/-! ## File system: `IOService` (`src/lib/data/io-service.js`) -/

/-- The function `IOService._getDirectories(directory, includeDot)` on a directory
whose `readdir` listing is `files`: each entry is a name with the answer of
`stat(...).isDirectory()`. Entries whose first character is a dot are skipped
unless `includeDot`, the others become their name or `null`, in listing order,
and `_.compact` drops `null` and the empty string. -/
def IOService._getDirectories (files : List (String × Bool)) (includeDot : Bool) :
    List String :=
  ((files.filter (fun file => includeDot || file.1.toList.head? != some '.')).map
      (fun file => if file.2 then some file.1 else none)).filterMap
    (fun name => match name with
      | some n => if n != "" then some n else none
      | none => none)

/-- The function `IOService.getProducts(directory)`. -/
def IOService.getProducts (files : List (String × Bool)) : List String :=
  IOService._getDirectories files false

/-- An error of the file system: its `code` and message. -/
structure FsError where
  code : Option String
  message : String
deriving DecidableEq, Repr

/-- What the promise of `selectProjectDirectory` is rejected with when the
listing fails: a `DatabaseError`, or the error of the listing as it came. -/
inductive SelectRejection
  | database (err : JsError)
  | listing (err : FsError)
deriving DecidableEq, Repr

/-- The handler `.catch(err => ...)` of `selectProjectDirectory`. -/
def DataService.selectProjectDirectoryCatch (err : FsError) : SelectRejection :=
  if err.code = some "ENOENT" then
    SelectRejection.database ⟨"DatabaseError", CONST.ERROR_DB_PROJECT_SELECT_INVALID⟩
  else SelectRejection.listing err

/-- What can happen in the data process, as far as the `DataService` state is
concerned: the calls of its methods and the callbacks that the runtime, Loki,
the adapter and the file system deliver later. `exportTimeout` is the first
timer of the adapter during a save. -/
inductive DataEvent
  | selectProjectDirectory (projectDirectory : Option String)
  | getProductsResolved (projectDirectory : String) (files : List (String × Bool))
  | getProductsRejected (projectDirectory : String)
  | loadDatabase (product : Option String) (force : Bool)
  | loadCallback (dbBackup : Option Nat) (err : Option JsError)
  | saveDatabase
  | saveCallback (err : Option JsError)
  | continuation
  | unloadDatabase
  | nextTick
  | exportTimeout
deriving DecidableEq, Repr

namespace DataService

/-- One event. A callback is delivered only when it is outstanding; an event that
cannot happen in the state leaves it as it is. The listing of a directory
resolves with what `IOService.getProducts` makes of the directory entries. -/
def step (s : DataService) : DataEvent → DataService
  | .selectProjectDirectory dir => (selectProjectDirectory s dir).1
  | .getProductsResolved dir files =>
    if dir ∈ s.pendingSelects then
      selectProjectDirectoryThen { s with pendingSelects := s.pendingSelects.erase dir }
        dir (IOService.getProducts files)
    else s
  | .getProductsRejected dir =>
    if dir ∈ s.pendingSelects then { s with pendingSelects := s.pendingSelects.erase dir }
    else s
  | .loadDatabase product force => (loadDatabase s product force).1
  | .loadCallback dbBackup err =>
    if dbBackup ∈ s.pendingLoads then
      (loadDatabaseCallback { s with pendingLoads := s.pendingLoads.erase dbBackup }
        dbBackup err).1
    else s
  | .saveDatabase => (saveDatabase s).1
  | .saveCallback err =>
    if 0 < s.pendingSaves then
      (saveDatabaseCallback { s with pendingSaves := s.pendingSaves - 1 } err).1
    else s
  | .continuation =>
    match s.pendingThens with
    | [] => s
    | k :: rest =>
      match k with
      | Continuation.load => (loadDatabaseThen { s with pendingThens := rest }).1
      | Continuation.save => (saveDatabaseThen { s with pendingThens := rest }).1
  | .unloadDatabase => unloadDatabase s
  | .nextTick =>
    if 0 < s.nextTicks then
      _generateAvailabilityPromise { s with nextTicks := s.nextTicks - 1 }
    else s
  | .exportTimeout =>
    if 0 < s.pendingExports then
      LokiAdapter.exportDatabaseTimeout { s with pendingExports := s.pendingExports - 1 }
    else s

/-- A sequence of events. -/
def run (s : DataService) : List DataEvent → DataService
  | [] => s
  | e :: es => run (step s e) es

/-- The states the data service can be in: those some sequence of events leads
to from the freshly constructed service. -/
def Reachable (s : DataService) : Prop :=
  ∃ events : List DataEvent, run DataService.new events = s

/-- The method `getAvailabilityPromise()`. -/
def getAvailabilityPromise (s : DataService) : Option Nat :=
  s.availabilityPromise

/-- How a promise was settled, if it was: `true` resolved, `false` rejected. -/
def promiseOutcome (s : DataService) (promise : Nat) : Option Bool :=
  (s.settled.find? (fun e => e.1 == promise)).map (fun e => e.2)

/-- Whether there is no gate or the current gate has been settled. -/
def gateSettled (s : DataService) : Bool :=
  match s.availabilityPromise with
  | none => true
  | some gate => (promiseOutcome s gate).isSome

/-- Whether every `unloadDatabase` among the events is called in a state whose
gate has been settled, which is how `DataIPCService` calls it: in the
continuation of the gate. -/
def unloadsGuarded (s : DataService) : List DataEvent → Bool
  | [] => true
  | e :: es =>
    (if e = DataEvent.unloadDatabase then gateSettled s else true) &&
      unloadsGuarded (step s e) es

/-- Whether some event of the sequence puts another gate in the place of a gate
that has not been settled. -/
def abandonsGate (s : DataService) : List DataEvent → Bool
  | [] => false
  | e :: es =>
    (decide ((step s e).availabilityPromise ≠ s.availabilityPromise) && !gateSettled s) ||
      abandonsGate (step s e) es

/-- What holds in every state the service reaches: product names are not empty,
the stored resolver closures belong to the current gate, every settled promise
and the gate have been allocated, and a gate that is not marked completed
exists and has not been settled. -/
structure Inv (s : DataService) : Prop where
  products : ∀ q ∈ s.availableProducts, q ≠ ""
  resolveHandle : s.availabilityPromiseResolve = s.availabilityPromise
  rejectHandle : s.availabilityPromiseReject = s.availabilityPromise
  settledBelow : ∀ e ∈ s.settled, e.1 < s.heap
  gateBelow : ∀ g, s.availabilityPromise = some g → g < s.heap
  openGate : s.availabilityPromiseCompleted = false →
    ∃ g, s.availabilityPromise = some g ∧ promiseOutcome s g = none

/-- A gate that is marked completed has been settled, if there is one. -/
def ClosedGateSettled (s : DataService) : Prop :=
  s.availabilityPromiseCompleted = true → gateSettled s = true

end DataService

namespace DataService

/-- State in which the Loki callback of `loadDatabase(product, force)`, called in
state `s`, has just reported success, with nothing else in between. -/
def loadCallbackDone (s : DataService) (product : Option String) (force : Bool) :
    DataService :=
  (loadDatabaseCallback (loadDatabase s product force).1 s.db none).1

/-- State in which the continuation of that load has run as well. -/
def loadCompleted (s : DataService) (product : Option String) (force : Bool) : DataService :=
  (loadDatabaseThen (loadCallbackDone s product force)).1

/-- State in which the Loki callback of `saveDatabase()`, called in state `s`, has
just reported success after the first timer of the adapter ran, with nothing
else in between. -/
def saveCallbackDone (s : DataService) : DataService :=
  (saveDatabaseCallback (LokiAdapter.exportDatabaseTimeout (saveDatabase s).1) none).1

/-- State in which the continuation of that save has run as well. -/
def saveCompleted (s : DataService) : DataService :=
  (saveDatabaseThen (saveCallbackDone s)).1

end DataService

/-- Whether the output is an alert of one of the two status types that is not
flagged as an error, or a log line. -/
def Output.isStatusOrLog : Output → Bool
  | Output.alert a =>
    !a.error && (a.type == CONST.IPC_ALERT_DB_STATUS || a.type == CONST.IPC_ALERT_DB_STATUS_TEXT)
  | Output.log _ _ => true

/-! ## Data process: content requests (`src/lib/data/data-ipc-service.js`) -/

/-- What has become of a content request. -/
inductive Awaited
  | throws
  | pending
  | runs
  | rejects
deriving DecidableEq, Repr

/-- The content branches of `DataIPCService._handleRequest`:
`DataService.getAvailabilityPromise().then(() => ContentService.op(...))`. The
request arrives in state `s` and takes the gate of that state; in a later state
`t` its operation has run if that gate was resolved, the request was rejected
if the gate was rejected, and it is still waiting otherwise. Calling `.then` on
a gate that is `undefined` throws. -/
def DataIPCService.contentRequest (s t : DataService) : Awaited :=
  match DataService.getAvailabilityPromise s with
  | none => Awaited.throws
  | some gate =>
    match DataService.promiseOutcome t gate with
    | none => Awaited.pending
    | some true => Awaited.runs
    | some false => Awaited.rejects

/-! ## Coordinator: the end of the data process (`src/lib/main/database.js`) -/

/-- The `code` argument of the `close` and `exit` events of the child process. -/
inductive ExitCode
  | null
  | undefined
  | number (n : Int)
deriving DecidableEq, Repr

/-- The `signal` argument of the `close` and `exit` events of the child process. -/
inductive ExitSignal
  | null
  | undefined
  | name (s : String)
deriving DecidableEq, Repr

/-- JavaScript truthiness of a signal argument. -/
def ExitSignal.truthy : ExitSignal → Bool
  | ExitSignal.name s => s != ""
  | _ => false

/-- What the coordinator does to the application. -/
inductive AppEffect
  | logError (code : ExitCode) (signal : ExitSignal)
  | showErrorBox (title : String) (code : ExitCode) (signal : ExitSignal)
  | quit
deriving DecidableEq, Repr

/-- The method `Database.prototype._handleDatabaseProcessClose(code, signal)`. -/
def Database._handleDatabaseProcessClose (s : Database) (code : ExitCode)
    (signal : ExitSignal) : Database × List AppEffect :=
  if code != ExitCode.null || (!signal.truthy && signal != ExitSignal.undefined) then
    (s, [AppEffect.logError code signal,
         AppEffect.showErrorBox "Database Failure" code signal,
         AppEffect.quit])
  else
    ({ s with databaseProcess := none }, [])

/-! ## Data process: messages to the coordinator (`src/lib/data/data-ipc-service.js`) -/

/-- A payload as the data process handles it: `undefined` (or another falsy
value), an object, or a string. An error is an object with `name` and
`message`. -/
inductive JsPayload
  | undefined
  | object (p : Payload)
  | text (s : String)
deriving DecidableEq, Repr

/-- JavaScript truthiness of a payload. -/
def JsPayload.truthy : JsPayload → Bool
  | JsPayload.undefined => false
  | JsPayload.object _ => true
  | JsPayload.text s => s != ""

/-- The error object as a payload. -/
def JsPayload.ofError (e : JsError) : JsPayload :=
  JsPayload.object ⟨some e.name, some e.message, ""⟩

/-- JavaScript truthiness of an optional boolean argument. -/
def jsTruthy : Option Bool → Bool
  | some b => b
  | none => false

/-- The two functions of the `errio` package the processes use. -/
structure Errio where
  stringify : JsPayload → String
  parse : JsPayload → JsPayload

/-- A message of the data process, as given to `process.send`. -/
structure DataMessage where
  cmd : String
  requestId : Option Int
  type : Option String
  error : Bool
  status : Option StatusSnapshot
  payload : JsPayload
deriving DecidableEq, Repr

namespace DataIPCService

/-- The method `sendAlert(type, payload, isError, omitStatus)`: the message given
to `process.send`, in the state `s` of the data service. -/
def sendAlert (errio : Errio) (s : DataService) (type : String) (payload : JsPayload)
    (isError omitStatus : Option Bool) : DataMessage :=
  let payload :=
    if jsTruthy isError && payload.truthy then JsPayload.text (errio.stringify payload)
    else payload
  { cmd := CONST.IPC_CMD_ALERT
    requestId := none
    type := some type
    error := jsTruthy isError
    status := if jsTruthy omitStatus then none else some (DataService.getStatus s)
    payload := payload }

/-- The method `sendStatusAlert(message)`. -/
def sendStatusAlert (errio : Errio) (s : DataService) (message : String) : DataMessage :=
  sendAlert errio s CONST.IPC_ALERT_DB_STATUS_TEXT
    (JsPayload.object ⟨none, some message, ""⟩) (some false) (some true)

/-- The method `_sendResponse(requestId, payload, isError, omitStatus)`. -/
def _sendResponse (errio : Errio) (s : DataService) (requestId : Int) (payload : JsPayload)
    (isError omitStatus : Option Bool) : DataMessage :=
  let payload :=
    if jsTruthy isError && payload.truthy then JsPayload.text (errio.stringify payload)
    else payload
  { cmd := CONST.IPC_CMD_RESPONSE
    requestId := some requestId
    type := none
    error := jsTruthy isError
    status := if jsTruthy omitStatus then none else some (DataService.getStatus s)
    payload := payload }

/-- The request types of the database state. -/
def stateTypes : List String :=
  ["database-select", "database-unload", "database-load", "database-save", "database-status"]

/-- The request types of the database content. -/
def contentTypes : List String :=
  ["content-compound", "content-query", "content-result-set", "content-insert",
   "content-update", "content-remove"]

/-- The variable `omitStatus` after the `switch` of `_handleRequest`: the content
branches set it to `true`, the state branches leave it `undefined`. The result
is `none` for the default branch, which answers at once. -/
def omitStatus (type : Option String) : Option (Option Bool) :=
  match type with
  | none => none
  | some t =>
    if t ∈ stateTypes then some none
    else if t ∈ contentTypes then some (some true)
    else none

/-- The end of `_handleRequest`: what is given to `process.send` when the promise
of the request settles, in the state `s` the service is in by then. The handler
of `.then` calls `_sendResponse(requestId, payload)`, the handler of `.catch`
calls `_sendResponse(requestId, err, true)`; neither passes `omitStatus`. -/
def respond (errio : Errio) (s : DataService) (requestId : Int)
    (outcome : Except JsPayload JsPayload) : DataMessage :=
  match outcome with
  | Except.ok payload => _sendResponse errio s requestId payload none none
  | Except.error err => _sendResponse errio s requestId err (some true) none

/-- The method `_handleRequest(m)` for a message with request id `requestId` and
type `type`, as far as the response goes: none for a falsy request id, the
invalid-payload response for a type that is not recognised, and otherwise the
response to the settled promise of the request. -/
def _handleRequest (errio : Errio) (s : DataService) (requestId : Option Int)
    (type : Option String) (outcome : Except JsPayload JsPayload) : Option DataMessage :=
  match requestId with
  | none => none
  | some r =>
    if r = 0 then none
    else
      match omitStatus type with
      | none =>
        some (_sendResponse errio s r
          (JsPayload.ofError ⟨"Error", "Invalid Payload."⟩) (some true) none)
      | some _ => some (respond errio s r outcome)

end DataIPCService

/-- Where the coordinator hands a message of the data process on to. -/
inductive Dispatch
  | response (m : DataMessage)
  | alert (m : DataMessage)
  | ignored
deriving DecidableEq, Repr

/-- The method `Database.prototype._handleMessage(m)`: an error payload is parsed
back, then the message goes to `_handleRequestResponse` or `_handleAlert`. -/
def Database._handleMessage (errio : Errio) (m : Option DataMessage) : Dispatch :=
  match m with
  | none => Dispatch.ignored
  | some m =>
    let m := if m.error && m.payload.truthy then { m with payload := errio.parse m.payload }
             else m
    if m.cmd = CONST.IPC_CMD_RESPONSE then Dispatch.response m
    else if m.cmd = CONST.IPC_CMD_ALERT then Dispatch.alert m
    else Dispatch.ignored

/-! ## Coordinator: `IPCService` (`src/lib/main/ipc-service.js`) -/

namespace CONST

def ERROR_IPC_SEND_EARLY : String :=
  "Attempted to send an IPC message before the service was initialized."
def ERROR_IPC_SEND_NO_WEBCONTENTS : String :=
  "Attempted to send an IPC message, but the browser reference was invalid."

end CONST

/-- The object given to `webContents.send` as a response. `name` and `message`
are the top-level fields of that name (an error object has them), `payload` is
absent on an object without that field. -/
structure ResponseData where
  requestId : Option Int
  name : Option String
  message : Option String
  error : Bool
  status : Option Nat
  payload : Option Payload
deriving DecidableEq, Repr

/-- A value the promise of a request is settled with in the coordinator. -/
inductive Outcome
  | value (v : Value)
  | error (e : JsError)
  | primitive
deriving DecidableEq, Repr

/-- The object an outcome is, as far as `_.isObject` accepts it. -/
def Outcome.data : Outcome → Option ResponseData
  | Outcome.value (Value.message d) =>
    some ⟨d.requestId, d.name, none, d.error, d.status, some d.payload⟩
  | Outcome.value (Value.payload p) => some ⟨none, p.name, p.message, false, none, none⟩
  | Outcome.error e => some ⟨none, some e.name, some e.message, false, none, none⟩
  | Outcome.primitive => none

/-- State of the coordinator's `IPCService`: `rendererLoadPromise` is `none`
before `initialize`, then `some none` while pending, `some (some true)` once
resolved and `some (some false)` once rejected; `webContents` says whether
`_webContents` is set. -/
structure MainIPCService where
  rendererLoadPromise : Option (Option Bool)
  webContents : Bool
deriving DecidableEq, Repr

/-- What becomes of a message handed to `_sendResponse`. -/
inductive SendOutcome
  | rejected (err : Option JsError)
  | waiting (data : ResponseData)
  | sent (data : ResponseData)
deriving DecidableEq, Repr

namespace MainIPCService

/-- The request types answered by the auto update manager. -/
def appTypes : List String :=
  ["app-update-install", "app-update-check", "app-update-channel-select",
   "app-update-status"]

/-- The request types forwarded with `Database.sendRequest(m)`. -/
def databaseTypes : List String :=
  ["database-select", "database-unload", "database-load", "database-save",
   "database-status", "content-compound", "content-query", "content-result-set",
   "content-insert", "content-update", "content-remove"]

/-- The method `IPCService.prototype._sendResponse(requestId, data)`; `data` is
`none` for a value that is not an object. -/
def _sendResponse (ipc : MainIPCService) (requestId : Int) (data : Option ResponseData) :
    SendOutcome :=
  match ipc.rendererLoadPromise with
  | none => SendOutcome.rejected (some ⟨"IPCError", CONST.ERROR_IPC_SEND_EARLY⟩)
  | some loaded =>
    let data : ResponseData := data.getD ⟨none, none, none, false, none, none⟩
    let data := { data with requestId := some requestId }
    match loaded with
    | none => SendOutcome.waiting data
    | some false => SendOutcome.rejected none
    | some true =>
      if !ipc.webContents then
        SendOutcome.rejected (some ⟨"IPCError", CONST.ERROR_IPC_SEND_NO_WEBCONTENTS⟩)
      else SendOutcome.sent data

/-- The method `IPCService.prototype._handleRequest(m)`. The state `db` is that
of the `Database` object the request is forwarded to; `outcome` is what the
promise of the request is settled with when it is not settled by the call
itself, `none` while it is pending. The result is the state of `Database`, the
messages sent to the data process, and what became of the response. -/
def _handleRequest (ipc : MainIPCService) (db : Database) (m : Option RequestData)
    (outcome : Option Outcome) : Database × List Effect × Option SendOutcome :=
  match m with
  | none => (db, [], none)
  | some m =>
    match m.requestId with
    | none => (db, [], none)
    | some requestId =>
      if requestId = 0 then (db, [], none)
      else if m.type ∈ appTypes then
        (db, [], outcome.map (fun o => _sendResponse ipc requestId o.data))
      else if m.type ∈ databaseTypes then
        let r := Database.sendRequest db m
        match r.2.1 with
        | SendResult.rejected err =>
          (r.1, r.2.2, some (_sendResponse ipc requestId (Outcome.error err).data))
        | SendResult.pending _ =>
          (r.1, r.2.2, outcome.map (fun o => _sendResponse ipc requestId o.data))
      else
        (db, [], some (_sendResponse ipc requestId
          (some ⟨none, none, none, true, none,
            some ⟨some "Error", some "Invalid Payload.", ""⟩⟩)))

end MainIPCService

/-! ## Data process: `ContentService` (`src/lib/data/content-service.js`) -/

/-- A tree of constants, as `CONST.ERROR.CONTENT` is one. -/
inductive ConstTree
  | text (value : String)
  | object (fields : List (String × ConstTree))

/-- Reading the property `key` of a constant; `none` is `undefined`. -/
def ConstTree.field (t : ConstTree) (key : String) : Option ConstTree :=
  match t with
  | ConstTree.text _ => none
  | ConstTree.object fields => fields.lookup key

/-- Evaluating the property chain `v.k1.k2...`: reading a property of
`undefined` throws a `TypeError`, whose message names the property. -/
def ConstTree.read : Option ConstTree → List String → Except JsError (Option ConstTree)
  | v, [] => Except.ok v
  | none, key :: _ =>
    Except.error ⟨"TypeError", "Cannot read property " ++ key ++ " of undefined"⟩
  | some t, key :: keys => ConstTree.read (t.field key) keys

namespace CONST

/-- The object `CONST.ERROR.CONTENT` of `src/lib/common/constants.js`. -/
def ERROR_CONTENT : ConstTree :=
  ConstTree.object [
    ("COMPOUND", ConstTree.object [
      ("TYPE", ConstTree.object [
        ("INVALID", ConstTree.text
          "Attempted to perform a compound operation with an invalid compound type.")]),
      ("OPTIONS", ConstTree.object [
        ("INVALID", ConstTree.text
          "Attempted to perform a compound operation with invalid options.")]),
      ("TITLE", ConstTree.text "Database Failed to Resolve Compound Operation."),
      ("GENERAL", ConstTree.text
        "An error occurred while performing a compound operation on the database.")]),
    ("QUERY", ConstTree.object [
      ("COLLECTION", ConstTree.object [
        ("INVALID", ConstTree.text
          "Attempted to query for documents with an unspecified collection."),
        ("NONEXISTENT", ConstTree.text
          "Attempted to query document(s) from a non-existent collection.")]),
      ("TYPE", ConstTree.object [
        ("INVALID", ConstTree.text
          "Attempted to query for documents with an invalid query type.")]),
      ("QUERY", ConstTree.object [
        ("INVALID", ConstTree.text
          "Attempted to query documents without a valid query object.")]),
      ("TITLE", ConstTree.text "Database Failed to Resolve Query."),
      ("GENERAL", ConstTree.text "An error occurred while querying the database.")]),
    ("RESULT_SET", ConstTree.object [
      ("COLLECTION", ConstTree.object [
        ("INVALID", ConstTree.text
          "Attempted to perform result set actions for an unspecified collection."),
        ("NONEXISTENT", ConstTree.text
          "Attempted to perform result set actions for a non-existent collection.")]),
      ("ACTION", ConstTree.object [
        ("TYPE", ConstTree.object [
          ("INVALID", ConstTree.text
            "Attempted to perform result set actions with an invalid action type."),
          ("UNSUPPORTED", ConstTree.text
            "Attempted to perform result set actions with an action type that is not yet supported.")]),
        ("ARGS", ConstTree.object [
          ("INVALID", ConstTree.text
            "Attempted to perform result set actions with invalid arguments.")])]),
      ("GENERAL", ConstTree.text
        "An error occurred while performing result set actions on the database.")]),
    ("INSERT", ConstTree.object [
      ("COLLECTION", ConstTree.object [
        ("NONEXISTENT", ConstTree.text
          "Attempted to insert document(s) into a non-existent collection.")]),
      ("DATA", ConstTree.object [
        ("INVALID", ConstTree.text "Attempted to insert invalid data.")]),
      ("GENERAL", ConstTree.text
        "An error occurred while inserting records into the database.")]),
    ("UPDATE", ConstTree.object [
      ("COLLECTION", ConstTree.object [
        ("NONEXISTENT", ConstTree.text
          "Attempted to update document(s) in a non-existent collection.")]),
      ("DATA", ConstTree.object [
        ("INVALID", ConstTree.text "Attempted to update invalid data.")]),
      ("GENERAL", ConstTree.text
        "An error occurred while updating records in the database.")]),
    ("REMOVE", ConstTree.object [
      ("COLLECTION", ConstTree.object [
        ("NONEXISTENT", ConstTree.text
          "Attempted to remove document(s) from a non-existent collection.")]),
      ("FILTER", ConstTree.object [
        ("INVALID", ConstTree.text
          "Attempted to remove documents without a valid filter object.")]),
      ("GENERAL", ConstTree.text
        "An error occurred while removing records from the database.")])]

def DB_QUERY_GET : String := "get"
def DB_QUERY_BY : String := "by"
def DB_QUERY_FIND : String := "find"
def DB_QUERY_FIND_OBJECT : String := "findObject"
def DB_QUERY_FIND_OBJECTS : String := "findObjects"
def DB_QUERY_FIND_ONE : String := "findOne"

def DB_RESULT_SET_FIND : String := "find"
def DB_RESULT_SET_WHERE : String := "where"
def DB_RESULT_SET_SORT : String := "sort"
def DB_RESULT_SET_SIMPLE_SORT : String := "simpleSort"
def DB_RESULT_SET_COMPOUND_SORT : String := "compoundSort"
def DB_RESULT_SET_UPDATE : String := "update"
def DB_RESULT_SET_REMOVE : String := "remove"
def DB_RESULT_SET_LIMIT : String := "limit"
def DB_RESULT_SET_OFFSET : String := "offset"

end CONST

/-- A document of a collection: its `$loki` id and its `name`. -/
structure Doc where
  loki : Nat
  name : String
deriving DecidableEq, Repr

/-- The collections of a Loki instance, by name. -/
abbrev Store := List (String × List Doc)

/-- The `options` of a query when they are an object: `id`, `field` and `value`
are the own properties of that name, `body` stands for the rest. -/
structure QueryOptions where
  id : Option String
  field : Option String
  value : Option String
  body : String
deriving DecidableEq, Repr

/-- One element of the `actions` of `runResultSetActions`: `type` is its `type`
when that is a string, `args` its `args` when they are an array. -/
structure Action where
  type : Option String
  args : Option (List String)
deriving DecidableEq, Repr

/-- The LokiJS methods whose result depends on the documents; they are taken as
total functions of the documents they are applied to. `read` stands for the
collection methods `get`, `by`, `find`, `findObject`, `findObjects` and
`findOne`, `chain` for the result set methods `find`, `simpleSort`,
`compoundSort`, `limit` and `offset`; `insert` gives the documents of the
collection afterwards and the inserted ones, `update` and `removeWhere` the
documents of the collection afterwards. -/
structure Loki where
  read : String → QueryOptions → List Doc → List Doc
  chain : String → List String → List Doc → List Doc
  insert : List Doc → List Doc → List Doc × List Doc
  update : List Doc → List Doc → List Doc
  removeWhere : String → List Doc → List Doc

/-- The method `getCollection(collectionName)` of the data service, on the
content of `this._db`; `none` for `db` is an `undefined` field, whose property
cannot be read. -/
def DataService.getCollection (db : Option Store) (collectionName : Option String) :
    Except JsError (Option (List Doc)) :=
  match db with
  | none => Except.error ⟨"TypeError", "Cannot read property getCollection of undefined"⟩
  | some store =>
    match collectionName with
    | none => Except.ok none
    | some name => Except.ok (store.lookup name)

/-- Replacing the documents of a collection of the store. -/
def Store.setCollection (db : Option Store) (collectionName : Option String)
    (docs : List Doc) : Option Store :=
  match db, collectionName with
  | some store, some name =>
    some (store.map (fun c => if c.1 = name then (name, docs) else c))
  | _, _ => db

/-- The result set method `remove()` on the collection `name`, for a result set
holding `rows`: those documents leave the collection. -/
def Store.removeRows (db : Option Store) (name : String) (rows : List Doc) : Option Store :=
  db.map (fun store =>
    store.map (fun c => if c.1 = name then (c.1, c.2.filter (fun d => !rows.contains d)) else c))

namespace ContentService

/-- The value thrown by `throw new DatabaseError(CONST.ERROR.CONTENT.<path>)`. The
argument is evaluated before the error is constructed, so a path that leaves
the constants throws the `TypeError` of the property access instead. -/
def databaseError (path : List String) : JsError :=
  match ConstTree.read (some CONST.ERROR_CONTENT) path with
  | Except.error e => e
  | Except.ok (some (ConstTree.text message)) => ⟨"DatabaseError", message⟩
  | Except.ok _ => ⟨"DatabaseError", ""⟩

/-- The method `compound(type, options)`; `options` is `none` when it is not an
object. -/
def compound (db : Option Store) (_type : Option String) (options : Option String) :
    Option Store × Except JsError (Option (List Doc)) :=
  match options with
  | none => (db, Except.error (databaseError ["COMPOUND", "OPTIONS", "INVALID"]))
  | some _ => (db, Except.error (databaseError ["COMPOUND", "TYPE", "INVALID"]))

/-- The method `query(collectionName, type, options)`; `collectionName` and
`type` are `none` when they are not strings, `options` when it is not an
object. -/
def query (loki : Loki) (db : Option Store) (collectionName type : Option String)
    (options : Option QueryOptions) : Option Store × Except JsError (Option (List Doc)) :=
  match options with
  | none => (db, Except.error (databaseError ["QUERY", "QUERY", "INVALID"]))
  | some options =>
    match collectionName with
    | none => (db, Except.error (databaseError ["QUERY", "COLLECTION", "INVALID"]))
    | some name =>
      match DataService.getCollection db (some name) with
      | Except.error e => (db, Except.error e)
      | Except.ok none =>
        (db, Except.error (databaseError ["QUERY", "COLLECTION", "NONEXISTENT"]))
      | Except.ok (some docs) =>
        if type = some CONST.DB_QUERY_GET then
          if options.id.isNone then
            (db, Except.error (databaseError ["QUERY", "QUERY", "INVALID"]))
          else (db, Except.ok (some (loki.read CONST.DB_QUERY_GET options docs)))
        else if type = some CONST.DB_QUERY_BY then
          if options.field.isNone || options.value.isNone then
            (db, Except.error (databaseError ["QUERY", "QUERY", "INVALID"]))
          else (db, Except.ok (some (loki.read CONST.DB_QUERY_BY options docs)))
        else if type = some CONST.DB_QUERY_FIND then
          (db, Except.ok (some (loki.read CONST.DB_QUERY_FIND options docs)))
        else if type = some CONST.DB_QUERY_FIND_OBJECT then
          (db, Except.ok (some (loki.read CONST.DB_QUERY_FIND_OBJECT options docs)))
        else if type = some CONST.DB_QUERY_FIND_OBJECTS then
          (db, Except.ok (some (loki.read CONST.DB_QUERY_FIND_OBJECTS options docs)))
        else if type = some CONST.DB_QUERY_FIND_ONE then
          (db, Except.ok (some (loki.read CONST.DB_QUERY_FIND_ONE options docs)))
        else (db, Except.error (databaseError ["QUERY", "TYPE", "INVALID"]))

/-- The loop `for (let action of actions)` of `runResultSetActions` and the final
`resultSet.data()`, for a result set on the collection `name` holding `rows`. -/
def runActions (loki : Loki) (name : String) :
    Option Store → List Doc → List Action → Option Store × Except JsError (Option (List Doc))
  | db, rows, [] => (db, Except.ok (some rows))
  | db, rows, action :: actions =>
    match action.args with
    | none => (db, Except.error (databaseError ["RESULT_SET", "ARGS", "INVALID"]))
    | some args =>
      if action.type = some CONST.DB_RESULT_SET_FIND
          ∨ action.type = some CONST.DB_RESULT_SET_SIMPLE_SORT
          ∨ action.type = some CONST.DB_RESULT_SET_COMPOUND_SORT
          ∨ action.type = some CONST.DB_RESULT_SET_LIMIT
          ∨ action.type = some CONST.DB_RESULT_SET_OFFSET then
        runActions loki name db (loki.chain (action.type.getD "") args rows) actions
      else if action.type = some CONST.DB_RESULT_SET_REMOVE then
        runActions loki name (Store.removeRows db name rows) [] actions
      else if action.type = some CONST.DB_RESULT_SET_WHERE
          ∨ action.type = some CONST.DB_RESULT_SET_SORT
          ∨ action.type = some CONST.DB_RESULT_SET_UPDATE then
        (db, Except.error (databaseError ["RESULT_SET", "TYPE", "UNSUPPORTED"]))
      else (db, Except.error (databaseError ["RESULT_SET", "TYPE", "INVALID"]))

/-- The method `runResultSetActions(collection, actions)`; `actions` is `none`
when it is not an array, `collection` when it is not a string. -/
def runResultSetActions (loki : Loki) (db : Option Store) (collection : Option String)
    (actions : Option (List Action)) : Option Store × Except JsError (Option (List Doc)) :=
  match actions with
  | none => (db, Except.error (databaseError ["RESULT_SET", "ACTIONS", "INVALID"]))
  | some actions =>
    match collection with
    | none => (db, Except.error (databaseError ["RESULT_SET", "COLLECTION", "INVALID"]))
    | some name =>
      match DataService.getCollection db (some name) with
      | Except.error e => (db, Except.error e)
      | Except.ok none =>
        (db, Except.error (databaseError ["RESULT_SET", "COLLECTION", "NONEXISTENT"]))
      | Except.ok (some docs) => runActions loki name db docs actions

/-- The method `insert(collectionName, data)`; `data` is `none` when it is
neither an array nor an object. -/
def insert (loki : Loki) (db : Option Store) (collectionName : Option String)
    (data : Option (List Doc)) : Option Store × Except JsError (Option (List Doc)) :=
  match data with
  | none => (db, Except.error (databaseError ["INSERT", "DATA", "INVALID"]))
  | some data =>
    match DataService.getCollection db collectionName with
    | Except.error e => (db, Except.error e)
    | Except.ok none =>
      (db, Except.error (databaseError ["INSERT", "COLLECTION", "NONEXISTENT"]))
    | Except.ok (some docs) =>
      (Store.setCollection db collectionName (loki.insert data docs).1,
        Except.ok (some (loki.insert data docs).2))

/-- The method `update(collectionName, data)`; it returns `undefined`. -/
def update (loki : Loki) (db : Option Store) (collectionName : Option String)
    (data : Option (List Doc)) : Option Store × Except JsError (Option (List Doc)) :=
  match data with
  | none => (db, Except.error (databaseError ["UPDATE", "DATA", "INVALID"]))
  | some data =>
    match DataService.getCollection db collectionName with
    | Except.error e => (db, Except.error e)
    | Except.ok none =>
      (db, Except.error (databaseError ["UPDATE", "COLLECTION", "NONEXISTENT"]))
    | Except.ok (some docs) =>
      (Store.setCollection db collectionName (loki.update data docs), Except.ok none)

/-- The method `remove(collectionName, filter)`; `filter` is `none` when it is
not an object. -/
def remove (loki : Loki) (db : Option Store) (collectionName : Option String)
    (filter : Option String) : Option Store × Except JsError (Option (List Doc)) :=
  match filter with
  | none => (db, Except.error (databaseError ["REMOVE", "FILTER", "INVALID"]))
  | some filter =>
    match DataService.getCollection db collectionName with
    | Except.error e => (db, Except.error e)
    | Except.ok none =>
      (db, Except.error (databaseError ["REMOVE", "COLLECTION", "NONEXISTENT"]))
    | Except.ok (some docs) =>
      (Store.setCollection db collectionName (loki.removeWhere filter docs), Except.ok none)

end ContentService

/-- Whether the loop of `runResultSetActions` applies the action to the result
set: its `args` are an array and its `type` is one of the six the `switch` calls
the result set method for. Any other action makes the loop throw. -/
def ContentService.applies (a : Action) : Bool :=
  a.args.isSome &&
    decide (a.type = some CONST.DB_RESULT_SET_FIND
      ∨ a.type = some CONST.DB_RESULT_SET_SIMPLE_SORT
      ∨ a.type = some CONST.DB_RESULT_SET_COMPOUND_SORT
      ∨ a.type = some CONST.DB_RESULT_SET_LIMIT
      ∨ a.type = some CONST.DB_RESULT_SET_OFFSET
      ∨ a.type = some CONST.DB_RESULT_SET_REMOVE)

/-! ## Data process: the data service together with the content of its stores -/

/-- A call of one of the methods of the content service. -/
inductive ContentOp
  | compound (type : Option String) (options : Option String)
  | query (collectionName type : Option String) (options : Option QueryOptions)
  | runResultSetActions (collection : Option String) (actions : Option (List Action))
  | insert (collectionName : Option String) (data : Option (List Doc))
  | update (collectionName : Option String) (data : Option (List Doc))
  | remove (collectionName : Option String) (filter : Option String)
deriving DecidableEq, Repr

/-- The call `op` on the content `db` of `DataService._db`: the content
afterwards and what the call returned or threw. -/
def ContentService.call (loki : Loki) (db : Option Store) :
    ContentOp → Option Store × Except JsError (Option (List Doc))
  | ContentOp.compound type options => ContentService.compound db type options
  | ContentOp.query collectionName type options =>
    ContentService.query loki db collectionName type options
  | ContentOp.runResultSetActions collection actions =>
    ContentService.runResultSetActions loki db collection actions
  | ContentOp.insert collectionName data => ContentService.insert loki db collectionName data
  | ContentOp.update collectionName data => ContentService.update loki db collectionName data
  | ContentOp.remove collectionName filter =>
    ContentService.remove loki db collectionName filter

/-- The data service and the content of the Loki instances it created, by
handle; an instance without an entry has no collections. -/
structure DataProcess where
  service : DataService
  stores : List (Nat × Store)
deriving DecidableEq, Repr

/-- What can happen in the data process: an event of the data service, a call
of `selectProduct`, a call of the content service, and the Loki adapter
handing the content it read to the current instance. -/
inductive DataOp
  | event (e : DataEvent)
  | selectProduct (product : Option String)
  | content (op : ContentOp)
  | adapter (content : Store)
deriving DecidableEq, Repr

namespace DataProcess

/-- The data process after its modules were loaded. -/
def new : DataProcess := ⟨DataService.new, []⟩

/-- The content of `DataService._db`; `none` when the field is `undefined`. -/
def db (p : DataProcess) : Option Store :=
  p.service.db.map (fun h => (p.stores.lookup h).getD [])

/-- Recording the content of `DataService._db`. -/
def setDb (p : DataProcess) (content : Option Store) : DataProcess :=
  match p.service.db, content with
  | some h, some store =>
    { p with stores := (h, store) :: p.stores.filter (fun c => c.1 != h) }
  | _, _ => p

/-- One step of the data process. -/
def step (loki : Loki) (p : DataProcess) : DataOp → DataProcess
  | DataOp.event e => { p with service := DataService.step p.service e }
  | DataOp.selectProduct product =>
    { p with service := (DataService.selectProduct p.service product).1 }
  | DataOp.content op => setDb p (ContentService.call loki (db p) op).1
  | DataOp.adapter content => setDb p (some content)

/-- A sequence of steps of the data process. -/
def run (loki : Loki) (p : DataProcess) : List DataOp → DataProcess
  | [] => p
  | op :: ops => run loki (step loki p op) ops

end DataProcess

/-! ## Concrete inputs used by the closed statements below -/

/-- Renderer service with one request (id 1, promise 0) in flight. -/
def rendererOnePending : IPCService :=
  (IPCService.sendRequest IPCService.new "content-query" none).1

/-- Coordinator with a connected data process and one request (id 1, promise 0)
in flight. -/
def coordinatorOnePending : Database :=
  (Database.sendRequest { Database.new with databaseProcess := some ⟨true⟩ }
    ⟨none, "database-status", none, Payload.empty⟩).1

/-- Coordinator whose data process handle reports not connected. -/
def coordinatorDisconnected : Database :=
  { Database.new with databaseProcess := some ⟨false⟩ }

/-- A request message as the coordinator receives it from the renderer. -/
def statusRequest : RequestData := ⟨none, "database-status", some 5, Payload.empty⟩

/-- A successful response to request 1 whose payload is a document named
`ErrorLog`; the message itself has no `name`. -/
def documentResponse : Response :=
  ⟨some 1, none, false, none, ⟨some "ErrorLog", none, "document"⟩⟩

/-- A response to request 7, which nobody sent. -/
def strayResponse : Response := ⟨some 7, none, false, none, Payload.empty⟩

/-- Events that select the directory `/proj` with the products `alpha` and
`beta`, after the deferred gate generation of the constructor ran. -/
def selectProj : List DataEvent :=
  [DataEvent.nextTick,
   DataEvent.selectProjectDirectory (some "/proj"),
   DataEvent.getProductsResolved "/proj" [("alpha", true), ("beta", true)]]

/-- Data service with `/proj` selected and no product loaded. -/
def projectSelected : DataService := DataService.run DataService.new selectProj

/-- Data service in the middle of loading `alpha`. -/
def loadingAlpha : DataService :=
  DataService.run projectSelected [DataEvent.loadDatabase (some "alpha") false]

/-- Data service after `alpha` was loaded successfully. -/
def readyAlpha : DataService :=
  DataService.run loadingAlpha [DataEvent.loadCallback none none, DataEvent.continuation]

/-- Data service after the load of `alpha` failed in Loki. -/
def failedAlpha : DataService :=
  DataService.run loadingAlpha [DataEvent.loadCallback none (some ⟨"Error", "disk"⟩)]

/-- Events after `loadingAlpha`: Loki reports success, a load of `beta` is
accepted before the continuation of the first load has run, then that
continuation runs. -/
def overlappingLoads : List DataEvent :=
  [DataEvent.loadCallback none none,
   DataEvent.loadDatabase (some "beta") false,
   DataEvent.continuation]

/-- Events after `loadingAlpha`: the service is unloaded during the load, the
deferred gate generation runs, a save is accepted, and then the load completes
and its continuation runs. -/
def unloadDuringLoad : List DataEvent :=
  [DataEvent.unloadDatabase,
   DataEvent.nextTick,
   DataEvent.saveDatabase,
   DataEvent.loadCallback none none,
   DataEvent.continuation]

/-- Events from construction: the deferred gate generation, an unload while that
first gate is unsettled, and the deferred gate generation of the unload. -/
def unloadBeforeLoad : List DataEvent :=
  [DataEvent.nextTick, DataEvent.unloadDatabase, DataEvent.nextTick]

/-- Events from construction: select `/proj`, load `alpha` successfully, unload,
and let the deferred gate generation run. -/
def loadThenUnload : List DataEvent :=
  selectProj ++
    [DataEvent.loadDatabase (some "alpha") false,
     DataEvent.loadCallback none none,
     DataEvent.continuation,
     DataEvent.unloadDatabase,
     DataEvent.nextTick]

/-- A directory listing: a hidden directory, two product directories and a
file. -/
def projListing : List (String × Bool) :=
  [(".git", true), ("alpha", true), ("notes.txt", false), ("beta", true)]

/-- The collection the Loki adapter creates. -/
def exampleStore : Store :=
  [("product.example",
    [⟨1, "Jane"⟩, ⟨2, "Steve"⟩, ⟨3, "Alex"⟩, ⟨4, "Susie"⟩, ⟨5, "Charles"⟩, ⟨6, "Brit"⟩])]

/-- Loki methods that find every document and change none. -/
def lokiPlain : Loki :=
  { read := fun _ _ docs => docs
    chain := fun _ _ rows => rows
    insert := fun data docs => (docs ++ data, data)
    update := fun _ docs => docs
    removeWhere := fun _ docs => docs }

/-- An Errio whose text of an error is its message and whose parser reads a
text back as an `Error` with that message. -/
def errioPlain : Errio :=
  { stringify := fun p =>
      match p with
      | JsPayload.object o => o.message.getD "Error"
      | JsPayload.text t => t
      | JsPayload.undefined => "undefined"
    parse := fun p =>
      match p with
      | JsPayload.text t => JsPayload.object ⟨some "Error", some t, ""⟩
      | other => other }

/-- Coordinator service with the renderer loaded. -/
def mainReady : MainIPCService := ⟨some (some true), true⟩

/-- Coordinator with a connected data process. -/
def coordinatorConnected : Database :=
  { Database.new with databaseProcess := some ⟨true⟩ }

/-- Steps from the start of the data process: select `/proj`, load `alpha` with
the content of the adapter, and insert a document into the example
collection. -/
def contentSession : List DataOp :=
  selectProj.map DataOp.event ++
    [DataOp.event (DataEvent.loadDatabase (some "alpha") false),
     DataOp.adapter exampleStore,
     DataOp.event (DataEvent.loadCallback none none),
     DataOp.event DataEvent.continuation,
     DataOp.content (ContentOp.insert (some "product.example") (some [⟨7, "Kim"⟩]))]

/-- The data process after `contentSession`: `alpha` is loaded and the example
collection holds seven documents. -/
def loadedProcess : DataProcess :=
  DataProcess.run lokiPlain DataProcess.new contentSession

/-! ## Lemmas on the `_requestPromises` object -/

theorem requestPromises_get_delete_self (m : RequestPromises) (i : Int) :
    RequestPromises.get (RequestPromises.delete m i) i = none := by
  induction m with
  | nil => rfl
  | cons e m ih =>
    obtain ⟨k, v⟩ := e
    by_cases h : k = i
    · simp [RequestPromises.delete, h, ih]
    · simp [RequestPromises.delete, RequestPromises.get, h, ih]

theorem requestPromises_get_delete_of_ne (m : RequestPromises) (i j : Int) (hj : j ≠ i) :
    RequestPromises.get (RequestPromises.delete m i) j = RequestPromises.get m j := by
  induction m with
  | nil => rfl
  | cons e m ih =>
    obtain ⟨k, v⟩ := e
    by_cases h : k = i
    · subst h
      simp [RequestPromises.delete, RequestPromises.get, ih, Ne.symm hj]
    · by_cases h2 : k = j
      · subst h2
        simp [RequestPromises.delete, RequestPromises.get, h]
      · simp [RequestPromises.delete, RequestPromises.get, h, h2, ih]

/-! ## Lemmas on transmitted ids -/

theorem sentIds_append (a b : List Effect) : sentIds (a ++ b) = sentIds a ++ sentIds b := by
  induction a with
  | nil => rfl
  | cons e a ih => cases e <;> simp [sentIds, ih]

theorem renderer_handle_gen (s : IPCService) (data : Option Response) :
    (IPCService._handleRequestResponse s data).1.requestIdGenerator = s.requestIdGenerator := by
  cases data with
  | none => rfl
  | some d =>
    cases hi : d.requestId with
    | none => simp [IPCService._handleRequestResponse, hi]
    | some i =>
      cases hg : RequestPromises.get s.requestPromises i <;>
        simp [IPCService._handleRequestResponse, hi, hg]

theorem renderer_handle_sentIds (s : IPCService) (data : Option Response) :
    sentIds (IPCService._handleRequestResponse s data).2 = [] := by
  cases data with
  | none => rfl
  | some d =>
    cases hi : d.requestId with
    | none => simp [IPCService._handleRequestResponse, hi, sentIds]
    | some i =>
      cases hg : RequestPromises.get s.requestPromises i with
      | none => simp [IPCService._handleRequestResponse, hi, hg, sentIds]
      | some rs =>
        cases hst : d.status <;>
          simp only [IPCService._handleRequestResponse, hi, hg, hst, sentIds_append] <;>
          split_ifs <;> simp [sentIds]

theorem coordinator_handle_gen (s : Database) (data : Option Response) :
    (Database._handleRequestResponse s data).1.requestIdGenerator = s.requestIdGenerator := by
  cases data with
  | none => rfl
  | some d =>
    cases hi : d.requestId with
    | none => simp [Database._handleRequestResponse, hi]
    | some i =>
      cases hg : RequestPromises.get s.requestPromises i <;>
        simp [Database._handleRequestResponse, hi, hg]

theorem coordinator_handle_sentIds (s : Database) (data : Option Response) :
    sentIds (Database._handleRequestResponse s data).2 = [] := by
  cases data with
  | none => rfl
  | some d =>
    cases hi : d.requestId with
    | none => simp [Database._handleRequestResponse, hi, sentIds]
    | some i =>
      cases hg : RequestPromises.get s.requestPromises i with
      | none => simp [Database._handleRequestResponse, hi, hg, sentIds]
      | some rs =>
        simp only [Database._handleRequestResponse, hi, hg]
        split_ifs <;> simp [sentIds]

theorem renderer_run_sentIds (evs : List RendererEvent) (s : IPCService) :
    sentIds (IPCService.run s evs).2 =
      (List.range' s.requestIdGenerator (RendererEvent.sends evs)).map Int.ofNat := by
  induction evs generalizing s with
  | nil => rfl
  | cons e es ih =>
    cases e with
    | sendRequest type payload =>
      simp only [IPCService.run, IPCService.step, sentIds_append, RendererEvent.sends, ih]
      simp [IPCService.sendRequest, requestIdGenerator_next, sentIds, List.range'_succ]
    | response data =>
      simp only [IPCService.run, IPCService.step, sentIds_append, RendererEvent.sends, ih,
        renderer_handle_sentIds, renderer_handle_gen, List.nil_append]

theorem coordinator_run_sentIds (evs : List DatabaseEvent) (s : Database) :
    ∃ n, sentIds (Database.run s evs).2 =
      (List.range' s.requestIdGenerator n).map Int.ofNat := by
  induction evs generalizing s with
  | nil => exact ⟨0, rfl⟩
  | cons e es ih =>
    cases e with
    | sendRequest data =>
      simp only [Database.run, Database.step, sentIds_append]
      cases hp : s.databaseProcess with
      | none =>
        obtain ⟨n, hn⟩ := ih s
        refine ⟨n, ?_⟩
        simp [Database.sendRequest, Database._generateRequestPromise, hp, sentIds, hn]
      | some p =>
        cases hc : p.connected with
        | false =>
          obtain ⟨n, hn⟩ := ih s
          refine ⟨n, ?_⟩
          simp [Database.sendRequest, Database._generateRequestPromise, hp, hc, sentIds, hn]
        | true =>
          obtain ⟨n, hn⟩ := ih (Database.sendRequest s data).1
          refine ⟨n + 1, ?_⟩
          rw [hn]
          simp [Database.sendRequest, Database._generateRequestPromise, hp, hc, sentIds,
            requestIdGenerator_next, List.range'_succ]
    | response data =>
      obtain ⟨n, hn⟩ := ih (Database._handleRequestResponse s data).1
      refine ⟨n, ?_⟩
      simp only [Database.run, Database.step, sentIds_append, coordinator_handle_sentIds,
        List.nil_append, hn, coordinator_handle_gen]
    | setProcess p =>
      obtain ⟨n, hn⟩ := ih { s with databaseProcess := p }
      refine ⟨n, ?_⟩
      simp only [Database.run, Database.step, sentIds_append, sentIds, List.nil_append, hn]

theorem countUp_eq (n : Nat) :
    (List.range' 1 n).map Int.ofNat = (List.range n).map (fun k : Nat => (k : Int) + 1) := by
  rw [List.range'_eq_map_range, List.map_map]
  apply List.map_congr_left
  intro k _
  simp [Function.comp]
  omega

theorem countUp_pairwise (n : Nat) :
    ((List.range n).map (fun k : Nat => (k : Int) + 1)).Pairwise (fun a b => a < b) := by
  rw [List.pairwise_map]
  have h := List.pairwise_lt_range n
  exact h.imp (fun {a b} hab => by omega)

/-! ## Request channel: the claims -/

/-- C1. On both request channels the k-th transmitted request carries id k: for
every interleaving of sends, responses and (on the coordinator) changes of the
process handle, the ids transmitted so far are exactly 1, 2, ..., n in this
order; in the renderer n is the number of `sendRequest` calls. The ids are
therefore strictly increasing and pairwise distinct. -/
theorem requestIds_count_up (revs : List RendererEvent) (devs : List DatabaseEvent) :
    sentIds (IPCService.run IPCService.new revs).2 =
        (List.range (RendererEvent.sends revs)).map (fun k : Nat => (k : Int) + 1) ∧
      sentIds (Database.run Database.new devs).2 =
        (List.range (sentIds (Database.run Database.new devs).2).length).map
          (fun k : Nat => (k : Int) + 1) ∧
      (sentIds (IPCService.run IPCService.new revs).2).Pairwise (fun a b => a < b) ∧
      (sentIds (Database.run Database.new devs).2).Pairwise (fun a b => a < b) ∧
      (sentIds (IPCService.run IPCService.new revs).2).Nodup ∧
      (sentIds (Database.run Database.new devs).2).Nodup := by
  have hr : sentIds (IPCService.run IPCService.new revs).2 =
      (List.range (RendererEvent.sends revs)).map (fun k : Nat => (k : Int) + 1) := by
    rw [renderer_run_sentIds]
    exact countUp_eq _
  obtain ⟨n, hn⟩ := coordinator_run_sentIds devs Database.new
  have hd : sentIds (Database.run Database.new devs).2 =
      (List.range n).map (fun k : Nat => (k : Int) + 1) := by
    rw [hn]
    exact countUp_eq _
  have hlen : (sentIds (Database.run Database.new devs).2).length = n := by
    rw [hd]; simp
  have hpr := countUp_pairwise (RendererEvent.sends revs)
  have hpd := countUp_pairwise n
  refine ⟨hr, ?_, ?_, ?_, ?_, ?_⟩
  · rw [hlen]; exact hd
  · rw [hr]; exact hpr
  · rw [hd]; exact hpd
  · rw [hr]; exact hpr.imp (fun {a b} hab => ne_of_lt hab)
  · rw [hd]; exact hpd.imp (fun {a b} hab => ne_of_lt hab)

/-- C2. A response whose requestId is missing, or has no entry in the pending
map, is dropped by both handlers: the handler returns normally, the whole state
(the pending map included) is unchanged, and the only effects are the error log
(and, in the renderer, the error notification), so no promise is resolved or
rejected. A falsy message is dropped the same way. -/
theorem orphan_response_dropped (r : IPCService) (c : Database) (d : Response)
    (hr : ∀ i, d.requestId = some i → RequestPromises.get r.requestPromises i = none)
    (hc : ∀ i, d.requestId = some i → RequestPromises.get c.requestPromises i = none) :
    IPCService._handleRequestResponse r (some d) =
        (r, [Effect.logError CONST.ERROR_IPC_RESPONSE_NONEXISTENT_REQUEST,
             Effect.notifyError CONST.ERROR_IPC_RESPONSE_NONEXISTENT_REQUEST]) ∧
      Database._handleRequestResponse c (some d) =
        (c, [Effect.logError CONST.ERROR_IPC_RESPONSE_NONEXISTENT_REQUEST]) ∧
      IPCService._handleRequestResponse r none =
        (r, [Effect.logError CONST.ERROR_IPC_RESPONSE_NONEXISTENT_REQUEST,
             Effect.notifyError CONST.ERROR_IPC_RESPONSE_NONEXISTENT_REQUEST]) ∧
      Database._handleRequestResponse c none =
        (c, [Effect.logError CONST.ERROR_IPC_RESPONSE_NONEXISTENT_REQUEST]) := by
  refine ⟨?_, ?_, rfl, rfl⟩
  · cases hi : d.requestId with
    | none => simp [IPCService._handleRequestResponse, hi]
    | some i => simp [IPCService._handleRequestResponse, hi, hr i hi]
  · cases hi : d.requestId with
    | none => simp [Database._handleRequestResponse, hi]
    | some i => simp [Database._handleRequestResponse, hi, hc i hi]

/-- Witness of C2: a response to request 7 while only request 1 is in flight. -/
theorem orphan_response_dropped_witness :
    RequestPromises.get rendererOnePending.requestPromises 1 = some ⟨0⟩ ∧
      RequestPromises.get coordinatorOnePending.requestPromises 1 = some ⟨0⟩ ∧
      IPCService._handleRequestResponse rendererOnePending (some strayResponse) =
        (rendererOnePending,
          [Effect.logError CONST.ERROR_IPC_RESPONSE_NONEXISTENT_REQUEST,
           Effect.notifyError CONST.ERROR_IPC_RESPONSE_NONEXISTENT_REQUEST]) ∧
      Database._handleRequestResponse coordinatorOnePending (some strayResponse) =
        (coordinatorOnePending,
          [Effect.logError CONST.ERROR_IPC_RESPONSE_NONEXISTENT_REQUEST]) :=
  have h := orphan_response_dropped rendererOnePending coordinatorOnePending strayResponse
    (by intro i hi; cases hi; decide) (by intro i hi; cases hi; decide)
  ⟨by decide, by decide, h.1, h.2.1⟩

/-- C3. A response whose requestId has an entry settles the promise of that
entry exactly once and settles no other promise, removes that entry, leaves
every other entry and the id generator as they were; any further response with
the same requestId is then dropped as an orphan. This holds for the renderer
and for the coordinator. -/
theorem matched_response_settles_once (r : IPCService) (c : Database) (d d2 : Response)
    (i : Int) (rr rc : Resolvers)
    (hi : d.requestId = some i) (hi2 : d2.requestId = some i)
    (hr : RequestPromises.get r.requestPromises i = some rr)
    (hc : RequestPromises.get c.requestPromises i = some rc) :
    (((IPCService._handleRequestResponse r (some d)).2.filter Effect.isSettle).length = 1 ∧
      ((IPCService._handleRequestResponse r (some d)).2.filter
        (Effect.settles rr.future)).length = 1 ∧
      RequestPromises.get (IPCService._handleRequestResponse r (some d)).1.requestPromises i
        = none ∧
      (∀ j, j ≠ i →
        RequestPromises.get (IPCService._handleRequestResponse r (some d)).1.requestPromises j
          = RequestPromises.get r.requestPromises j) ∧
      (IPCService._handleRequestResponse r (some d)).1.requestIdGenerator
        = r.requestIdGenerator ∧
      IPCService._handleRequestResponse
          (IPCService._handleRequestResponse r (some d)).1 (some d2) =
        ((IPCService._handleRequestResponse r (some d)).1,
          [Effect.logError CONST.ERROR_IPC_RESPONSE_NONEXISTENT_REQUEST,
           Effect.notifyError CONST.ERROR_IPC_RESPONSE_NONEXISTENT_REQUEST])) ∧
    (((Database._handleRequestResponse c (some d)).2.filter Effect.isSettle).length = 1 ∧
      ((Database._handleRequestResponse c (some d)).2.filter
        (Effect.settles rc.future)).length = 1 ∧
      RequestPromises.get (Database._handleRequestResponse c (some d)).1.requestPromises i
        = none ∧
      (∀ j, j ≠ i →
        RequestPromises.get (Database._handleRequestResponse c (some d)).1.requestPromises j
          = RequestPromises.get c.requestPromises j) ∧
      (Database._handleRequestResponse c (some d)).1.requestIdGenerator
        = c.requestIdGenerator ∧
      (Database._handleRequestResponse c (some d)).1.databaseProcess = c.databaseProcess ∧
      Database._handleRequestResponse
          (Database._handleRequestResponse c (some d)).1 (some d2) =
        ((Database._handleRequestResponse c (some d)).1,
          [Effect.logError CONST.ERROR_IPC_RESPONSE_NONEXISTENT_REQUEST])) := by
  have er : (IPCService._handleRequestResponse r (some d)).1 =
      { r with requestPromises := RequestPromises.delete r.requestPromises i } := by
    simp [IPCService._handleRequestResponse, hi, hr]
  have ec : (Database._handleRequestResponse c (some d)).1 =
      { c with requestPromises := RequestPromises.delete c.requestPromises i } := by
    simp [Database._handleRequestResponse, hi, hc]
  refine ⟨⟨?_, ?_, ?_, ?_, ?_, ?_⟩, ⟨?_, ?_, ?_, ?_, ?_, ?_, ?_⟩⟩
  · cases hst : d.status <;>
      simp only [IPCService._handleRequestResponse, hi, hr, hst] <;>
      split_ifs <;> simp [Effect.isSettle]
  · cases hst : d.status <;>
      simp only [IPCService._handleRequestResponse, hi, hr, hst] <;>
      split_ifs <;> simp [Effect.settles]
  · rw [er]; exact requestPromises_get_delete_self _ _
  · intro j hj; rw [er]; exact requestPromises_get_delete_of_ne _ _ _ hj
  · rw [er]
  · rw [er]
    simp [IPCService._handleRequestResponse, hi2, requestPromises_get_delete_self]
  · simp only [Database._handleRequestResponse, hi, hc]
    split_ifs <;> simp [Effect.isSettle]
  · simp only [Database._handleRequestResponse, hi, hc]
    split_ifs <;> simp [Effect.settles]
  · rw [ec]; exact requestPromises_get_delete_self _ _
  · intro j hj; rw [ec]; exact requestPromises_get_delete_of_ne _ _ _ hj
  · rw [ec]
  · rw [ec]
  · rw [ec]
    simp [Database._handleRequestResponse, hi2, requestPromises_get_delete_self]

/-- Witness of C3: request 1 is in flight on both channels and is answered
twice. -/
theorem matched_response_settles_once_witness :
    documentResponse.requestId = some 1 ∧
      RequestPromises.get rendererOnePending.requestPromises 1 = some ⟨0⟩ ∧
      RequestPromises.get coordinatorOnePending.requestPromises 1 = some ⟨0⟩ ∧
      ((IPCService._handleRequestResponse rendererOnePending
        (some documentResponse)).2.filter (Effect.settles 0)).length = 1 ∧
      ((Database._handleRequestResponse coordinatorOnePending
        (some documentResponse)).2.filter (Effect.settles 0)).length = 1 ∧
      RequestPromises.get (IPCService._handleRequestResponse rendererOnePending
        (some documentResponse)).1.requestPromises 1 = none ∧
      RequestPromises.get (Database._handleRequestResponse coordinatorOnePending
        (some documentResponse)).1.requestPromises 1 = none :=
  have h := matched_response_settles_once rendererOnePending coordinatorOnePending
    documentResponse documentResponse 1 ⟨0⟩ ⟨0⟩ rfl rfl (by decide) (by decide)
  ⟨rfl, by decide, by decide, h.1.2.1, h.2.2.1, h.1.2.2.1, h.2.2.2.1⟩

/-- C4 as stated fails: the renderer does not look at the name declared by the
payload. Request 1 is in flight; its response has the error flag off, no `name`
of its own, and a payload whose `name` is `ErrorLog`. The payload name contains
`Error`, yet the promise is resolved with the payload and nothing is rejected. -/
theorem payload_name_is_not_sniffed :
    nameHasError documentResponse.payload.name = true ∧
      RequestPromises.get rendererOnePending.requestPromises 1 = some ⟨0⟩ ∧
      (IPCService._handleRequestResponse rendererOnePending (some documentResponse)).2 =
        [Effect.resolve 0 (Value.payload documentResponse.payload)] := by
  decide

/-- C4, amended. For a response that matches a pending request the renderer
settles the request promise exactly as follows: if the response message itself
has a string `name` containing `Error`, the promise is rejected with the whole
response message; otherwise, if the error flag is set, it is rejected with the
response payload; otherwise it is resolved with the response payload. -/
theorem renderer_settles_by_message_name (r : IPCService) (d : Response) (i : Int)
    (rr : Resolvers) (hi : d.requestId = some i)
    (hr : RequestPromises.get r.requestPromises i = some rr) :
    (nameHasError d.name = true →
      (IPCService._handleRequestResponse r (some d)).2.filter Effect.isSettle =
        [Effect.reject rr.future (Value.message d)]) ∧
    (nameHasError d.name = false → d.error = true →
      (IPCService._handleRequestResponse r (some d)).2.filter Effect.isSettle =
        [Effect.reject rr.future (Value.payload d.payload)]) ∧
    (nameHasError d.name = false → d.error = false →
      (IPCService._handleRequestResponse r (some d)).2.filter Effect.isSettle =
        [Effect.resolve rr.future (Value.payload d.payload)]) := by
  refine ⟨?_, ?_, ?_⟩
  · intro hn
    cases hst : d.status <;>
      simp [IPCService._handleRequestResponse, hi, hr, hst, hn, Effect.isSettle]
  · intro hn he
    cases hst : d.status <;>
      simp [IPCService._handleRequestResponse, hi, hr, hst, hn, he, Effect.isSettle]
  · intro hn he
    cases hst : d.status <;>
      simp [IPCService._handleRequestResponse, hi, hr, hst, hn, he, Effect.isSettle]

/-- Witness of C4, amended: the response of the counterexample takes the third
branch. -/
theorem renderer_settles_by_message_name_witness :
    documentResponse.requestId = some 1 ∧
      RequestPromises.get rendererOnePending.requestPromises 1 = some ⟨0⟩ ∧
      nameHasError documentResponse.name = false ∧ documentResponse.error = false ∧
      (IPCService._handleRequestResponse rendererOnePending
          (some documentResponse)).2.filter Effect.isSettle =
        [Effect.resolve 0 (Value.payload documentResponse.payload)] :=
  ⟨rfl, by decide, rfl, rfl,
    (renderer_settles_by_message_name rendererOnePending documentResponse 1 ⟨0⟩ rfl
      (by decide)).2.2 rfl rfl⟩

/-- C5. `Database.sendRequest` (and `_generateRequestPromise` behind it) hands
back a promise rejected with the uninitialized error when there is no process
handle, and with the disconnected error when the handle reports not connected.
In both cases the state is unchanged, so no id is consumed and no pending entry
is registered, and there is no effect, so nothing is transmitted. -/
theorem send_without_process_rejects (s : Database) (data : RequestData) :
    (s.databaseProcess = none →
      Database.sendRequest s data =
          (s, SendResult.rejected
            ⟨"DatabaseError", CONST.ERROR_DB_PROCESS_SEND_UNINITIALIZED⟩, []) ∧
        Database._generateRequestPromise s data =
          (s, SendResult.rejected
            ⟨"DatabaseError", CONST.ERROR_DB_PROCESS_SEND_UNINITIALIZED⟩, [])) ∧
    (∀ p, s.databaseProcess = some p → p.connected = false →
      Database.sendRequest s data =
          (s, SendResult.rejected
            ⟨"DatabaseError", CONST.ERROR_DB_PROCESS_SEND_DISCONNECTED⟩, []) ∧
        Database._generateRequestPromise s data =
          (s, SendResult.rejected
            ⟨"DatabaseError", CONST.ERROR_DB_PROCESS_SEND_DISCONNECTED⟩, [])) := by
  refine ⟨?_, ?_⟩
  · intro h
    simp [Database.sendRequest, Database._generateRequestPromise, h]
  · intro p h hc
    simp [Database.sendRequest, Database._generateRequestPromise, h, hc]

/-- Witness of C5: a fresh coordinator, and one whose process is disconnected. -/
theorem send_without_process_rejects_witness :
    Database.new.databaseProcess = none ∧
      coordinatorDisconnected.databaseProcess = some ⟨false⟩ ∧
      Database.sendRequest Database.new statusRequest =
        (Database.new, SendResult.rejected
          ⟨"DatabaseError", CONST.ERROR_DB_PROCESS_SEND_UNINITIALIZED⟩, []) ∧
      Database.sendRequest coordinatorDisconnected statusRequest =
        (coordinatorDisconnected, SendResult.rejected
          ⟨"DatabaseError", CONST.ERROR_DB_PROCESS_SEND_DISCONNECTED⟩, []) :=
  ⟨rfl, rfl,
    ((send_without_process_rejects Database.new statusRequest).1 rfl).1,
    ((send_without_process_rejects coordinatorDisconnected statusRequest).2
      ⟨false⟩ rfl rfl).1⟩

/-! ## Data service: how the helpers act on the flags and the store -/

theorem generate_flags (s : DataService) :
    (DataService._generateAvailabilityPromise s).isLoading = s.isLoading ∧
      (DataService._generateAvailabilityPromise s).isSaving = s.isSaving ∧
      (DataService._generateAvailabilityPromise s).db = s.db ∧
      (DataService._generateAvailabilityPromise s).selectedProduct = s.selectedProduct ∧
      (DataService._generateAvailabilityPromise s).isModified = s.isModified ∧
      (DataService._generateAvailabilityPromise s).pendingLoads = s.pendingLoads ∧
      (DataService._generateAvailabilityPromise s).projectDirectory = s.projectDirectory ∧
      (DataService._generateAvailabilityPromise s).availableProducts = s.availableProducts ∧
      (DataService._generateAvailabilityPromise s).pendingSaves = s.pendingSaves ∧
      (DataService._generateAvailabilityPromise s).outbox = s.outbox := by
  unfold DataService._generateAvailabilityPromise
  split_ifs <;> simp

theorem generate_opens (s : DataService) :
    (DataService._generateAvailabilityPromise s).availabilityPromiseCompleted = false := by
  unfold DataService._generateAvailabilityPromise
  split_ifs with h
  · simpa using h
  · rfl

theorem generate_heap (s : DataService) :
    s.heap ≤ (DataService._generateAvailabilityPromise s).heap := by
  unfold DataService._generateAvailabilityPromise
  split_ifs <;> simp

theorem resolve_flags (s : DataService) :
    (DataService._availabilityPromiseResolve s).1.isLoading = s.isLoading ∧
      (DataService._availabilityPromiseResolve s).1.isSaving = s.isSaving := by
  unfold DataService._availabilityPromiseResolve DataService.settle
  split
  · simp
  · split_ifs <;> simp

theorem selectProduct_flags (s : DataService) (product : Option String) :
    (DataService.selectProduct s product).1.isLoading = s.isLoading ∧
      (DataService.selectProduct s product).1.isSaving = s.isSaving ∧
      (DataService.selectProduct s product).1.db = s.db ∧
      (DataService.selectProduct s product).1.heap = s.heap ∧
      (DataService.selectProduct s product).1.isModified = s.isModified ∧
      (DataService.selectProduct s product).1.pendingLoads = s.pendingLoads := by
  unfold DataService.selectProduct
  split_ifs
  · simp
  · cases product with
    | none => simp
    | some p => simp only []; split_ifs <;> simp

theorem load_keeps_isSaving (s : DataService) (product : Option String) (force : Bool) :
    (DataService.loadDatabase s product force).1.isSaving = s.isSaving := by
  unfold DataService.loadDatabase
  dsimp only
  split_ifs <;>
    simp [DataService.sendStatusAlert, DataService._sendStatus, DataService.sendAlert,
      DataService.log, LokiAdapter.loadDatabase, (generate_flags _).2.1,
      (selectProduct_flags s product).2.1]

theorem save_keeps_isLoading (s : DataService) :
    (DataService.saveDatabase s).1.isLoading = s.isLoading := by
  unfold DataService.saveDatabase
  split_ifs <;> try rfl
  cases hdb : s.db <;> by_cases hm : s.isModified = true <;>
    simp [DataService.sendStatusAlert, DataService._sendStatus, DataService.sendAlert,
      DataService.log, LokiAdapter.exportDatabase, generate_flags, hdb, hm]

theorem load_when_saving (s : DataService) (product : Option String) (force : Bool)
    (h : s.isSaving = true) : (DataService.loadDatabase s product force).1 = s := by
  unfold DataService.loadDatabase
  dsimp only
  split_ifs <;> simp_all

theorem save_when_loading (s : DataService) (h : s.isLoading = true) :
    (DataService.saveDatabase s).1 = s := by
  unfold DataService.saveDatabase
  simp [h]

theorem selectProduct_refused (s : DataService) (product : Option String)
    (h : (DataService.selectProduct s product).2 = false) :
    (DataService.selectProduct s product).1 = s := by
  unfold DataService.selectProduct at h ⊢
  by_cases hc : (truthy s.selectedProduct && !truthy product) = true
  · simp [hc]
  · cases product with
    | none => simp [hc]
    | some p =>
      by_cases hp : p ∈ s.availableProducts
      · simp [hc, hp] at h
      · simp [hc, hp]

/-- The invariant behind C6. -/
theorem step_keeps_flags_exclusive (s : DataService) (e : DataEvent)
    (h : (s.isLoading && s.isSaving) = false) :
    ((DataService.step s e).isLoading && (DataService.step s e).isSaving) = false := by
  cases e with
  | selectProjectDirectory dir =>
    simp only [DataService.step, DataService.selectProjectDirectory]
    split_ifs
    · exact h
    · cases dir <;> simpa using h
  | getProductsResolved dir products =>
    simp only [DataService.step]
    split_ifs
    · simpa [DataService.selectProjectDirectoryThen, DataService._sendStatus,
        DataService.sendAlert] using h
    · exact h
  | getProductsRejected dir =>
    simp only [DataService.step]
    split_ifs
    · simpa using h
    · exact h
  | loadDatabase product force =>
    simp only [DataService.step]
    cases hs : s.isSaving with
    | true => rw [load_when_saving s product force hs]; exact h
    | false => rw [load_keeps_isSaving, hs]; simp
  | loadCallback dbBackup err =>
    simp only [DataService.step]
    split_ifs
    · cases err <;> simp [DataService.loadDatabaseCallback, DataService.sendStatusAlert,
        DataService.sendAlert]
    · exact h
  | saveDatabase =>
    simp only [DataService.step]
    cases hl : s.isLoading with
    | true => rw [save_when_loading s hl]; exact h
    | false => rw [save_keeps_isLoading, hl]; simp
  | saveCallback err =>
    simp only [DataService.step]
    split_ifs
    · cases err <;> simp [DataService.saveDatabaseCallback, DataService.sendStatusAlert,
        DataService.sendAlert]
    · exact h
  | continuation =>
    simp only [DataService.step]
    split
    · exact h
    · split <;>
        simpa [DataService.loadDatabaseThen, DataService.saveDatabaseThen,
          (resolve_flags _).1, (resolve_flags _).2, DataService._sendStatus,
          DataService.sendAlert, DataService.log] using h
  | unloadDatabase =>
    simp [DataService.step, DataService.unloadDatabase, DataService._sendStatus,
      DataService.sendAlert, DataService._initialize]
  | nextTick =>
    simp only [DataService.step]
    split_ifs
    · simpa [(generate_flags _).1, (generate_flags _).2.1] using h
    · exact h
  | exportTimeout =>
    simp only [DataService.step]
    split_ifs
    · simpa [LokiAdapter.exportDatabaseTimeout, DataService.sendStatusAlert,
        DataService.sendAlert] using h
    · exact h

theorem run_keeps_flags_exclusive (events : List DataEvent) (s : DataService)
    (h : (s.isLoading && s.isSaving) = false) :
    ((DataService.run s events).isLoading && (DataService.run s events).isSaving) = false := by
  induction events generalizing s with
  | nil => exact h
  | cons e es ih => exact ih _ (step_keeps_flags_exclusive s e h)

/-! ## Data service: the claims -/

/-- C6. In every state the data service reaches from its construction, by any
sequence of directory selections, loads, saves, unloads and the callbacks and
continuations they leave behind, `isLoading` and `isSaving` are not both true;
the same holds for the status snapshot taken in that state. -/
theorem loading_and_saving_exclusive (events : List DataEvent) :
    ¬ ((DataService.run DataService.new events).isLoading = true ∧
        (DataService.run DataService.new events).isSaving = true) ∧
      ¬ ((DataService.getStatus (DataService.run DataService.new events)).isLoading = true ∧
        (DataService.getStatus (DataService.run DataService.new events)).isSaving = true) := by
  have h := run_keeps_flags_exclusive events DataService.new rfl
  have h2 : ¬ ((DataService.run DataService.new events).isLoading = true ∧
      (DataService.run DataService.new events).isSaving = true) := by
    intro hc
    rw [hc.1, hc.2] at h
    exact Bool.noConfusion h
  exact ⟨h2, h2⟩

/-- C7. While `isLoading` or `isSaving` is true, `loadDatabase` (for every
product and force argument) and `saveDatabase` both reject with a
`ConcurrentDatabaseError` and leave the whole state as it was. -/
theorem busy_rejects_load_and_save (s : DataService) (product : Option String)
    (force : Bool) (h : s.isLoading = true ∨ s.isSaving = true) :
    (∃ msg, DataService.loadDatabase s product force =
        (s, CallResult.rejected ⟨"ConcurrentDatabaseError", msg⟩)) ∧
      (∃ msg, DataService.saveDatabase s =
        (s, CallResult.rejected ⟨"ConcurrentDatabaseError", msg⟩)) := by
  cases hl : s.isLoading with
  | true =>
    exact ⟨⟨CONST.ERROR_DB_LOAD_CONCURRENT_LOAD, by simp [DataService.loadDatabase, hl]⟩,
      ⟨CONST.ERROR_DB_SAVE_CONCURRENT_LOAD, by simp [DataService.saveDatabase, hl]⟩⟩
  | false =>
    have hs : s.isSaving = true := by
      rcases h with h | h
      · rw [hl] at h; exact Bool.noConfusion h
      · exact h
    exact ⟨⟨CONST.ERROR_DB_LOAD_CONCURRENT_SAVE, by simp [DataService.loadDatabase, hl, hs]⟩,
      ⟨CONST.ERROR_DB_SAVE_CONCURRENT_SAVE, by simp [DataService.saveDatabase, hl, hs]⟩⟩

/-- Witness of C7: a second load and a save while `alpha` is being loaded. -/
theorem busy_rejects_load_and_save_witness :
    loadingAlpha.isLoading = true ∧
      (∃ msg, DataService.loadDatabase loadingAlpha (some "beta") true =
        (loadingAlpha, CallResult.rejected ⟨"ConcurrentDatabaseError", msg⟩)) ∧
      (∃ msg, DataService.saveDatabase loadingAlpha =
        (loadingAlpha, CallResult.rejected ⟨"ConcurrentDatabaseError", msg⟩)) :=
  ⟨by decide, busy_rejects_load_and_save loadingAlpha (some "beta") true (Or.inl (by decide))⟩

/-- C8 as stated fails: with `alpha` loaded and the service idle,
`loadDatabase(null, false)` is accepted and starts a reload. Straight after the
call `isLoading` is true, the store reference is a new one (3 instead of 1) and
a load callback holding the old store as backup is outstanding, so the state is
not the state before the call. -/
theorem reload_is_not_a_noop :
    readyAlpha.isLoading = false ∧ readyAlpha.isSaving = false ∧
      readyAlpha.selectedProduct = some "alpha" ∧ readyAlpha.db = some 1 ∧
      (DataService.loadDatabase readyAlpha none false).2 = CallResult.pending ∧
      (DataService.loadDatabase readyAlpha none false).1.isLoading = true ∧
      (DataService.loadDatabase readyAlpha none false).1.db = some 3 ∧
      (DataService.loadDatabase readyAlpha none false).1.pendingLoads = [some 1] ∧
      (DataService.loadDatabase readyAlpha none false).1 ≠ readyAlpha := by
  decide

/-- C8, amended. `loadDatabase(null, false)` called in an idle, unmodified state
with a product selected is accepted and reloads that product: the call keeps the
selected product, sets `isLoading`, leaves the gate open, installs a newly created store with the
previous one kept as backup by the outstanding load callback, and leaves the
promise pending; when the callback then reports success, the promise is resolved
with `isLoading` false, the same product selected and the new store in place. -/
theorem load_without_product_reloads (s : DataService)
    (hl : s.isLoading = false) (hs : s.isSaving = false) (hm : s.isModified = false)
    (hsel : truthy s.selectedProduct = true) :
    (DataService.loadDatabase s none false).2 = CallResult.pending ∧
      (DataService.loadDatabase s none false).1.selectedProduct = s.selectedProduct ∧
      (DataService.loadDatabase s none false).1.isLoading = true ∧
      (DataService.loadDatabase s none false).1.isSaving = false ∧
      (DataService.loadDatabase s none false).1.availabilityPromiseCompleted = false ∧
      (∃ fresh, s.heap ≤ fresh ∧ (DataService.loadDatabase s none false).1.db = some fresh) ∧
      (DataService.loadDatabase s none false).1.pendingLoads = s.pendingLoads ++ [s.db] ∧
      (DataService.loadDatabaseCallback (DataService.loadDatabase s none false).1 s.db none).2
        = Settlement.resolved ∧
      (DataService.loadDatabaseCallback
        (DataService.loadDatabase s none false).1 s.db none).1.isLoading = false ∧
      (DataService.loadDatabaseCallback
        (DataService.loadDatabase s none false).1 s.db none).1.selectedProduct
        = s.selectedProduct ∧
      (DataService.loadDatabaseCallback (DataService.loadDatabase s none false).1 s.db none).1.db
        = (DataService.loadDatabase s none false).1.db := by
  have hsp : DataService.selectProduct s none = (s, true) := by
    have hn : truthy none = false := rfl
    simp [DataService.selectProduct, hsel, hn]
  have e : DataService.loadDatabase s none false =
      ({ DataService.sendStatusAlert (DataService.sendStatusAlert (DataService._sendStatus
            (DataService.log
              (DataService._generateAvailabilityPromise { s with isLoading := true })
              "debug" CONST.INFO_DB_LOAD_START) none) CONST.INFO_DB_LOAD_STATUS_START)
            CONST.INFO_DB_LOAD_STATUS_FILE_SYSTEM with
          db := some (DataService._generateAvailabilityPromise { s with isLoading := true }).heap
          heap := (DataService._generateAvailabilityPromise { s with isLoading := true }).heap + 1
          pendingLoads := s.pendingLoads ++ [s.db] }, CallResult.pending) := by
    simp [DataService.loadDatabase, hl, hs, hm, hsp, DataService.sendStatusAlert,
      DataService._sendStatus, DataService.sendAlert, DataService.log,
      LokiAdapter.loadDatabase, generate_flags]
  rw [e]
  refine ⟨rfl, ?_, ?_, ?_, ?_, ?_, rfl, rfl, ?_, ?_, ?_⟩
  · simp [DataService.sendStatusAlert, DataService._sendStatus, DataService.sendAlert,
      DataService.log, generate_flags]
  · simp [DataService.sendStatusAlert, DataService._sendStatus, DataService.sendAlert,
      DataService.log, generate_flags]
  · simp [DataService.sendStatusAlert, DataService._sendStatus, DataService.sendAlert,
      DataService.log, generate_flags, hs]
  · simp [DataService.sendStatusAlert, DataService._sendStatus, DataService.sendAlert,
      DataService.log, generate_opens]
  · exact ⟨_, generate_heap { s with isLoading := true }, rfl⟩
  · simp [DataService.loadDatabaseCallback, DataService.sendStatusAlert, DataService.sendAlert]
  · simp [DataService.loadDatabaseCallback, DataService.sendStatusAlert,
      DataService._sendStatus, DataService.sendAlert, DataService.log, generate_flags]
  · simp [DataService.loadDatabaseCallback, DataService.sendStatusAlert, DataService.sendAlert]

/-- Witness of C8, amended: the reload of `alpha` from the counterexample. -/
theorem load_without_product_reloads_witness :
    readyAlpha.isLoading = false ∧ readyAlpha.isSaving = false ∧
      readyAlpha.isModified = false ∧ truthy readyAlpha.selectedProduct = true ∧
      (DataService.loadDatabase readyAlpha none false).2 = CallResult.pending ∧
      (DataService.loadDatabase readyAlpha none false).1.selectedProduct
        = readyAlpha.selectedProduct ∧
      (DataService.loadDatabase readyAlpha none false).1.isLoading = true :=
  have h := load_without_product_reloads readyAlpha (by decide) (by decide) (by decide)
    (by decide)
  ⟨by decide, by decide, by decide, by decide, h.1, h.2.1, h.2.2.1⟩

/-- C9. In an idle, unmodified state with no product selected, `loadDatabase`
with a product that is not among `availableProducts` (or with no product at all)
rejects with the `LoadDatabaseError` carrying the invalid-product message, for
every force argument, and the whole state is as it was: `selectedProduct` stays
null, `isLoading` stays false, store and gate are untouched. -/
theorem invalid_product_rejected (s : DataService) (product : Option String) (force : Bool)
    (hl : s.isLoading = false) (hs : s.isSaving = false) (hm : s.isModified = false)
    (hsel : s.selectedProduct = none)
    (hp : ∀ p, product = some p → p ∉ s.availableProducts) :
    DataService.loadDatabase s product force =
      (s, CallResult.rejected ⟨"LoadDatabaseError", CONST.ERROR_DB_LOAD_PRODUCT_INVALID⟩) := by
  have hsp : DataService.selectProduct s product = (s, false) := by
    cases product with
    | none => simp [DataService.selectProduct, hsel, truthy]
    | some p => simp [DataService.selectProduct, hsel, truthy, hp p rfl]
  simp [DataService.loadDatabase, hl, hs, hm, hsp]

/-- Witness of C9: scenario C of the specification, `load("missing")` with
`/proj` selected. -/
theorem invalid_product_rejected_witness :
    projectSelected.isLoading = false ∧ projectSelected.isSaving = false ∧
      projectSelected.isModified = false ∧ projectSelected.selectedProduct = none ∧
      "missing" ∉ projectSelected.availableProducts ∧
      DataService.loadDatabase projectSelected (some "missing") false =
        (projectSelected,
          CallResult.rejected ⟨"LoadDatabaseError", CONST.ERROR_DB_LOAD_PRODUCT_INVALID⟩) :=
  ⟨by decide, by decide, by decide, by decide, by decide,
    invalid_product_rejected projectSelected (some "missing") false (by decide) (by decide)
      (by decide) (by decide) (by intro p hp; cases hp; decide)⟩

/-- C10 as stated fails for the rejection by a concurrent load: while `alpha` is
being loaded, a second `loadDatabase` rejects with a `ConcurrentDatabaseError`
and `isLoading` is still true afterwards. -/
theorem concurrent_rejection_leaves_loading :
    loadingAlpha.isLoading = true ∧
      (DataService.loadDatabase loadingAlpha (some "beta") false).2 =
        CallResult.rejected
          ⟨"ConcurrentDatabaseError", CONST.ERROR_DB_LOAD_CONCURRENT_LOAD⟩ ∧
      (DataService.loadDatabase loadingAlpha (some "beta") false).1.isLoading = true := by
  decide

/-- C10, amended. A `loadDatabase` call that rejects in one of its guards leaves
the whole state, the store reference included, as it was, and `isLoading` is
false unless the rejection is the `ConcurrentDatabaseError` for a load already
in progress. A call that is accepted keeps the store reference it found as the
backup of its callback, and when that callback reports a failure, in whatever
state the service is by then, the promise rejects with that failure, `isLoading`
is false and the store reference is the one held before the call. -/
theorem failed_load_restores_store (s t : DataService) (product : Option String)
    (force : Bool) (err : JsError) :
    (∀ e, (DataService.loadDatabase s product force).2 = CallResult.rejected e →
      (DataService.loadDatabase s product force).1 = s ∧
        (s.isLoading = false ∨
          e = ⟨"ConcurrentDatabaseError", CONST.ERROR_DB_LOAD_CONCURRENT_LOAD⟩)) ∧
    ((DataService.loadDatabase s product force).2 = CallResult.pending →
      (DataService.loadDatabase s product force).1.pendingLoads = s.pendingLoads ++ [s.db] ∧
        (DataService.loadDatabaseCallback t s.db (some err)).2 = Settlement.rejected err ∧
        (DataService.loadDatabaseCallback t s.db (some err)).1.isLoading = false ∧
        (DataService.loadDatabaseCallback t s.db (some err)).1.db = s.db) := by
  refine ⟨?_, ?_⟩
  · intro e he
    unfold DataService.loadDatabase at he ⊢
    dsimp only at he ⊢
    split_ifs at he ⊢ with h1 h2 h3 h4
    · refine ⟨rfl, Or.inr ?_⟩
      cases he; rfl
    · exact ⟨rfl, Or.inl (by simpa using h1)⟩
    · exact ⟨rfl, Or.inl (by simpa using h1)⟩
    · exact ⟨selectProduct_refused s product (by simpa using h4), Or.inl (by simpa using h1)⟩
  · intro hp
    refine ⟨?_, rfl, rfl, rfl⟩
    unfold DataService.loadDatabase at hp ⊢
    dsimp only at hp ⊢
    split_ifs at hp ⊢
    · simp [DataService.sendStatusAlert, DataService._sendStatus, DataService.sendAlert,
        DataService.log, LokiAdapter.loadDatabase, generate_flags, selectProduct_flags]

/-- Witness of C10, amended: the load of `alpha` is accepted with no store
loaded, and its callback fails later. -/
theorem failed_load_restores_store_witness :
    (DataService.loadDatabase projectSelected (some "alpha") false).2 = CallResult.pending ∧
      (DataService.loadDatabaseCallback loadingAlpha projectSelected.db
        (some ⟨"Error", "disk"⟩)).1.isLoading = false ∧
      (DataService.loadDatabaseCallback loadingAlpha projectSelected.db
        (some ⟨"Error", "disk"⟩)).1.db = projectSelected.db ∧
      (DataService.loadDatabase loadingAlpha (some "beta") false).1 = loadingAlpha :=
  have h := failed_load_restores_store projectSelected loadingAlpha (some "alpha") false
    ⟨"Error", "disk"⟩
  have h2 := failed_load_restores_store loadingAlpha loadingAlpha (some "beta") false
    ⟨"Error", "disk"⟩
  ⟨by decide, (h.2 (by decide)).2.2.1, (h.2 (by decide)).2.2.2,
    (h2.1 ⟨"ConcurrentDatabaseError", CONST.ERROR_DB_LOAD_CONCURRENT_LOAD⟩ (by decide)).1⟩

/-! ## Data service: what holds in every reachable state -/

theorem getProducts_nonempty (files : List (String × Bool)) :
    ∀ q ∈ IOService.getProducts files, q ≠ "" := by
  intro q hq
  unfold IOService.getProducts IOService._getDirectories at hq
  rw [List.mem_filterMap] at hq
  obtain ⟨o, _, ho⟩ := hq
  cases o with
  | none => simp at ho
  | some n =>
    by_cases hn : n = ""
    · simp [hn] at ho
    · simp [hn] at ho
      rw [← ho]; exact hn

theorem inv_transfer (s t : DataService) (h : DataService.Inv s)
    (hp : t.availableProducts = s.availableProducts)
    (hr : t.availabilityPromiseResolve = s.availabilityPromiseResolve)
    (hj : t.availabilityPromiseReject = s.availabilityPromiseReject)
    (hg : t.availabilityPromise = s.availabilityPromise)
    (hc : t.availabilityPromiseCompleted = s.availabilityPromiseCompleted)
    (hs : t.settled = s.settled) (hh : s.heap ≤ t.heap) : DataService.Inv t where
  products := by rw [hp]; exact h.products
  resolveHandle := by rw [hr, hg]; exact h.resolveHandle
  rejectHandle := by rw [hj, hg]; exact h.rejectHandle
  settledBelow := by
    intro e he
    rw [hs] at he
    exact lt_of_lt_of_le (h.settledBelow e he) hh
  gateBelow := by
    intro g hgate
    rw [hg] at hgate
    exact lt_of_lt_of_le (h.gateBelow g hgate) hh
  openGate := by
    intro hopen
    rw [hc] at hopen
    obtain ⟨g, h1, h2⟩ := h.openGate hopen
    refine ⟨g, by rw [hg]; exact h1, ?_⟩
    unfold DataService.promiseOutcome at h2 ⊢
    rw [hs]; exact h2

theorem outcome_none_of_below (s : DataService) (g : Nat)
    (h : ∀ e ∈ s.settled, e.1 < g) : DataService.promiseOutcome s g = none := by
  unfold DataService.promiseOutcome
  have hf : s.settled.find? (fun e => e.1 == g) = none := by
    rw [List.find?_eq_none]
    intro e he
    have := h e he
    simp
    omega
  rw [hf]; rfl

theorem inv_generate (s : DataService) (h : DataService.Inv s) :
    DataService.Inv (DataService._generateAvailabilityPromise s) := by
  unfold DataService._generateAvailabilityPromise
  split_ifs with hc
  · exact h
  · refine ⟨h.products, rfl, rfl, ?_, ?_, ?_⟩
    · intro e he
      exact Nat.lt_succ_of_lt (h.settledBelow e he)
    · intro g hg
      simp only [Option.some.injEq] at hg
      rw [← hg]; exact Nat.lt_succ_self _
    · intro _
      exact ⟨s.heap, rfl, outcome_none_of_below s s.heap h.settledBelow⟩

theorem inv_reset (s : DataService) (h : DataService.Inv s) :
    DataService.Inv ( DataService._initialize s) :=
  ⟨h.products, h.resolveHandle, h.rejectHandle, h.settledBelow, h.gateBelow,
    fun hc => Bool.noConfusion hc⟩

theorem inv_resolve (s : DataService) (h : DataService.Inv s) :
    DataService.Inv (DataService._availabilityPromiseResolve s).1 := by
  unfold DataService._availabilityPromiseResolve
  cases hr : s.availabilityPromiseResolve with
  | none => exact h
  | some gate =>
    have hg : s.availabilityPromise = some gate := by rw [← h.resolveHandle, hr]
    have hb : gate < s.heap := h.gateBelow gate hg
    simp only []
    unfold DataService.settle
    split_ifs
    · exact ⟨h.products, h.resolveHandle, h.rejectHandle, h.settledBelow, h.gateBelow,
        fun hc => Bool.noConfusion hc⟩
    · refine ⟨h.products, h.resolveHandle, h.rejectHandle, ?_, h.gateBelow,
        fun hc => Bool.noConfusion hc⟩
      intro e he
      simp only [List.mem_append, List.mem_singleton] at he
      rcases he with he | he
      · exact h.settledBelow e he
      · rw [he]; exact hb

theorem inv_new : DataService.Inv DataService.new :=
  ⟨fun q hq => absurd hq (List.not_mem_nil q), rfl, rfl,
    fun e he => absurd he (List.not_mem_nil e),
    fun _ hg => Option.noConfusion hg, fun hc => Bool.noConfusion hc⟩

theorem selectProduct_gate (s : DataService) (product : Option String) :
    (DataService.selectProduct s product).1.availableProducts = s.availableProducts ∧
      (DataService.selectProduct s product).1.availabilityPromiseResolve
        = s.availabilityPromiseResolve ∧
      (DataService.selectProduct s product).1.availabilityPromiseReject
        = s.availabilityPromiseReject ∧
      (DataService.selectProduct s product).1.availabilityPromise = s.availabilityPromise ∧
      (DataService.selectProduct s product).1.availabilityPromiseCompleted
        = s.availabilityPromiseCompleted ∧
      (DataService.selectProduct s product).1.settled = s.settled ∧
      (DataService.selectProduct s product).1.outbox = s.outbox ∧
      (DataService.selectProduct s product).1.pendingThens = s.pendingThens := by
  unfold DataService.selectProduct
  split_ifs
  · simp
  · cases product with
    | none => simp
    | some p => simp only []; split_ifs <;> simp

theorem inv_outbox (s : DataService) (out : List Output) (h : DataService.Inv s) :
    DataService.Inv { s with outbox := out } :=
  ⟨h.products, h.resolveHandle, h.rejectHandle, h.settledBelow, h.gateBelow, h.openGate⟩

theorem inv_log (s : DataService) (level msg : String) (h : DataService.Inv s) :
    DataService.Inv (DataService.log s level msg) :=
  inv_outbox s _ h

theorem inv_sendAlert (s : DataService) (type : String) (payload : Option String)
    (isError omitStatus : Bool) (h : DataService.Inv s) :
    DataService.Inv (DataService.sendAlert s type payload isError omitStatus) :=
  inv_outbox s _ h

theorem inv_load (s : DataService) (product : Option String) (force : Bool)
    (h : DataService.Inv s) : DataService.Inv (DataService.loadDatabase s product force).1 := by
  have hsel : DataService.Inv (DataService.selectProduct s product).1 :=
    inv_transfer s _ h (selectProduct_gate s product).1 (selectProduct_gate s product).2.1
      (selectProduct_gate s product).2.2.1 (selectProduct_gate s product).2.2.2.1
      (selectProduct_gate s product).2.2.2.2.1 (selectProduct_gate s product).2.2.2.2.2.1
      (le_of_eq (selectProduct_flags s product).2.2.2.1.symm)
  unfold DataService.loadDatabase
  dsimp only
  split_ifs
  · exact h
  · exact h
  · exact h
  · exact hsel
  · generalize DataService.selectProduct s product = sel at hsel ⊢
    have h1 : DataService.Inv { sel.1 with isLoading := true } :=
      ⟨hsel.products, hsel.resolveHandle, hsel.rejectHandle, hsel.settledBelow,
        hsel.gateBelow, hsel.openGate⟩
    have h2 := inv_generate _ h1
    generalize DataService._generateAvailabilityPromise { sel.1 with isLoading := true } = g
      at h2 ⊢
    have h5 := inv_sendAlert _ CONST.IPC_ALERT_DB_STATUS_TEXT
      (some CONST.INFO_DB_LOAD_STATUS_START) false true
      (inv_sendAlert _ CONST.IPC_ALERT_DB_STATUS none false false
        (inv_log g "debug" CONST.INFO_DB_LOAD_START h2))
    exact ⟨h5.products, h5.resolveHandle, h5.rejectHandle,
      fun e he => Nat.lt_succ_of_lt (h5.settledBelow e he),
      fun x hx => Nat.lt_succ_of_lt (h5.gateBelow x hx), h5.openGate⟩

theorem inv_save (s : DataService) (h : DataService.Inv s) :
    DataService.Inv (DataService.saveDatabase s).1 := by
  have h1 : DataService.Inv { s with isSaving := true } :=
    ⟨h.products, h.resolveHandle, h.rejectHandle, h.settledBelow, h.gateBelow, h.openGate⟩
  have h2 := inv_generate _ h1
  unfold DataService.saveDatabase
  split_ifs
  · exact h
  · exact h
  · dsimp only
    generalize DataService._generateAvailabilityPromise { s with isSaving := true } = g
      at h2 ⊢
    have h5 := inv_sendAlert _ CONST.IPC_ALERT_DB_STATUS none false false
      (inv_sendAlert _ CONST.IPC_ALERT_DB_STATUS_TEXT
        (some CONST.INFO_DB_SAVE_STATUS_START) false true
        (inv_log g "debug" CONST.INFO_DB_SAVE_START h2))
    have h6 := inv_log _ "warn" CONST.WARNING_DB_SAVE_UNMODIFIED h5
    have h7 := inv_sendAlert _ CONST.IPC_ALERT_DB_STATUS_TEXT
      (some CONST.INFO_DB_SAVE_STATUS_DATABASE) false true h6
    have h8 := inv_sendAlert _ CONST.IPC_ALERT_DB_STATUS_TEXT
      (some CONST.INFO_DB_SAVE_STATUS_DATABASE) false true h5
    split_ifs
    · split
      · exact h6
      · exact ⟨h7.products, h7.resolveHandle, h7.rejectHandle, h7.settledBelow,
          h7.gateBelow, h7.openGate⟩
    · split
      · exact h5
      · exact ⟨h8.products, h8.resolveHandle, h8.rejectHandle, h8.settledBelow,
          h8.gateBelow, h8.openGate⟩

theorem inv_step (s : DataService) (e : DataEvent) (h : DataService.Inv s) :
    DataService.Inv (DataService.step s e) := by
  cases e with
  | selectProjectDirectory dir =>
    simp only [DataService.step, DataService.selectProjectDirectory]
    split_ifs
    · exact h
    · cases dir with
      | none => exact h
      | some d =>
        exact ⟨h.products, h.resolveHandle, h.rejectHandle, h.settledBelow, h.gateBelow,
          h.openGate⟩
  | getProductsResolved dir files =>
    simp only [DataService.step]
    split_ifs
    · exact ⟨getProducts_nonempty files, h.resolveHandle, h.rejectHandle, h.settledBelow,
        h.gateBelow, h.openGate⟩
    · exact h
  | getProductsRejected dir =>
    simp only [DataService.step]
    split_ifs
    · exact ⟨h.products, h.resolveHandle, h.rejectHandle, h.settledBelow, h.gateBelow,
        h.openGate⟩
    · exact h
  | loadDatabase product force => exact inv_load s product force h
  | loadCallback dbBackup err =>
    simp only [DataService.step]
    split_ifs
    · cases err <;>
        exact ⟨h.products, h.resolveHandle, h.rejectHandle, h.settledBelow, h.gateBelow,
          h.openGate⟩
    · exact h
  | saveDatabase => exact inv_save s h
  | saveCallback err =>
    simp only [DataService.step]
    split_ifs
    · cases err <;>
        exact ⟨h.products, h.resolveHandle, h.rejectHandle, h.settledBelow, h.gateBelow,
          h.openGate⟩
    · exact h
  | continuation =>
    simp only [DataService.step]
    split
    · exact h
    · have h1 : ∀ rest : List Continuation, DataService.Inv { s with pendingThens := rest } :=
        fun _ => ⟨h.products, h.resolveHandle, h.rejectHandle, h.settledBelow, h.gateBelow,
          h.openGate⟩
      split
      · exact inv_resolve _ (inv_sendAlert _ _ _ _ _ (inv_log _ _ _ (h1 _)))
      · exact inv_resolve _ (inv_sendAlert _ _ _ _ _ (inv_log _ _ _ (h1 _)))
  | unloadDatabase =>
    exact inv_sendAlert _ _ _ _ _ (inv_reset s h)
  | nextTick =>
    simp only [DataService.step]
    split_ifs
    · exact inv_generate _ ⟨h.products, h.resolveHandle, h.rejectHandle, h.settledBelow,
        h.gateBelow, h.openGate⟩
    · exact h
  | exportTimeout =>
    simp only [DataService.step]
    split_ifs
    · exact ⟨h.products, h.resolveHandle, h.rejectHandle, h.settledBelow, h.gateBelow,
        h.openGate⟩
    · exact h

theorem inv_run (events : List DataEvent) (s : DataService) (h : DataService.Inv s) :
    DataService.Inv (DataService.run s events) := by
  induction events generalizing s with
  | nil => exact h
  | cons e es ih => exact ih _ (inv_step s e h)

theorem inv_reachable (s : DataService) (h : DataService.Reachable s) : DataService.Inv s := by
  obtain ⟨events, rfl⟩ := h
  exact inv_run events _ inv_new

/-! ## Data service: failure paths -/

/-- C11 fails on the code. The failing callback of a load restores the store and
clears `isLoading` but leaves `selectedProduct` as the call set it. With `/proj`
selected and no product, `loadDatabase("alpha", false)` is accepted; when Loki
reports an error the store is the one before the call and `isLoading` is false,
but `selectedProduct` is `alpha`, not null, and a directory selection is then
refused because a product counts as open. -/
theorem failed_first_load_keeps_selection (s : DataService) (dbBackup : Option Nat)
    (err : JsError) :
    (DataService.loadDatabaseCallback s dbBackup (some err)).1.selectedProduct
        = s.selectedProduct ∧
      projectSelected.selectedProduct = none ∧
      (DataService.loadDatabase projectSelected (some "alpha") false).2 = CallResult.pending ∧
      failedAlpha.isLoading = false ∧ failedAlpha.db = projectSelected.db ∧
      failedAlpha.selectedProduct = some "alpha" ∧
      (DataService.getStatus failedAlpha).selectedProduct = some "alpha" ∧
      (DataService.selectProjectDirectory failedAlpha (some "/other")).2 =
        some ⟨"DatabaseError", CONST.ERROR_DB_PROJECT_SELECT_ACTIVE⟩ :=
  ⟨rfl, by decide, by decide, by decide, by decide, by decide, by decide, by decide⟩

/-- C13 fails on the code. While `alpha` is loading, Loki reports success, a load
of `beta` is accepted before the continuation of the first load runs, and that
continuation resolves the gate: `isLoading` is true, the gate handed out by
`getAvailabilityPromise` is resolved, and a content request arriving now runs
at once. The same happens with `isSaving` when the service is unloaded during a
load and a save is accepted before the load completes. -/
theorem gate_resolved_while_busy :
    (DataService.run loadingAlpha overlappingLoads).isLoading = true ∧
      DataService.getAvailabilityPromise (DataService.run loadingAlpha overlappingLoads)
        = some 0 ∧
      DataService.promiseOutcome (DataService.run loadingAlpha overlappingLoads) 0
        = some true ∧
      DataIPCService.contentRequest (DataService.run loadingAlpha overlappingLoads)
        (DataService.run loadingAlpha overlappingLoads) = Awaited.runs ∧
      (DataService.run loadingAlpha unloadDuringLoad).isSaving = true ∧
      DataService.getAvailabilityPromise (DataService.run loadingAlpha unloadDuringLoad)
        = some 2 ∧
      DataService.promiseOutcome (DataService.run loadingAlpha unloadDuringLoad) 2
        = some true ∧
      DataIPCService.contentRequest (DataService.run loadingAlpha unloadDuringLoad)
        (DataService.run loadingAlpha unloadDuringLoad) = Awaited.runs := by
  decide

/-- C14 fails on the code. The failing callback of a load settles no promise and
leaves the gate fields alone, so the gate that was current during the load stays
unsettled: after the failed load of `alpha` gate 0 has no outcome, and a content
request that arrived during the load is still waiting. -/
theorem failed_load_leaves_gate_pending (s : DataService) (dbBackup : Option Nat)
    (err : JsError) :
    (DataService.loadDatabaseCallback s dbBackup (some err)).1.settled = s.settled ∧
      (DataService.loadDatabaseCallback s dbBackup (some err)).1.availabilityPromise
        = s.availabilityPromise ∧
      (DataService.loadDatabaseCallback s dbBackup (some err)).1.availabilityPromiseCompleted
        = s.availabilityPromiseCompleted ∧
      (DataService.loadDatabaseCallback s dbBackup (some err)).1.pendingThens
        = s.pendingThens ∧
      DataService.getAvailabilityPromise loadingAlpha = some 0 ∧
      DataService.getAvailabilityPromise failedAlpha = some 0 ∧
      DataService.promiseOutcome failedAlpha 0 = none ∧
      DataIPCService.contentRequest loadingAlpha failedAlpha = Awaited.pending :=
  ⟨rfl, rfl, rfl, rfl, by decide, by decide, by decide, by decide⟩

/-- C15 fails on the code. With `/proj` selected and no store ever loaded,
`saveDatabase()` sets `isSaving`, then throws on `this._db.saveDatabase`; the
promise rejects with the `TypeError` and `isSaving` is still true. From then on
every load and every save is rejected as concurrent. -/
theorem save_without_store_stays_saving :
    projectSelected.db = none ∧ projectSelected.isLoading = false ∧
      projectSelected.isSaving = false ∧
      (DataService.saveDatabase projectSelected).2 =
        CallResult.rejected ⟨"TypeError", "Cannot read property saveDatabase of undefined"⟩ ∧
      (DataService.saveDatabase projectSelected).1.isSaving = true ∧
      (DataService.saveDatabase projectSelected).1.pendingSaves = 0 ∧
      (DataService.loadDatabase (DataService.saveDatabase projectSelected).1
          (some "alpha") false).2 =
        CallResult.rejected
          ⟨"ConcurrentDatabaseError", CONST.ERROR_DB_LOAD_CONCURRENT_SAVE⟩ ∧
      (DataService.saveDatabase (DataService.saveDatabase projectSelected).1).2 =
        CallResult.rejected
          ⟨"ConcurrentDatabaseError", CONST.ERROR_DB_SAVE_CONCURRENT_SAVE⟩ := by
  decide

/-- C19 fails on the code. `unloadDatabase` clears the selected product and the
three flags in every state, but it does not touch the store reference: after
unloading the loaded `alpha`, the store is still store 1. -/
theorem unload_keeps_store (s : DataService) :
    (DataService.unloadDatabase s).selectedProduct = none ∧
      (DataService.unloadDatabase s).isLoading = false ∧
      (DataService.unloadDatabase s).isSaving = false ∧
      (DataService.unloadDatabase s).isModified = false ∧
      (DataService.unloadDatabase s).db = s.db ∧
      readyAlpha.db = some 1 ∧
      (DataService.unloadDatabase readyAlpha).db = some 1 :=
  ⟨rfl, rfl, rfl, rfl, rfl, by decide, by decide⟩

/-! ## Data service: an accepted load or save, step by step -/

theorem selectProduct_listed (s : DataService) (p : String) (hp : p ∈ s.availableProducts)
    (hne : p ≠ "") :
    DataService.selectProduct s (some p) = ({ s with selectedProduct := some p }, true) := by
  have ht : truthy (some p) = true := by simp [truthy, hne]
  simp [DataService.selectProduct, ht, hp]

theorem load_accepted_eq (s sel : DataService) (product : Option String) (force : Bool)
    (hl : s.isLoading = false) (hs : s.isSaving = false) (hm : s.isModified = false)
    (hsel : DataService.selectProduct s product = (sel, true)) :
    DataService.loadDatabase s product force =
      ({ DataService._generateAvailabilityPromise { sel with isLoading := true } with
          db := some (DataService._generateAvailabilityPromise
            { sel with isLoading := true }).heap
          heap := (DataService._generateAvailabilityPromise
            { sel with isLoading := true }).heap + 1
          pendingLoads := (DataService._generateAvailabilityPromise
            { sel with isLoading := true }).pendingLoads ++ [s.db]
          outbox := (DataService._generateAvailabilityPromise
              { sel with isLoading := true }).outbox ++
            [Output.log "debug" CONST.INFO_DB_LOAD_START,
             Output.alert ⟨CONST.IPC_ALERT_DB_STATUS, false,
               some (DataService.getStatus (DataService._generateAvailabilityPromise
                 { sel with isLoading := true })), none⟩,
             Output.alert ⟨CONST.IPC_ALERT_DB_STATUS_TEXT, false, none,
               some CONST.INFO_DB_LOAD_STATUS_START⟩,
             Output.alert ⟨CONST.IPC_ALERT_DB_STATUS_TEXT, false, none,
               some CONST.INFO_DB_LOAD_STATUS_FILE_SYSTEM⟩] },
        CallResult.pending) := by
  simp [DataService.loadDatabase, hl, hs, hm, hsel, DataService.sendStatusAlert,
    DataService._sendStatus, DataService.sendAlert, DataService.log, DataService.getStatus,
    LokiAdapter.loadDatabase]

theorem save_accepted_eq (s : DataService) (d : Nat)
    (hl : s.isLoading = false) (hs : s.isSaving = false) (hm : s.isModified = false)
    (hd : s.db = some d) :
    DataService.saveDatabase s =
      ({ DataService._generateAvailabilityPromise { s with isSaving := true } with
          pendingExports := (DataService._generateAvailabilityPromise
            { s with isSaving := true }).pendingExports + 1
          outbox := (DataService._generateAvailabilityPromise
              { s with isSaving := true }).outbox ++
            [Output.log "debug" CONST.INFO_DB_SAVE_START,
             Output.alert ⟨CONST.IPC_ALERT_DB_STATUS_TEXT, false, none,
               some CONST.INFO_DB_SAVE_STATUS_START⟩,
             Output.alert ⟨CONST.IPC_ALERT_DB_STATUS, false,
               some (DataService.getStatus (DataService._generateAvailabilityPromise
                 { s with isSaving := true })), none⟩,
             Output.log "warn" CONST.WARNING_DB_SAVE_UNMODIFIED,
             Output.alert ⟨CONST.IPC_ALERT_DB_STATUS_TEXT, false, none,
               some CONST.INFO_DB_SAVE_STATUS_DATABASE⟩] },
        CallResult.pending) := by
  simp [DataService.saveDatabase, hl, hs, hm, hd, DataService.sendStatusAlert,
    DataService._sendStatus, DataService.sendAlert, DataService.log, DataService.getStatus,
    LokiAdapter.exportDatabase, generate_flags]

theorem save_exported_eq (s : DataService) (d : Nat)
    (hl : s.isLoading = false) (hs : s.isSaving = false) (hm : s.isModified = false)
    (hd : s.db = some d) :
    LokiAdapter.exportDatabaseTimeout (DataService.saveDatabase s).1 =
      { DataService._generateAvailabilityPromise { s with isSaving := true } with
          pendingExports := (DataService._generateAvailabilityPromise
            { s with isSaving := true }).pendingExports + 1
          pendingSaves := (DataService._generateAvailabilityPromise
            { s with isSaving := true }).pendingSaves + 1
          outbox := (DataService._generateAvailabilityPromise
              { s with isSaving := true }).outbox ++
            [Output.log "debug" CONST.INFO_DB_SAVE_START,
             Output.alert ⟨CONST.IPC_ALERT_DB_STATUS_TEXT, false, none,
               some CONST.INFO_DB_SAVE_STATUS_START⟩,
             Output.alert ⟨CONST.IPC_ALERT_DB_STATUS, false,
               some (DataService.getStatus (DataService._generateAvailabilityPromise
                 { s with isSaving := true })), none⟩,
             Output.log "warn" CONST.WARNING_DB_SAVE_UNMODIFIED,
             Output.alert ⟨CONST.IPC_ALERT_DB_STATUS_TEXT, false, none,
               some CONST.INFO_DB_SAVE_STATUS_DATABASE⟩,
             Output.alert ⟨CONST.IPC_ALERT_DB_STATUS_TEXT, false, none,
               some CONST.INFO_DB_SAVE_STATUS_FILE_SYSTEM⟩] } := by
  rw [save_accepted_eq s d hl hs hm hd]
  simp [LokiAdapter.exportDatabaseTimeout, DataService.sendStatusAlert, DataService.sendAlert]

theorem outcome_settle (s : DataService) (g : Nat) (b : Bool)
    (h : DataService.promiseOutcome s g = none) :
    (DataService.settle s g b).settled = s.settled ++ [(g, b)] ∧
      DataService.promiseOutcome (DataService.settle s g b) g = some b := by
  unfold DataService.promiseOutcome at h
  have hf : s.settled.find? (fun e => e.1 == g) = none := by
    cases hx : s.settled.find? (fun e => e.1 == g) with
    | none => rfl
    | some x => rw [hx] at h; cases h
  have hany : s.settled.any (fun e => e.1 == g) = false := by
    rw [List.find?_eq_none] at hf
    rw [List.any_eq_false]
    exact hf
  have e1 : (DataService.settle s g b).settled = s.settled ++ [(g, b)] := by
    simp [DataService.settle, hany]
  refine ⟨e1, ?_⟩
  unfold DataService.promiseOutcome
  rw [e1, List.find?_append, hf]
  simp

theorem resolve_open_gate (u : DataService) (gate : Nat)
    (hres : u.availabilityPromiseResolve = some gate)
    (hout : DataService.promiseOutcome u gate = none) :
    (DataService._availabilityPromiseResolve u).2 = none ∧
      (DataService._availabilityPromiseResolve u).1.availabilityPromise
        = u.availabilityPromise ∧
      DataService.promiseOutcome (DataService._availabilityPromiseResolve u).1 gate
        = some true ∧
      (DataService._availabilityPromiseResolve u).1.selectedProduct = u.selectedProduct ∧
      (DataService._availabilityPromiseResolve u).1.isLoading = u.isLoading ∧
      (DataService._availabilityPromiseResolve u).1.isSaving = u.isSaving ∧
      (DataService._availabilityPromiseResolve u).1.isModified = u.isModified ∧
      (DataService._availabilityPromiseResolve u).1.db = u.db ∧
      (DataService._availabilityPromiseResolve u).1.availabilityPromiseCompleted = true ∧
      (DataService._availabilityPromiseResolve u).1.outbox = u.outbox := by
  have hs := outcome_settle u gate true hout
  have hany : u.settled.any (fun e => e.1 == gate) = false := by
    unfold DataService.promiseOutcome at hout
    cases hx : u.settled.find? (fun e => e.1 == gate) with
    | none =>
      rw [List.find?_eq_none] at hx
      rw [List.any_eq_false]
      exact hx
    | some x => rw [hx] at hout; cases hout
  have e : DataService._availabilityPromiseResolve u =
      ({ DataService.settle u gate true with availabilityPromiseCompleted := true }, none) := by
    simp [DataService._availabilityPromiseResolve, hres]
  rw [e]
  refine ⟨rfl, ?_, ?_, ?_, ?_, ?_, ?_, ?_, rfl, ?_⟩
  · simp [DataService.settle, hany]
  · have := hs.2
    unfold DataService.promiseOutcome at this ⊢
    exact this
  · simp [DataService.settle, hany]
  · simp [DataService.settle, hany]
  · simp [DataService.settle, hany]
  · simp [DataService.settle, hany]
  · simp [DataService.settle, hany]
  · simp [DataService.settle, hany]

/-! ## Data service: the success paths -/

/-- C12. In every reachable state that is idle and unmodified, `loadDatabase(p,
false)` with `p` among `availableProducts` is accepted; when Loki then reports
success the callback clears `isLoading` while the gate is still unsettled, and
the continuation, which runs after it, does not throw and resolves that gate:
the promise resolves with `selectedProduct = p` (also in the status snapshot),
`isLoading` false and `isModified` false. -/
theorem load_of_listed_product_succeeds (s : DataService) (p : String)
    (hr : DataService.Reachable s) (hl : s.isLoading = false) (hs : s.isSaving = false)
    (hm : s.isModified = false) (hp : p ∈ s.availableProducts) :
    (DataService.loadDatabase s (some p) false).2 = CallResult.pending ∧
      (DataService.loadDatabaseCallback
        (DataService.loadDatabase s (some p) false).1 s.db none).2 = Settlement.resolved ∧
      (DataService.loadCallbackDone s (some p) false).isLoading = false ∧
      (DataService.loadCallbackDone s (some p) false).pendingThens =
        s.pendingThens ++ [Continuation.load] ∧
      (DataService.loadDatabaseThen (DataService.loadCallbackDone s (some p) false)).2
        = none ∧
      (∃ gate,
        DataService.getAvailabilityPromise (DataService.loadCallbackDone s (some p) false)
          = some gate ∧
        DataService.promiseOutcome (DataService.loadCallbackDone s (some p) false) gate
          = none ∧
        DataService.getAvailabilityPromise (DataService.loadCompleted s (some p) false)
          = some gate ∧
        DataService.promiseOutcome (DataService.loadCompleted s (some p) false) gate
          = some true) ∧
      (DataService.loadCompleted s (some p) false).selectedProduct = some p ∧
      (DataService.getStatus (DataService.loadCompleted s (some p) false)).selectedProduct
        = some p ∧
      (DataService.loadCompleted s (some p) false).isLoading = false ∧
      (DataService.loadCompleted s (some p) false).isModified = false := by
  have hinv := inv_reachable s hr
  have hsel := selectProduct_listed s p hp (hinv.products p hp)
  have e := load_accepted_eq s _ (some p) false hl hs hm hsel
  have hg : DataService.Inv (DataService._generateAvailabilityPromise
      { ({ s with selectedProduct := some p } : DataService) with isLoading := true }) :=
    inv_generate _ ⟨hinv.products, hinv.resolveHandle, hinv.rejectHandle, hinv.settledBelow,
      hinv.gateBelow, hinv.openGate⟩
  have hopen := generate_opens
    { ({ s with selectedProduct := some p } : DataService) with isLoading := true }
  have hflags := generate_flags
    { ({ s with selectedProduct := some p } : DataService) with isLoading := true }
  have hthens : (DataService._generateAvailabilityPromise
      { ({ s with selectedProduct := some p } : DataService) with isLoading := true
        }).pendingThens = s.pendingThens := by
    unfold DataService._generateAvailabilityPromise
    split_ifs <;> rfl
  unfold DataService.loadCompleted DataService.loadCallbackDone
  rw [e]
  generalize DataService._generateAvailabilityPromise
    { ({ s with selectedProduct := some p } : DataService) with isLoading := true } = g
    at hg hopen hflags hthens ⊢
  obtain ⟨gate, hgate, hout⟩ := hg.openGate hopen
  have hres : g.availabilityPromiseResolve = some gate := by rw [hg.resolveHandle, hgate]
  have hsp : g.selectedProduct = some p := hflags.2.2.2.1
  have hthen := resolve_open_gate
    (DataService._sendStatus (DataService.log
      (DataService.loadDatabaseCallback
        { g with
          db := some g.heap
          heap := g.heap + 1
          pendingLoads := g.pendingLoads ++ [s.db]
          outbox := g.outbox ++
            [Output.log "debug" CONST.INFO_DB_LOAD_START,
             Output.alert ⟨CONST.IPC_ALERT_DB_STATUS, false,
               some (DataService.getStatus g), none⟩,
             Output.alert ⟨CONST.IPC_ALERT_DB_STATUS_TEXT, false, none,
               some CONST.INFO_DB_LOAD_STATUS_START⟩,
             Output.alert ⟨CONST.IPC_ALERT_DB_STATUS_TEXT, false, none,
               some CONST.INFO_DB_LOAD_STATUS_FILE_SYSTEM⟩] } s.db none).1
      "info" CONST.INFO_DB_LOAD_SUCCESS) (some CONST.INFO_DB_LOAD_SUCCESS))
    gate hres hout
  refine ⟨rfl, rfl, rfl, ?_, hthen.1, ⟨gate, hgate, hout, ?_, hthen.2.2.1⟩, ?_, ?_, ?_, ?_⟩
  · simp [DataService.loadDatabaseCallback, DataService.sendStatusAlert,
      DataService.sendAlert, hthens]
  · exact hthen.2.1.trans hgate
  · exact hthen.2.2.2.1.trans hsp
  · exact hthen.2.2.2.1.trans hsp
  · exact hthen.2.2.2.2.1
  · exact hthen.2.2.2.2.2.2.1

/-- Witness of C12: scenario B of the specification, `load("alpha", false)` with
`/proj` selected. -/
theorem load_of_listed_product_succeeds_witness :
    DataService.Reachable projectSelected ∧ projectSelected.isLoading = false ∧
      projectSelected.isSaving = false ∧ projectSelected.isModified = false ∧
      "alpha" ∈ projectSelected.availableProducts ∧
      (DataService.loadDatabaseThen
        (DataService.loadCallbackDone projectSelected (some "alpha") false)).2 = none ∧
      (DataService.loadCompleted projectSelected (some "alpha") false).selectedProduct
        = some "alpha" ∧
      (DataService.loadCompleted projectSelected (some "alpha") false).isLoading = false :=
  have h := load_of_listed_product_succeeds projectSelected "alpha" ⟨selectProj, rfl⟩
    (by decide) (by decide) (by decide) (by decide)
  ⟨⟨selectProj, rfl⟩, by decide, by decide, by decide, by decide, h.2.2.2.2.1,
    h.2.2.2.2.2.2.1, h.2.2.2.2.2.2.2.2.1⟩

/-- C16 as stated fails: saving the loaded, unmodified `alpha` sends no alert of
a warning class. Everything the call, the adapter, the callback and the
continuation emit is listed here: the warning is a line of the log, and the
alerts are the status and status-text alerts of every save, none flagged as an
error. The same outputs come from the events of the save in their order. -/
theorem unmodified_save_warns_in_log_only :
    readyAlpha.isModified = false ∧ readyAlpha.db = some 1 ∧
      readyAlpha.isLoading = false ∧ readyAlpha.isSaving = false ∧
      (DataService.saveCompleted readyAlpha).outbox.drop readyAlpha.outbox.length =
        [Output.log "debug" CONST.INFO_DB_SAVE_START,
         Output.alert ⟨CONST.IPC_ALERT_DB_STATUS_TEXT, false, none,
           some CONST.INFO_DB_SAVE_STATUS_START⟩,
         Output.alert ⟨CONST.IPC_ALERT_DB_STATUS, false,
           some ⟨some "/proj", ["alpha", "beta"], some "alpha", false, true⟩, none⟩,
         Output.log "warn" CONST.WARNING_DB_SAVE_UNMODIFIED,
         Output.alert ⟨CONST.IPC_ALERT_DB_STATUS_TEXT, false, none,
           some CONST.INFO_DB_SAVE_STATUS_DATABASE⟩,
         Output.alert ⟨CONST.IPC_ALERT_DB_STATUS_TEXT, false, none,
           some CONST.INFO_DB_SAVE_STATUS_FILE_SYSTEM⟩,
         Output.alert ⟨CONST.IPC_ALERT_DB_STATUS_TEXT, false, none,
           some CONST.INFO_DB_SAVE_STATUS_CLEANUP⟩,
         Output.log "info" CONST.INFO_DB_SAVE_SUCCESS,
         Output.alert ⟨CONST.IPC_ALERT_DB_STATUS, false,
           some ⟨some "/proj", ["alpha", "beta"], some "alpha", false, false⟩,
           some CONST.INFO_DB_SAVE_SUCCESS⟩] ∧
      ((DataService.saveCompleted readyAlpha).outbox.drop readyAlpha.outbox.length).all
        Output.isStatusOrLog = true ∧
      (DataService.run readyAlpha
          [DataEvent.saveDatabase, DataEvent.exportTimeout, DataEvent.saveCallback none,
           DataEvent.continuation]).outbox =
        (DataService.saveCompleted readyAlpha).outbox := by
  decide

/-- C16, amended. In every reachable idle state with a store loaded and
`isModified` false, `saveDatabase()` is accepted, writes the unmodified warning
to the log with `log.warn` and goes on to the adapter; when the adapter has
written and Loki reports success the callback clears `isSaving`, the
continuation does not throw and resolves the gate, so the promise resolves with
`isSaving` and `isModified` false. What the save has emitted by then is listed:
log lines, among them the warning, and status and status-text alerts that are
not errors. -/
theorem unmodified_save_succeeds (s : DataService) (d : Nat)
    (hr : DataService.Reachable s) (hl : s.isLoading = false) (hs : s.isSaving = false)
    (hm : s.isModified = false) (hd : s.db = some d) :
    (DataService.saveDatabase s).2 = CallResult.pending ∧
      (DataService.saveDatabase s).1.isSaving = true ∧
      (DataService.saveDatabase s).1.outbox = s.outbox ++
        [Output.log "debug" CONST.INFO_DB_SAVE_START,
         Output.alert ⟨CONST.IPC_ALERT_DB_STATUS_TEXT, false, none,
           some CONST.INFO_DB_SAVE_STATUS_START⟩,
         Output.alert ⟨CONST.IPC_ALERT_DB_STATUS, false,
           some (DataService.getStatus { s with isSaving := true }), none⟩,
         Output.log "warn" CONST.WARNING_DB_SAVE_UNMODIFIED,
         Output.alert ⟨CONST.IPC_ALERT_DB_STATUS_TEXT, false, none,
           some CONST.INFO_DB_SAVE_STATUS_DATABASE⟩] ∧
      (DataService.saveDatabaseCallback
          (LokiAdapter.exportDatabaseTimeout (DataService.saveDatabase s).1) none).2
        = Settlement.resolved ∧
      (DataService.saveCallbackDone s).isSaving = false ∧
      (DataService.saveDatabaseThen (DataService.saveCallbackDone s)).2 = none ∧
      (DataService.saveCompleted s).isSaving = false ∧
      (DataService.saveCompleted s).isModified = false ∧
      (DataService.saveCompleted s).db = some d ∧
      (∃ gate, DataService.getAvailabilityPromise (DataService.saveCompleted s) = some gate ∧
        DataService.promiseOutcome (DataService.saveCompleted s) gate = some true) ∧
      (DataService.saveCompleted s).outbox = s.outbox ++
        [Output.log "debug" CONST.INFO_DB_SAVE_START,
         Output.alert ⟨CONST.IPC_ALERT_DB_STATUS_TEXT, false, none,
           some CONST.INFO_DB_SAVE_STATUS_START⟩,
         Output.alert ⟨CONST.IPC_ALERT_DB_STATUS, false,
           some (DataService.getStatus { s with isSaving := true }), none⟩,
         Output.log "warn" CONST.WARNING_DB_SAVE_UNMODIFIED,
         Output.alert ⟨CONST.IPC_ALERT_DB_STATUS_TEXT, false, none,
           some CONST.INFO_DB_SAVE_STATUS_DATABASE⟩,
         Output.alert ⟨CONST.IPC_ALERT_DB_STATUS_TEXT, false, none,
           some CONST.INFO_DB_SAVE_STATUS_FILE_SYSTEM⟩,
         Output.alert ⟨CONST.IPC_ALERT_DB_STATUS_TEXT, false, none,
           some CONST.INFO_DB_SAVE_STATUS_CLEANUP⟩,
         Output.log "info" CONST.INFO_DB_SAVE_SUCCESS,
         Output.alert ⟨CONST.IPC_ALERT_DB_STATUS, false, some (DataService.getStatus s),
           some CONST.INFO_DB_SAVE_SUCCESS⟩] := by
  have hinv := inv_reachable s hr
  have e := save_accepted_eq s d hl hs hm hd
  have e2 := save_exported_eq s d hl hs hm hd
  have hg : DataService.Inv (DataService._generateAvailabilityPromise
      { s with isSaving := true }) :=
    inv_generate _ ⟨hinv.products, hinv.resolveHandle, hinv.rejectHandle, hinv.settledBelow,
      hinv.gateBelow, hinv.openGate⟩
  have hopen := generate_opens { s with isSaving := true }
  have hflags := generate_flags { s with isSaving := true }
  unfold DataService.saveCompleted DataService.saveCallbackDone
  rw [e2, e]
  generalize DataService._generateAvailabilityPromise { s with isSaving := true } = g
    at hg hopen hflags ⊢
  obtain ⟨gate, hgate, hout⟩ := hg.openGate hopen
  have hres : g.availabilityPromiseResolve = some gate := by rw [hg.resolveHandle, hgate]
  have hst : DataService.getStatus g = DataService.getStatus { s with isSaving := true } := by
    simp [DataService.getStatus, hflags]
  have hthen := resolve_open_gate
    (DataService._sendStatus (DataService.log
      (DataService.saveDatabaseCallback
        { g with
          pendingExports := g.pendingExports + 1
          pendingSaves := g.pendingSaves + 1
          outbox := g.outbox ++
            [Output.log "debug" CONST.INFO_DB_SAVE_START,
             Output.alert ⟨CONST.IPC_ALERT_DB_STATUS_TEXT, false, none,
               some CONST.INFO_DB_SAVE_STATUS_START⟩,
             Output.alert ⟨CONST.IPC_ALERT_DB_STATUS, false,
               some (DataService.getStatus g), none⟩,
             Output.log "warn" CONST.WARNING_DB_SAVE_UNMODIFIED,
             Output.alert ⟨CONST.IPC_ALERT_DB_STATUS_TEXT, false, none,
               some CONST.INFO_DB_SAVE_STATUS_DATABASE⟩,
             Output.alert ⟨CONST.IPC_ALERT_DB_STATUS_TEXT, false, none,
               some CONST.INFO_DB_SAVE_STATUS_FILE_SYSTEM⟩] } none).1
      "info" CONST.INFO_DB_SAVE_SUCCESS) (some CONST.INFO_DB_SAVE_SUCCESS))
    gate hres hout
  refine ⟨rfl, hflags.2.1, ?_, rfl, rfl, hthen.1, hthen.2.2.2.2.2.1, hthen.2.2.2.2.2.2.1,
    ?_, ⟨gate, hthen.2.1.trans hgate, hthen.2.2.1⟩, ?_⟩
  · show g.outbox ++ _ = _
    rw [hflags.2.2.2.2.2.2.2.2.2, hst]
  · exact hthen.2.2.2.2.2.2.2.1.trans (hflags.2.2.1.trans hd)
  · refine Eq.trans hthen.2.2.2.2.2.2.2.2.2 ?_
    have hout : g.outbox = s.outbox := hflags.2.2.2.2.2.2.2.2.2
    have hfinal : (⟨g.projectDirectory, g.availableProducts, g.selectedProduct, g.isLoading,
        false⟩ : StatusSnapshot) = DataService.getStatus s := by
      simp [DataService.getStatus, hflags, hs]
    simp [DataService._sendStatus, DataService.sendAlert, DataService.log,
      DataService.saveDatabaseCallback, DataService.sendStatusAlert, hout, hst]
    exact hfinal

/-- Witness of C16, amended: saving the loaded, unmodified `alpha`. -/
theorem unmodified_save_succeeds_witness :
    DataService.Reachable readyAlpha ∧ readyAlpha.isLoading = false ∧
      readyAlpha.isSaving = false ∧ readyAlpha.isModified = false ∧
      readyAlpha.db = some 1 ∧
      (DataService.saveDatabase readyAlpha).2 = CallResult.pending ∧
      (DataService.saveCompleted readyAlpha).isSaving = false :=
  have hr : DataService.Reachable readyAlpha :=
    ⟨selectProj ++ [DataEvent.loadDatabase (some "alpha") false,
      DataEvent.loadCallback none none, DataEvent.continuation], by decide⟩
  have h := unmodified_save_succeeds readyAlpha 1 hr (by decide) (by decide) (by decide)
    (by decide)
  ⟨hr, by decide, by decide, by decide, by decide, h.1, h.2.2.2.2.2.2.1⟩

/-! ## The availability gate -/

theorem generate_of_open (s : DataService) (h : s.availabilityPromiseCompleted = false) :
    DataService._generateAvailabilityPromise s = s := by
  simp [DataService._generateAvailabilityPromise, h]

theorem generate_settled (s : DataService) :
    (DataService._generateAvailabilityPromise s).settled = s.settled := by
  unfold DataService._generateAvailabilityPromise
  split_ifs <;> rfl

theorem generate_idem (s : DataService) :
    DataService._generateAvailabilityPromise (DataService._generateAvailabilityPromise s) =
      DataService._generateAvailabilityPromise s :=
  generate_of_open _ (generate_opens s)

theorem settle_idem (s : DataService) (g : Nat) (b b2 : Bool) :
    DataService.settle (DataService.settle s g b) g b2 = DataService.settle s g b := by
  by_cases h : s.settled.any (fun e => e.1 == g) = true
  · have e : ∀ c, DataService.settle s g c = s := by
      intro c
      simp [DataService.settle, h]
    rw [e b, e b2]
  · have h2 : (DataService.settle s g b).settled.any (fun e => e.1 == g) = true := by
      simp [DataService.settle, h]
    generalize DataService.settle s g b = t at h2 ⊢
    simp [DataService.settle, h2]

theorem generate_gate_of_open (s : DataService) (h : s.availabilityPromiseCompleted = false) :
    (DataService._generateAvailabilityPromise s).availabilityPromise = s.availabilityPromise := by
  rw [generate_of_open s h]

theorem settle_grows (s : DataService) (g : Nat) (b : Bool) :
    (∃ l, (DataService.settle s g b).settled = s.settled ++ l) ∧
      (DataService.promiseOutcome (DataService.settle s g b) g).isSome = true := by
  by_cases h : DataService.promiseOutcome s g = none
  · have hs := outcome_settle s g b h
    exact ⟨⟨[(g, b)], hs.1⟩, by rw [hs.2]; rfl⟩
  · have hany : s.settled.any (fun e => e.1 == g) = true := by
      unfold DataService.promiseOutcome at h
      cases hx : s.settled.find? (fun e => e.1 == g) with
      | none => rw [hx] at h; exact absurd rfl h
      | some x =>
        have hmem := List.mem_of_find?_eq_some hx
        have hp := List.find?_some hx
        rw [List.any_eq_true]
        exact ⟨x, hmem, hp⟩
    have e : DataService.settle s g b = s := by simp [DataService.settle, hany]
    rw [e]
    refine ⟨⟨[], by simp⟩, ?_⟩
    cases ho : DataService.promiseOutcome s g with
    | none => exact absurd ho h
    | some x => rfl

theorem outcome_stable (s t : DataService) (g : Nat) (b : Bool)
    (h : ∃ l, t.settled = s.settled ++ l) (ho : DataService.promiseOutcome s g = some b) :
    DataService.promiseOutcome t g = some b := by
  obtain ⟨l, hl⟩ := h
  unfold DataService.promiseOutcome at ho ⊢
  cases hx : s.settled.find? (fun e => e.1 == g) with
  | none => rw [hx] at ho; cases ho
  | some x =>
    rw [hx] at ho
    rw [hl, List.find?_append, hx]
    exact ho

theorem load_gate_summary (s : DataService) (product : Option String) (force : Bool) :
    (DataService.loadDatabase s product force).1 = s ∨
      ((DataService.loadDatabase s product force).1.availabilityPromiseCompleted = false ∧
        (DataService.loadDatabase s product force).1.settled = s.settled ∧
        (s.availabilityPromiseCompleted = false →
          (DataService.loadDatabase s product force).1.availabilityPromise
            = s.availabilityPromise)) := by
  unfold DataService.loadDatabase
  dsimp only
  split_ifs with h1 h2 h3 h4
  · exact Or.inl rfl
  · exact Or.inl rfl
  · exact Or.inl rfl
  · exact Or.inl (selectProduct_refused s product (by simpa using h4))
  · refine Or.inr ⟨?_, ?_, ?_⟩
    · simp [DataService.sendStatusAlert, DataService._sendStatus, DataService.sendAlert,
        DataService.log, LokiAdapter.loadDatabase, generate_opens]
    · simp [DataService.sendStatusAlert, DataService._sendStatus, DataService.sendAlert,
        DataService.log, LokiAdapter.loadDatabase, generate_settled, selectProduct_gate]
    · intro hc
      simp [DataService.sendStatusAlert, DataService._sendStatus, DataService.sendAlert,
        DataService.log, LokiAdapter.loadDatabase]
      rw [generate_gate_of_open _ (by simpa [selectProduct_gate] using hc)]
      simp [selectProduct_gate]

theorem save_gate_summary (s : DataService) :
    (DataService.saveDatabase s).1 = s ∨
      ((DataService.saveDatabase s).1.availabilityPromiseCompleted = false ∧
        (DataService.saveDatabase s).1.settled = s.settled ∧
        (s.availabilityPromiseCompleted = false →
          (DataService.saveDatabase s).1.availabilityPromise = s.availabilityPromise)) := by
  unfold DataService.saveDatabase
  split_ifs with h1 h2
  · exact Or.inl rfl
  · exact Or.inl rfl
  · refine Or.inr ⟨?_, ?_, ?_⟩
    · cases hdb : s.db <;> by_cases hm : s.isModified = true <;>
        simp [DataService.sendStatusAlert, DataService._sendStatus, DataService.sendAlert,
          DataService.log, LokiAdapter.exportDatabase, generate_flags, generate_opens,
          hdb, hm]
    · cases hdb : s.db <;> by_cases hm : s.isModified = true <;>
        simp [DataService.sendStatusAlert, DataService._sendStatus, DataService.sendAlert,
          DataService.log, LokiAdapter.exportDatabase, generate_flags, generate_settled,
          hdb, hm]
    · intro hc
      have hc2 : ({ s with isSaving := true } : DataService).availabilityPromiseCompleted
          = false := hc
      have hg := generate_gate_of_open _ hc2
      have hf := generate_flags { s with isSaving := true }
      dsimp only
      generalize DataService._generateAvailabilityPromise { s with isSaving := true } = g
        at hg hf ⊢
      have hdb : g.db = s.db := hf.2.2.1
      have hmod : g.isModified = s.isModified := hf.2.2.2.2.1
      cases hd : s.db <;> by_cases hm : s.isModified = true <;>
        simp [DataService.sendStatusAlert, DataService._sendStatus, DataService.sendAlert,
          DataService.log, LokiAdapter.exportDatabase, hdb, hmod, hd, hm] <;> exact hg

theorem settle_gate (s : DataService) (g : Nat) (b : Bool) :
    (DataService.settle s g b).availabilityPromise = s.availabilityPromise := by
  unfold DataService.settle
  split_ifs <;> rfl

theorem resolve_gate_summary (u : DataService)
    (hh : u.availabilityPromiseResolve = u.availabilityPromise) :
    (DataService._availabilityPromiseResolve u).1 = u ∨
      ((DataService._availabilityPromiseResolve u).1.availabilityPromiseCompleted = true ∧
        (DataService._availabilityPromiseResolve u).1.availabilityPromise
          = u.availabilityPromise ∧
        (∃ l, (DataService._availabilityPromiseResolve u).1.settled = u.settled ++ l) ∧
        DataService.gateSettled (DataService._availabilityPromiseResolve u).1 = true) := by
  cases hr : u.availabilityPromiseResolve with
  | none => exact Or.inl (by simp [DataService._availabilityPromiseResolve, hr])
  | some gate =>
    have e : DataService._availabilityPromiseResolve u =
        ({ DataService.settle u gate true with availabilityPromiseCompleted := true }, none) := by
      simp [DataService._availabilityPromiseResolve, hr]
    have hg : u.availabilityPromise = some gate := by rw [← hh, hr]
    have hs := settle_grows u gate true
    rw [e]
    refine Or.inr ⟨rfl, settle_gate u gate true, hs.1, ?_⟩
    have hgate : ({ DataService.settle u gate true with
        availabilityPromiseCompleted := true } : DataService).availabilityPromise = some gate :=
      (settle_gate u gate true).trans hg
    unfold DataService.gateSettled
    rw [hgate]
    exact hs.2

/-- What one event can do to the gate: nothing; or leave a gate that is marked
open, a new one only if the old one was marked completed; or resolve the
current gate; or, for `unloadDatabase`, mark the gate completed as it is. -/
theorem step_gate_summary (s : DataService) (e : DataEvent) (h : DataService.Inv s) :
    ((DataService.step s e).availabilityPromise = s.availabilityPromise ∧
        (DataService.step s e).settled = s.settled ∧
        (DataService.step s e).availabilityPromiseCompleted = s.availabilityPromiseCompleted) ∨
      ((DataService.step s e).availabilityPromiseCompleted = false ∧
        (DataService.step s e).settled = s.settled ∧
        (s.availabilityPromiseCompleted = false →
          (DataService.step s e).availabilityPromise = s.availabilityPromise)) ∨
      ((DataService.step s e).availabilityPromiseCompleted = true ∧
        (DataService.step s e).availabilityPromise = s.availabilityPromise ∧
        (∃ l, (DataService.step s e).settled = s.settled ++ l) ∧
        DataService.gateSettled (DataService.step s e) = true) ∨
      (e = DataEvent.unloadDatabase ∧
        (DataService.step s e).availabilityPromiseCompleted = true ∧
        (DataService.step s e).availabilityPromise = s.availabilityPromise ∧
        (DataService.step s e).settled = s.settled) := by
  cases e with
  | selectProjectDirectory dir =>
    refine Or.inl ?_
    simp only [DataService.step, DataService.selectProjectDirectory]
    split_ifs
    · exact ⟨rfl, rfl, rfl⟩
    · cases dir <;> exact ⟨rfl, rfl, rfl⟩
  | getProductsResolved dir files =>
    refine Or.inl ?_
    simp only [DataService.step]
    split_ifs <;> exact ⟨rfl, rfl, rfl⟩
  | getProductsRejected dir =>
    refine Or.inl ?_
    simp only [DataService.step]
    split_ifs <;> exact ⟨rfl, rfl, rfl⟩
  | loadDatabase product force =>
    simp only [DataService.step]
    rcases load_gate_summary s product force with h1 | h1
    · rw [h1]; exact Or.inl ⟨rfl, rfl, rfl⟩
    · exact Or.inr (Or.inl h1)
  | loadCallback dbBackup err =>
    refine Or.inl ?_
    simp only [DataService.step]
    split_ifs
    · cases err <;> exact ⟨rfl, rfl, rfl⟩
    · exact ⟨rfl, rfl, rfl⟩
  | saveDatabase =>
    simp only [DataService.step]
    rcases save_gate_summary s with h1 | h1
    · rw [h1]; exact Or.inl ⟨rfl, rfl, rfl⟩
    · exact Or.inr (Or.inl h1)
  | saveCallback err =>
    refine Or.inl ?_
    simp only [DataService.step]
    split_ifs
    · cases err <;> exact ⟨rfl, rfl, rfl⟩
    · exact ⟨rfl, rfl, rfl⟩
  | continuation =>
    have key : ∀ (rest : List Continuation) (msg : String),
        (((DataService._availabilityPromiseResolve (DataService._sendStatus
              (DataService.log { s with pendingThens := rest } "info" msg) (some msg))).1
            ).availabilityPromise = s.availabilityPromise ∧
          ((DataService._availabilityPromiseResolve (DataService._sendStatus
              (DataService.log { s with pendingThens := rest } "info" msg) (some msg))).1
            ).settled = s.settled ∧
          ((DataService._availabilityPromiseResolve (DataService._sendStatus
              (DataService.log { s with pendingThens := rest } "info" msg) (some msg))).1
            ).availabilityPromiseCompleted = s.availabilityPromiseCompleted) ∨
        (((DataService._availabilityPromiseResolve (DataService._sendStatus
              (DataService.log { s with pendingThens := rest } "info" msg) (some msg))).1
            ).availabilityPromiseCompleted = true ∧
          ((DataService._availabilityPromiseResolve (DataService._sendStatus
              (DataService.log { s with pendingThens := rest } "info" msg) (some msg))).1
            ).availabilityPromise = s.availabilityPromise ∧
          (∃ l, ((DataService._availabilityPromiseResolve (DataService._sendStatus
              (DataService.log { s with pendingThens := rest } "info" msg) (some msg))).1
            ).settled = s.settled ++ l) ∧
          DataService.gateSettled (DataService._availabilityPromiseResolve
            (DataService._sendStatus
              (DataService.log { s with pendingThens := rest } "info" msg) (some msg))).1
            = true) := by
      intro rest msg
      rcases resolve_gate_summary (DataService._sendStatus
          (DataService.log { s with pendingThens := rest } "info" msg) (some msg))
          h.resolveHandle with h1 | h1
      · rw [h1]; exact Or.inl ⟨rfl, rfl, rfl⟩
      · exact Or.inr h1
    simp only [DataService.step]
    split
    · exact Or.inl ⟨rfl, rfl, rfl⟩
    · split
      · rcases key _ CONST.INFO_DB_LOAD_SUCCESS with h1 | h1
        · exact Or.inl h1
        · exact Or.inr (Or.inr (Or.inl h1))
      · rcases key _ CONST.INFO_DB_SAVE_SUCCESS with h1 | h1
        · exact Or.inl h1
        · exact Or.inr (Or.inr (Or.inl h1))
  | unloadDatabase => exact Or.inr (Or.inr (Or.inr ⟨rfl, rfl, rfl, rfl⟩))
  | nextTick =>
    simp only [DataService.step]
    split_ifs
    · exact Or.inr (Or.inl ⟨generate_opens _, generate_settled _,
        fun hc => generate_gate_of_open _ hc⟩)
    · exact Or.inl ⟨rfl, rfl, rfl⟩
  | exportTimeout =>
    refine Or.inl ?_
    simp only [DataService.step]
    split_ifs <;> exact ⟨rfl, rfl, rfl⟩

theorem step_settled_grows (s : DataService) (e : DataEvent) (h : DataService.Inv s) :
    ∃ l, (DataService.step s e).settled = s.settled ++ l := by
  rcases step_gate_summary s e h with h1 | h1 | h1 | h1
  · exact ⟨[], by rw [h1.2.1]; simp⟩
  · exact ⟨[], by rw [h1.2.1]; simp⟩
  · exact h1.2.2.1
  · exact ⟨[], by rw [h1.2.2.2]; simp⟩

theorem step_gate_change (s : DataService) (e : DataEvent) (h : DataService.Inv s)
    (hne : (DataService.step s e).availabilityPromise ≠ s.availabilityPromise) :
    s.availabilityPromiseCompleted = true := by
  rcases step_gate_summary s e h with h1 | h1 | h1 | h1
  · exact absurd h1.1 hne
  · cases hc : s.availabilityPromiseCompleted with
    | true => rfl
    | false => exact absurd (h1.2.2 hc) hne
  · exact absurd h1.2.1 hne
  · exact absurd h1.2.2.1 hne

theorem gateSettled_transfer (s t : DataService)
    (hg : t.availabilityPromise = s.availabilityPromise) (hs : t.settled = s.settled) :
    DataService.gateSettled t = DataService.gateSettled s := by
  unfold DataService.gateSettled DataService.promiseOutcome
  rw [hg, hs]

theorem closedGate_step (s : DataService) (e : DataEvent) (h : DataService.Inv s)
    (hc : DataService.ClosedGateSettled s)
    (hu : e = DataEvent.unloadDatabase → DataService.gateSettled s = true) :
    DataService.ClosedGateSettled (DataService.step s e) := by
  intro hcompleted
  rcases step_gate_summary s e h with h1 | h1 | h1 | h1
  · rw [gateSettled_transfer s _ h1.1 h1.2.1]
    exact hc (by rw [← h1.2.2]; exact hcompleted)
  · rw [h1.1] at hcompleted; cases hcompleted
  · exact h1.2.2.2
  · rw [gateSettled_transfer s _ h1.2.2.1 h1.2.2.2]
    exact hu h1.1

theorem guarded_no_abandon (events : List DataEvent) (s : DataService)
    (h : DataService.Inv s) (hc : DataService.ClosedGateSettled s)
    (hg : DataService.unloadsGuarded s events = true) :
    DataService.abandonsGate s events = false := by
  induction events generalizing s with
  | nil => rfl
  | cons e es ih =>
    simp only [DataService.unloadsGuarded, Bool.and_eq_true] at hg
    have hu : e = DataEvent.unloadDatabase → DataService.gateSettled s = true := by
      intro he
      have := hg.1
      rw [if_pos he] at this
      exact this
    have hrest := ih (DataService.step s e) (inv_step s e h) (closedGate_step s e h hc hu) hg.2
    simp only [DataService.abandonsGate, hrest, Bool.or_false]
    by_cases hne : (DataService.step s e).availabilityPromise = s.availabilityPromise
    · simp [hne]
    · have := hc (step_gate_change s e h hne)
      simp [this]

/-- C17. Opening the gate is idempotent. While the gate is marked pending
(`_availabilityPromiseCompleted` false) `_generateAvailabilityPromise` returns
the state as it is, so the gate and both handles stay the same, and in every
state a second call changes nothing after the first. In a reachable state a gate
marked pending exists, has not been settled, and both handles belong to it.
Settling is first-come: a second settlement of a promise changes nothing, and
an outcome once recorded is the outcome in every later state, so all who await
the gate see the same settlement. -/
theorem gate_open_idempotent (s : DataService) (hr : DataService.Reachable s) :
    (s.availabilityPromiseCompleted = false →
      DataService._generateAvailabilityPromise s = s) ∧
    DataService._generateAvailabilityPromise (DataService._generateAvailabilityPromise s) =
      DataService._generateAvailabilityPromise s ∧
    (s.availabilityPromiseCompleted = false →
      ∃ gate, DataService.getAvailabilityPromise s = some gate ∧
        s.availabilityPromiseResolve = some gate ∧
        s.availabilityPromiseReject = some gate ∧
        DataService.promiseOutcome s gate = none) ∧
    (∀ g b b2, DataService.settle (DataService.settle s g b) g b2 = DataService.settle s g b) ∧
    (∀ e g b, DataService.promiseOutcome s g = some b →
      DataService.promiseOutcome (DataService.step s e) g = some b) := by
  have hinv := inv_reachable s hr
  refine ⟨generate_of_open s, generate_idem s, ?_, settle_idem s, ?_⟩
  · intro hc
    obtain ⟨gate, hg, ho⟩ := hinv.openGate hc
    exact ⟨gate, hg, by rw [hinv.resolveHandle, hg], by rw [hinv.rejectHandle, hg], ho⟩
  · intro e g b ho
    exact outcome_stable s _ g b (step_settled_grows s e hinv) ho

/-- Witness of C17: with `/proj` selected the first gate is still pending. -/
theorem gate_open_idempotent_witness :
    DataService.Reachable projectSelected ∧
      projectSelected.availabilityPromiseCompleted = false ∧
      DataService._generateAvailabilityPromise projectSelected = projectSelected ∧
      (∃ gate, DataService.getAvailabilityPromise projectSelected = some gate ∧
        projectSelected.availabilityPromiseResolve = some gate ∧
        projectSelected.availabilityPromiseReject = some gate ∧
        DataService.promiseOutcome projectSelected gate = none) :=
  have h := gate_open_idempotent projectSelected ⟨selectProj, rfl⟩
  ⟨⟨selectProj, rfl⟩, by decide, h.1 (by decide), h.2.2.1 (by decide)⟩

/-- C18 as stated fails: `unloadDatabase` marks the gate completed without
settling it. After construction the deferred generation creates gate 0; an
unload follows while gate 0 is unsettled; the deferred generation of the unload
then puts gate 1 in its place. Gate 0 is never settled, and a content request
that took it stays pending. -/
theorem unload_abandons_open_gate :
    DataService.getAvailabilityPromise (DataService.run DataService.new [DataEvent.nextTick])
        = some 0 ∧
      DataService.promiseOutcome
        (DataService.run DataService.new [DataEvent.nextTick, DataEvent.unloadDatabase]) 0
        = none ∧
      DataService.getAvailabilityPromise (DataService.run DataService.new unloadBeforeLoad)
        = some 1 ∧
      DataService.promiseOutcome (DataService.run DataService.new unloadBeforeLoad) 0 = none ∧
      DataService.abandonsGate DataService.new unloadBeforeLoad = true ∧
      DataIPCService.contentRequest (DataService.run DataService.new [DataEvent.nextTick])
        (DataService.run DataService.new unloadBeforeLoad) = Awaited.pending := by
  decide

/-- C18, amended. In every sequence of events from construction in which
`unloadDatabase` is only called while the current gate is settled (or there is
none), no event puts a new gate in the place of an unsettled one: a gate is
replaced only after it has been resolved. -/
theorem guarded_unload_never_abandons (events : List DataEvent)
    (hg : DataService.unloadsGuarded DataService.new events = true) :
    DataService.abandonsGate DataService.new events = false :=
  guarded_no_abandon events DataService.new inv_new (fun _ => rfl) hg

/-- Witness of C18, amended: load `alpha`, then unload once the gate is
resolved. -/
theorem guarded_unload_never_abandons_witness :
    DataService.unloadsGuarded DataService.new loadThenUnload = true ∧
      DataService.abandonsGate DataService.new loadThenUnload = false :=
  ⟨by decide, guarded_unload_never_abandons loadThenUnload (by decide)⟩

/-! ## Selecting the project directory -/

theorem filterMap_filter_eq_map_filter {α β : Type} (keep pick : α → Bool) (f : α → Option β)
    (g : α → β) (l : List α)
    (h : ∀ x, (if keep x then f x else none) = (if pick x then some (g x) else none)) :
    (l.filter keep).filterMap f = (l.filter pick).map g := by
  induction l with
  | nil => rfl
  | cons x xs ih =>
    have hx := h x
    by_cases hk : keep x = true <;> by_cases hp : pick x = true
    · rw [List.filter_cons_of_pos hk, List.filter_cons_of_pos hp, List.map_cons]
      rw [if_pos hk, if_pos hp] at hx
      rw [List.filterMap_cons_some hx, ih]
    · rw [List.filter_cons_of_pos hk, List.filter_cons_of_neg hp]
      rw [if_pos hk, if_neg hp] at hx
      rw [List.filterMap_cons_none hx, ih]
    · rw [if_neg hk, if_pos hp] at hx
      cases hx
    · rw [List.filter_cons_of_neg hk, List.filter_cons_of_neg hp, ih]

theorem getProducts_eq (files : List (String × Bool)) :
    IOService.getProducts files =
      (files.filter (fun file =>
        file.2 && file.1.toList.head? != some '.' && file.1 != "")).map Prod.fst := by
  unfold IOService.getProducts IOService._getDirectories
  rw [List.filterMap_map]
  apply filterMap_filter_eq_map_filter
  intro file
  obtain ⟨name, isDirectory⟩ := file
  cases isDirectory <;> by_cases hdot : (name.toList.head? != some '.') = true <;>
    by_cases hne : (name != "") = true <;> simp [hdot, hne] <;> simp_all

/-- C20 as stated fails in two places. With `alpha` loaded,
`selectProjectDirectory("/other")` rejects with the `DatabaseError` whose
message says that a product is currently open, which is not the invalid-directory
message. And of the subdirectories `.git`, `alpha` and `beta` of a directory,
the listing yields `alpha` and `beta` only. A listing error other than `ENOENT`
is passed on as it is. -/
theorem select_with_product_open_reports_active :
    truthy readyAlpha.selectedProduct = true ∧
      DataService.selectProjectDirectory readyAlpha (some "/other") =
        (readyAlpha, some ⟨"DatabaseError", CONST.ERROR_DB_PROJECT_SELECT_ACTIVE⟩) ∧
      CONST.ERROR_DB_PROJECT_SELECT_ACTIVE ≠ CONST.ERROR_DB_PROJECT_SELECT_INVALID ∧
      IOService.getProducts projListing = ["alpha", "beta"] ∧
      DataService.selectProjectDirectoryCatch ⟨some "EACCES", "permission denied"⟩ =
        SelectRejection.listing ⟨some "EACCES", "permission denied"⟩ := by
  decide

/-- C20, amended. `selectProjectDirectory(path)` rejects with a `DatabaseError`
and leaves the state as it was: with the product-open message when a product is
selected, with the invalid-directory message when the path is not a string.
Otherwise the listing is started. When it fails with code `ENOENT` the promise
rejects with the invalid-directory `DatabaseError`, with any other error it
rejects with that error, and `projectDirectory` and `availableProducts` stay as
they were. When it succeeds, `projectDirectory` is the path, `availableProducts`
are the names of the listed directories that do not start with a dot, in
listing order, `selectedProduct` is unchanged and one status alert with the new
snapshot is sent. -/
theorem select_directory_outcomes (s : DataService) (path : String)
    (files : List (String × Bool)) (err : FsError) :
    (truthy s.selectedProduct = true → ∀ dir,
      DataService.selectProjectDirectory s dir =
        (s, some ⟨"DatabaseError", CONST.ERROR_DB_PROJECT_SELECT_ACTIVE⟩)) ∧
    (truthy s.selectedProduct = false →
      DataService.selectProjectDirectory s none =
        (s, some ⟨"DatabaseError", CONST.ERROR_DB_PROJECT_SELECT_INVALID⟩)) ∧
    (truthy s.selectedProduct = false →
      DataService.selectProjectDirectory s (some path) =
        ({ s with pendingSelects := s.pendingSelects ++ [path] }, none)) ∧
    (err.code = some "ENOENT" →
      DataService.selectProjectDirectoryCatch err =
        SelectRejection.database ⟨"DatabaseError", CONST.ERROR_DB_PROJECT_SELECT_INVALID⟩) ∧
    (err.code ≠ some "ENOENT" →
      DataService.selectProjectDirectoryCatch err = SelectRejection.listing err) ∧
    (DataService.step s (DataEvent.getProductsRejected path)).projectDirectory
      = s.projectDirectory ∧
    (DataService.step s (DataEvent.getProductsRejected path)).availableProducts
      = s.availableProducts ∧
    (DataService.selectProjectDirectoryThen s path (IOService.getProducts files)).projectDirectory
      = some path ∧
    (DataService.selectProjectDirectoryThen s path (IOService.getProducts files)).availableProducts
      = (files.filter (fun file =>
          file.2 && file.1.toList.head? != some '.' && file.1 != "")).map Prod.fst ∧
    (DataService.selectProjectDirectoryThen s path (IOService.getProducts files)).selectedProduct
      = s.selectedProduct ∧
    (DataService.selectProjectDirectoryThen s path (IOService.getProducts files)).outbox
      = s.outbox ++ [Output.alert ⟨CONST.IPC_ALERT_DB_STATUS, false,
          some ⟨some path, IOService.getProducts files, s.selectedProduct, s.isLoading,
            s.isSaving⟩, none⟩] := by
  refine ⟨?_, ?_, ?_, ?_, ?_, ?_, ?_, rfl, getProducts_eq files, rfl, rfl⟩
  · intro h dir
    simp [DataService.selectProjectDirectory, h]
  · intro h
    simp [DataService.selectProjectDirectory, h]
  · intro h
    simp [DataService.selectProjectDirectory, h]
  · intro h
    simp [DataService.selectProjectDirectoryCatch, h]
  · intro h
    simp [DataService.selectProjectDirectoryCatch, h]
  · simp only [DataService.step]
    split_ifs <;> rfl
  · simp only [DataService.step]
    split_ifs <;> rfl

/-- Witness of C20, amended: scenario A of the specification on a fresh service,
and the two immediate rejections. -/
theorem select_directory_outcomes_witness :
    truthy DataService.new.selectedProduct = false ∧
      truthy readyAlpha.selectedProduct = true ∧
      DataService.selectProjectDirectory DataService.new none =
        (DataService.new, some ⟨"DatabaseError", CONST.ERROR_DB_PROJECT_SELECT_INVALID⟩) ∧
      DataService.selectProjectDirectory readyAlpha (some "/proj") =
        (readyAlpha, some ⟨"DatabaseError", CONST.ERROR_DB_PROJECT_SELECT_ACTIVE⟩) ∧
      DataService.selectProjectDirectoryCatch ⟨some "ENOENT", "no such directory"⟩ =
        SelectRejection.database ⟨"DatabaseError", CONST.ERROR_DB_PROJECT_SELECT_INVALID⟩ ∧
      (DataService.selectProjectDirectoryThen DataService.new "/proj"
        (IOService.getProducts projListing)).projectDirectory = some "/proj" :=
  have h := select_directory_outcomes DataService.new "/proj" projListing
    ⟨some "ENOENT", "no such directory"⟩
  have h2 := select_directory_outcomes readyAlpha "/proj" projListing
    ⟨some "ENOENT", "no such directory"⟩
  ⟨by decide, by decide, h.2.1 (by decide), h2.1 (by decide) (some "/proj"),
    h.2.2.2.1 rfl, h.2.2.2.2.2.2.2.1⟩

/-! ## The end of the data process (C24) -/

/-- C24 as stated fails on three inputs. A close with exit code 0 and no signal
is treated as fatal (log, error box, quit), and so is a close with `null` for
both code and signal; a close with code `null` and the signal `SIGTERM` is the
clean case: nothing is shown and the process handle is cleared. -/
theorem close_with_code_zero_is_fatal :
    Database._handleDatabaseProcessClose coordinatorConnected (ExitCode.number 0)
        ExitSignal.null =
      (coordinatorConnected,
        [AppEffect.logError (ExitCode.number 0) ExitSignal.null,
         AppEffect.showErrorBox "Database Failure" (ExitCode.number 0) ExitSignal.null,
         AppEffect.quit]) ∧
    Database._handleDatabaseProcessClose coordinatorConnected ExitCode.null ExitSignal.null =
      (coordinatorConnected,
        [AppEffect.logError ExitCode.null ExitSignal.null,
         AppEffect.showErrorBox "Database Failure" ExitCode.null ExitSignal.null,
         AppEffect.quit]) ∧
    Database._handleDatabaseProcessClose coordinatorConnected ExitCode.null
        (ExitSignal.name "SIGTERM") =
      ({ coordinatorConnected with databaseProcess := none }, []) := by
  decide

/-- C24, amended. `_handleDatabaseProcessClose(code, signal)` is a clean shutdown
(nothing logged or shown, no quit, process handle cleared) exactly when `code`
is `null` and `signal` is `undefined` or truthy; for every other pair, among
them every numeric code and the pair of two `null`s, it logs the failure,
shows the error box and quits, and keeps the process handle. -/
theorem close_is_clean_iff_signalled (s : Database) (code : ExitCode) (signal : ExitSignal) :
    ((code = ExitCode.null ∧ (signal = ExitSignal.undefined ∨ signal.truthy = true)) →
      Database._handleDatabaseProcessClose s code signal =
        ({ s with databaseProcess := none }, [])) ∧
    (¬ (code = ExitCode.null ∧ (signal = ExitSignal.undefined ∨ signal.truthy = true)) →
      Database._handleDatabaseProcessClose s code signal =
        (s, [AppEffect.logError code signal,
             AppEffect.showErrorBox "Database Failure" code signal,
             AppEffect.quit])) := by
  unfold Database._handleDatabaseProcessClose
  constructor
  · rintro ⟨rfl, h | h⟩
    · subst h
      simp [ExitSignal.truthy]
    · simp [h]
  · intro h
    have hc : (code != ExitCode.null || (!signal.truthy && signal != ExitSignal.undefined)) = true := by
      by_cases hcode : code = ExitCode.null
      · have h2 : ¬ (signal = ExitSignal.undefined ∨ signal.truthy = true) :=
          fun h3 => h ⟨hcode, h3⟩
        push_neg at h2
        simp [hcode, h2.1, h2.2]
      · simp [hcode]
    rw [if_pos hc]

/-- Witness of C24, amended: the data process killed with `SIGTERM` is the clean
case, and exit code 0 is a fatal one. -/
theorem close_is_clean_iff_signalled_witness :
    Database._handleDatabaseProcessClose coordinatorConnected ExitCode.null
        (ExitSignal.name "SIGTERM") =
      ({ coordinatorConnected with databaseProcess := none }, []) ∧
    Database._handleDatabaseProcessClose coordinatorConnected (ExitCode.number 0)
        ExitSignal.null =
      (coordinatorConnected,
        [AppEffect.logError (ExitCode.number 0) ExitSignal.null,
         AppEffect.showErrorBox "Database Failure" (ExitCode.number 0) ExitSignal.null,
         AppEffect.quit]) :=
  ⟨(close_is_clean_iff_signalled coordinatorConnected ExitCode.null
      (ExitSignal.name "SIGTERM")).1 ⟨rfl, Or.inr (by decide)⟩,
   (close_is_clean_iff_signalled coordinatorConnected (ExitCode.number 0)
      ExitSignal.null).2 (by decide)⟩

/-! ## The selection and the modification flag in the data process (C27, C30) -/

theorem resolve_selection (s : DataService) :
    (DataService._availabilityPromiseResolve s).1.projectDirectory = s.projectDirectory ∧
      (DataService._availabilityPromiseResolve s).1.availableProducts = s.availableProducts ∧
      (DataService._availabilityPromiseResolve s).1.selectedProduct = s.selectedProduct ∧
      (DataService._availabilityPromiseResolve s).1.isModified = s.isModified := by
  unfold DataService._availabilityPromiseResolve DataService.settle
  split
  · simp
  · split_ifs <;> simp

theorem selectProduct_selection (s : DataService) (product : Option String)
    (h : (s.projectDirectory = none → s.availableProducts = [] ∧ s.selectedProduct = none) ∧
      s.isModified = false) :
    ((DataService.selectProduct s product).1.projectDirectory = none →
        (DataService.selectProduct s product).1.availableProducts = [] ∧
          (DataService.selectProduct s product).1.selectedProduct = none) ∧
      (DataService.selectProduct s product).1.isModified = false := by
  unfold DataService.selectProduct
  split_ifs
  · exact h
  · cases product with
    | none => exact h
    | some p =>
      simp only []
      split_ifs with hp
      · refine ⟨fun hd => ?_, h.2⟩
        have hnil := (h.1 hd).1
        simp only [] at hnil
        rw [hnil] at hp
        exact absurd hp (List.not_mem_nil p)
      · exact h

theorem load_selection (s : DataService) (product : Option String) (force : Bool)
    (h : (s.projectDirectory = none → s.availableProducts = [] ∧ s.selectedProduct = none) ∧
      s.isModified = false) :
    ((DataService.loadDatabase s product force).1.projectDirectory = none →
        (DataService.loadDatabase s product force).1.availableProducts = [] ∧
          (DataService.loadDatabase s product force).1.selectedProduct = none) ∧
      (DataService.loadDatabase s product force).1.isModified = false := by
  have hsel := selectProduct_selection s product h
  unfold DataService.loadDatabase
  dsimp only
  split_ifs
  · exact h
  · exact h
  · exact h
  · exact hsel
  · simpa [DataService.sendStatusAlert, DataService._sendStatus, DataService.sendAlert,
      DataService.log, generate_flags] using hsel

theorem save_selection (s : DataService)
    (h : (s.projectDirectory = none → s.availableProducts = [] ∧ s.selectedProduct = none) ∧
      s.isModified = false) :
    ((DataService.saveDatabase s).1.projectDirectory = none →
        (DataService.saveDatabase s).1.availableProducts = [] ∧
          (DataService.saveDatabase s).1.selectedProduct = none) ∧
      (DataService.saveDatabase s).1.isModified = false := by
  unfold DataService.saveDatabase
  split_ifs <;> try exact h
  cases hdb : s.db <;>
    simpa [DataService.sendStatusAlert, DataService._sendStatus, DataService.sendAlert,
      DataService.log, LokiAdapter.exportDatabase, generate_flags, hdb, h.2] using h

theorem step_selection (s : DataService) (e : DataEvent)
    (h : (s.projectDirectory = none → s.availableProducts = [] ∧ s.selectedProduct = none) ∧
      s.isModified = false) :
    ((DataService.step s e).projectDirectory = none →
        (DataService.step s e).availableProducts = [] ∧
          (DataService.step s e).selectedProduct = none) ∧
      (DataService.step s e).isModified = false := by
  cases e with
  | selectProjectDirectory dir =>
    simp only [DataService.step, DataService.selectProjectDirectory]
    split_ifs
    · exact h
    · cases dir <;> simpa using h
  | getProductsResolved dir products =>
    simp only [DataService.step]
    split_ifs
    · simpa [DataService.selectProjectDirectoryThen, DataService._sendStatus,
        DataService.sendAlert] using h.2
    · exact h
  | getProductsRejected dir =>
    simp only [DataService.step]
    split_ifs
    · simpa using h
    · exact h
  | loadDatabase product force => exact load_selection s product force h
  | loadCallback dbBackup err =>
    simp only [DataService.step]
    split_ifs
    · cases err with
      | none =>
        simpa [DataService.loadDatabaseCallback, DataService.sendStatusAlert,
          DataService.sendAlert] using h.1
      | some e =>
        simpa [DataService.loadDatabaseCallback] using h
    · exact h
  | saveDatabase => exact save_selection s h
  | saveCallback err =>
    simp only [DataService.step]
    split_ifs
    · cases err with
      | none =>
        simpa [DataService.saveDatabaseCallback, DataService.sendStatusAlert,
          DataService.sendAlert] using h.1
      | some e =>
        simpa [DataService.saveDatabaseCallback] using h
    · exact h
  | continuation =>
    simp only [DataService.step]
    cases hp : s.pendingThens with
    | nil => exact h
    | cons k rest =>
      cases k <;>
        simpa [DataService.loadDatabaseThen, DataService.saveDatabaseThen, resolve_selection,
          DataService._sendStatus, DataService.sendAlert, DataService.log] using h
  | unloadDatabase =>
    simp only [DataService.step, DataService.unloadDatabase, DataService._sendStatus,
      DataService.sendAlert, DataService._initialize]
    simpa using fun hd => (h.1 hd).1
  | nextTick =>
    simp only [DataService.step]
    split_ifs
    · simpa [generate_flags] using h
    · exact h
  | exportTimeout =>
    simp only [DataService.step]
    split_ifs
    · simpa [LokiAdapter.exportDatabaseTimeout, DataService.sendStatusAlert,
        DataService.sendAlert] using h
    · exact h

theorem setDb_service (p : DataProcess) (content : Option Store) :
    (DataProcess.setDb p content).service = p.service := by
  unfold DataProcess.setDb
  split <;> rfl

theorem process_step_selection (loki : Loki) (p : DataProcess) (op : DataOp)
    (h : (p.service.projectDirectory = none →
        p.service.availableProducts = [] ∧ p.service.selectedProduct = none) ∧
      p.service.isModified = false) :
    ((DataProcess.step loki p op).service.projectDirectory = none →
        (DataProcess.step loki p op).service.availableProducts = [] ∧
          (DataProcess.step loki p op).service.selectedProduct = none) ∧
      (DataProcess.step loki p op).service.isModified = false := by
  cases op with
  | event e => exact step_selection p.service e h
  | selectProduct product => exact selectProduct_selection p.service product h
  | content op =>
    simp only [DataProcess.step, setDb_service]
    exact h
  | adapter content =>
    simp only [DataProcess.step, setDb_service]
    exact h

theorem process_run_selection (loki : Loki) (ops : List DataOp) :
    ∀ p : DataProcess,
      ((p.service.projectDirectory = none →
          p.service.availableProducts = [] ∧ p.service.selectedProduct = none) ∧
        p.service.isModified = false) →
      (((DataProcess.run loki p ops).service.projectDirectory = none →
          (DataProcess.run loki p ops).service.availableProducts = [] ∧
            (DataProcess.run loki p ops).service.selectedProduct = none) ∧
        (DataProcess.run loki p ops).service.isModified = false) := by
  induction ops with
  | nil => intro p h; exact h
  | cons op ops ih =>
    intro p h
    exact ih (DataProcess.step loki p op) (process_step_selection loki p op h)

theorem process_new_selection :
    (DataProcess.new.service.projectDirectory = none →
        DataProcess.new.service.availableProducts = [] ∧
          DataProcess.new.service.selectedProduct = none) ∧
      DataProcess.new.service.isModified = false := by
  decide

/-- C27. In every state the data process reaches from its start by events of the
data service (among them `selectProjectDirectory`, `loadDatabase`,
`saveDatabase`, `unloadDatabase` and their callbacks), calls of `selectProduct`
and calls of the content service, a selected product implies a selected
project directory. -/
theorem selected_product_needs_directory (loki : Loki) (ops : List DataOp)
    (h : (DataProcess.run loki DataProcess.new ops).service.selectedProduct ≠ none) :
    (DataProcess.run loki DataProcess.new ops).service.projectDirectory ≠ none := by
  intro hd
  exact h ((process_run_selection loki ops DataProcess.new process_new_selection).1 hd).2

/-- Witness of C27: after `/proj` was selected and `alpha` loaded, a product is
selected, and the project directory is set. -/
theorem selected_product_needs_directory_witness :
    (DataProcess.run lokiPlain DataProcess.new contentSession).service.selectedProduct
        = some "alpha" ∧
      (DataProcess.run lokiPlain DataProcess.new contentSession).service.projectDirectory
        ≠ none :=
  ⟨by decide, selected_product_needs_directory lokiPlain contentSession (by decide)⟩

/-- C30. `isModified` is false in every state the data process reaches from its
start by events of the data service, calls of `selectProduct` and calls of the
content service, so no call of `loadDatabase` in such a state is rejected with
the `LoadDatabaseError` for unsaved modifications, whatever `force` is. This
holds although content calls change the store: after the insert of
`contentSession` the example collection holds a seventh document. -/
theorem store_is_never_marked_modified (loki : Loki) (ops : List DataOp)
    (product : Option String) (force : Bool) :
    (DataProcess.run loki DataProcess.new ops).service.isModified = false ∧
      (DataService.loadDatabase (DataProcess.run loki DataProcess.new ops).service
          product force).2 ≠
        CallResult.rejected ⟨"LoadDatabaseError", CONST.ERROR_DB_LOAD_MODIFIED⟩ ∧
      (DataProcess.run lokiPlain DataProcess.new contentSession).db =
        some [("product.example",
          [⟨1, "Jane"⟩, ⟨2, "Steve"⟩, ⟨3, "Alex"⟩, ⟨4, "Susie"⟩, ⟨5, "Charles"⟩,
           ⟨6, "Brit"⟩, ⟨7, "Kim"⟩])] := by
  have hm := (process_run_selection loki ops DataProcess.new process_new_selection).2
  refine ⟨hm, ?_, by decide⟩
  unfold DataService.loadDatabase
  dsimp only
  rw [hm]
  split_ifs <;> simp_all [CONST.ERROR_DB_LOAD_MODIFIED, CONST.ERROR_DB_LOAD_PRODUCT_INVALID]

/-! ## Messages of the data process (C25, C26, C28) -/

/-- C25. An alert of `DataIPCService.sendAlert` has status `null` when
`omitStatus` is truthy and the snapshot of `DataService.getStatus()` otherwise,
and its `error` is the boolean value of `isError`; the alerts the data service
emits are of this form; `sendStatusAlert` sends a status-text alert with status
`null`, `error` false and the message as payload. -/
theorem alert_status_follows_omitStatus (errio : Errio) (s : DataService) (type : String)
    (payload : JsPayload) (isError omitStatus : Option Bool) (message : String)
    (text : Option String) (e o : Bool) :
    (DataIPCService.sendAlert errio s type payload isError omitStatus).cmd
        = CONST.IPC_CMD_ALERT ∧
      (DataIPCService.sendAlert errio s type payload isError omitStatus).type = some type ∧
      (jsTruthy omitStatus = true →
        (DataIPCService.sendAlert errio s type payload isError omitStatus).status = none) ∧
      (jsTruthy omitStatus = false →
        (DataIPCService.sendAlert errio s type payload isError omitStatus).status
          = some (DataService.getStatus s)) ∧
      (DataIPCService.sendAlert errio s type payload isError omitStatus).error
        = jsTruthy isError ∧
      (DataService.sendAlert s type text e o).outbox = s.outbox ++
        [Output.alert ⟨type,
          (DataIPCService.sendAlert errio s type payload (some e) (some o)).error,
          (DataIPCService.sendAlert errio s type payload (some e) (some o)).status,
          text⟩] ∧
      DataIPCService.sendStatusAlert errio s message =
        ⟨CONST.IPC_CMD_ALERT, none, some CONST.IPC_ALERT_DB_STATUS_TEXT, false, none,
          JsPayload.object ⟨none, some message, ""⟩⟩ := by
  refine ⟨rfl, rfl, ?_, ?_, rfl, ?_, ?_⟩
  · intro h
    simp [DataIPCService.sendAlert, h]
  · intro h
    simp [DataIPCService.sendAlert, h]
  · simp [DataService.sendAlert, DataIPCService.sendAlert, jsTruthy]
  · simp [DataIPCService.sendStatusAlert, DataIPCService.sendAlert, jsTruthy]

/-- Witness of C25: in the state with `alpha` loaded, an alert sent without
`omitStatus` carries the snapshot of that state, and one sent with
`omitStatus` set carries none. -/
theorem alert_status_follows_omitStatus_witness :
    (DataIPCService.sendAlert errioPlain readyAlpha "alert-db-status" JsPayload.undefined
        none none).status =
      some ⟨some "/proj", ["alpha", "beta"], some "alpha", false, false⟩ ∧
    (DataIPCService.sendAlert errioPlain readyAlpha "alert-db-status" JsPayload.undefined
        none (some true)).status = none :=
  ⟨((alert_status_follows_omitStatus errioPlain readyAlpha "alert-db-status"
      JsPayload.undefined none none "" none false false).2.2.2.1 (by decide)).trans (by decide),
   (alert_status_follows_omitStatus errioPlain readyAlpha "alert-db-status"
      JsPayload.undefined none (some true) "" none false false).2.2.1 (by decide)⟩

/-- C26. For a response or an alert of the data process whose payload has a
non-empty serialized text, the coordinator parses the payload exactly when the
sender serialized it, that is when `isError` is truthy and the payload is
present: the test of `_handleMessage` on the message equals the test of the
sender on its arguments, and the message is handed on with the parsed text of
the payload in that case and with the payload as it was otherwise. If parsing
the text of an error gives an object with the name and the message of the
error, the rejection of a request with this error and an error alert with it
are handed on in the coordinator with a payload of that name and message. -/
theorem error_payloads_cross_symmetrically (errio : Errio) (s : DataService) (r : Int)
    (type : String) (payload : JsPayload) (isError omitStatus : Option Bool)
    (e : JsError) (body : String)
    (hne : errio.stringify payload ≠ "")
    (hne2 : errio.stringify (JsPayload.ofError e) ≠ "")
    (hinv : errio.parse (JsPayload.text (errio.stringify (JsPayload.ofError e))) =
      JsPayload.object ⟨some e.name, some e.message, body⟩) :
    (((DataIPCService._sendResponse errio s r payload isError omitStatus).error &&
        (DataIPCService._sendResponse errio s r payload isError omitStatus).payload.truthy) =
      (jsTruthy isError && payload.truthy)) ∧
    (((DataIPCService.sendAlert errio s type payload isError omitStatus).error &&
        (DataIPCService.sendAlert errio s type payload isError omitStatus).payload.truthy) =
      (jsTruthy isError && payload.truthy)) ∧
    Database._handleMessage errio
        (some (DataIPCService._sendResponse errio s r payload isError omitStatus)) =
      Dispatch.response
        { DataIPCService._sendResponse errio s r payload isError omitStatus with
          payload :=
            if jsTruthy isError && payload.truthy then
              errio.parse (JsPayload.text (errio.stringify payload))
            else payload } ∧
    Database._handleMessage errio
        (some (DataIPCService.sendAlert errio s type payload isError omitStatus)) =
      Dispatch.alert
        { DataIPCService.sendAlert errio s type payload isError omitStatus with
          payload :=
            if jsTruthy isError && payload.truthy then
              errio.parse (JsPayload.text (errio.stringify payload))
            else payload } ∧
    Database._handleMessage errio
        (some (DataIPCService.respond errio s r (Except.error (JsPayload.ofError e)))) =
      Dispatch.response
        ⟨CONST.IPC_CMD_RESPONSE, some r, none, true, some (DataService.getStatus s),
          JsPayload.object ⟨some e.name, some e.message, body⟩⟩ ∧
    Database._handleMessage errio
        (some (DataIPCService.sendAlert errio s type (JsPayload.ofError e) (some true)
          omitStatus)) =
      Dispatch.alert
        ⟨CONST.IPC_CMD_ALERT, none, some type, true,
          if jsTruthy omitStatus then none else some (DataService.getStatus s),
          JsPayload.object ⟨some e.name, some e.message, body⟩⟩ := by
  have ht : (JsPayload.text (errio.stringify payload)).truthy = true := by
    simpa [JsPayload.truthy] using hne
  have ht2 : (JsPayload.text (errio.stringify (JsPayload.ofError e))).truthy = true := by
    simpa [JsPayload.truthy] using hne2
  have hobj : (JsPayload.ofError e).truthy = true := rfl
  refine ⟨?_, ?_, ?_, ?_, ?_, ?_⟩
  · cases hc : (jsTruthy isError && payload.truthy)
    · have hc2 := hc
      simp only [Bool.and_eq_false_iff] at hc2
      rcases hc2 with h1 | h1 <;> simp [DataIPCService._sendResponse, hc, h1]
    · have hc2 := hc
      simp only [Bool.and_eq_true] at hc2
      simp [DataIPCService._sendResponse, hc, hc2.1, hc2.2, ht]
  · cases hc : (jsTruthy isError && payload.truthy)
    · have hc2 := hc
      simp only [Bool.and_eq_false_iff] at hc2
      rcases hc2 with h1 | h1 <;> simp [DataIPCService.sendAlert, hc, h1]
    · have hc2 := hc
      simp only [Bool.and_eq_true] at hc2
      simp [DataIPCService.sendAlert, hc, hc2.1, hc2.2, ht]
  · cases hc : (jsTruthy isError && payload.truthy)
    · have hc2 := hc
      simp only [Bool.and_eq_false_iff] at hc2
      rcases hc2 with h1 | h1 <;>
        simp [Database._handleMessage, DataIPCService._sendResponse, hc, h1,
          CONST.IPC_CMD_RESPONSE]
    · have hc2 := hc
      simp only [Bool.and_eq_true] at hc2
      simp [Database._handleMessage, DataIPCService._sendResponse, hc, hc2.1, hc2.2, ht,
        CONST.IPC_CMD_RESPONSE]
  · cases hc : (jsTruthy isError && payload.truthy)
    · have hc2 := hc
      simp only [Bool.and_eq_false_iff] at hc2
      rcases hc2 with h1 | h1 <;>
        simp [Database._handleMessage, DataIPCService.sendAlert, hc, h1,
          CONST.IPC_CMD_RESPONSE, CONST.IPC_CMD_ALERT]
    · have hc2 := hc
      simp only [Bool.and_eq_true] at hc2
      simp [Database._handleMessage, DataIPCService.sendAlert, hc, hc2.1, hc2.2, ht,
        CONST.IPC_CMD_RESPONSE, CONST.IPC_CMD_ALERT]
  · simp [Database._handleMessage, DataIPCService.respond, DataIPCService._sendResponse,
      jsTruthy, hobj, ht2, hinv, CONST.IPC_CMD_RESPONSE]
  · simp [Database._handleMessage, DataIPCService.sendAlert, jsTruthy, hobj, ht2, hinv,
      CONST.IPC_CMD_RESPONSE, CONST.IPC_CMD_ALERT]

/-- Witness of C26: with `alpha` loaded, the rejection of request 1 with the
error `disk` reaches `_handleRequestResponse` of the coordinator with a payload
named `Error` whose message is `disk`. -/
theorem error_payloads_cross_symmetrically_witness :
    Database._handleMessage errioPlain
        (some (DataIPCService.respond errioPlain readyAlpha 1
          (Except.error (JsPayload.ofError ⟨"Error", "disk"⟩)))) =
      Dispatch.response
        ⟨CONST.IPC_CMD_RESPONSE, some 1, none, true, some (DataService.getStatus readyAlpha),
          JsPayload.object ⟨some "Error", some "disk", ""⟩⟩ :=
  (error_payloads_cross_symmetrically errioPlain readyAlpha 1 "alert-db-status"
    (JsPayload.ofError ⟨"Error", "disk"⟩) (some true) none ⟨"Error", "disk"⟩ ""
    (by decide) (by decide) rfl).2.2.2.2.1

/-- C28 fails for the content requests. The `switch` of `_handleRequest` sets
`omitStatus` to `true` in each of the six content branches, but neither
handler of the promise passes it to `_sendResponse`: the response to a content
request (here with request id 5, in any state and for any outcome) carries
the status snapshot, just as the response to a database-state request does. -/
theorem content_response_carries_status (errio : Errio) (s : DataService)
    (outcome : Except JsPayload JsPayload) :
    DataIPCService.contentTypes.map (fun t => DataIPCService.omitStatus (some t)) =
      List.replicate 6 (some (some true)) ∧
    DataIPCService.contentTypes.map
        (fun t => (DataIPCService._handleRequest errio s (some 5) (some t) outcome).map
          (fun m => m.status)) =
      List.replicate 6 (some (some (DataService.getStatus s))) ∧
    DataIPCService.stateTypes.map
        (fun t => (DataIPCService._handleRequest errio s (some 5) (some t) outcome).map
          (fun m => m.status)) =
      List.replicate 5 (some (some (DataService.getStatus s))) ∧
    (DataIPCService._handleRequest errioPlain readyAlpha (some 5) (some "content-query")
        (Except.ok JsPayload.undefined)) =
      some ⟨CONST.IPC_CMD_RESPONSE, some 5, none, false,
        some ⟨some "/proj", ["alpha", "beta"], some "alpha", false, false⟩,
        JsPayload.undefined⟩ := by
  refine ⟨by decide, ?_, ?_, by decide⟩
  · cases outcome <;>
      simp [DataIPCService.contentTypes, DataIPCService.stateTypes,
        DataIPCService._handleRequest, DataIPCService.omitStatus, DataIPCService.respond,
        DataIPCService._sendResponse, jsTruthy, List.replicate]
  · cases outcome <;>
      simp [DataIPCService.contentTypes, DataIPCService.stateTypes,
        DataIPCService._handleRequest, DataIPCService.omitStatus, DataIPCService.respond,
        DataIPCService._sendResponse, jsTruthy, List.replicate]

/-! ## The coordinator's answer to the renderer (C29) -/

/-- C29. For a renderer request with a truthy request id `r` and a type that is
forwarded to the data process, the response the coordinator's `IPCService`
hands to the renderer carries `r`: whatever becomes of the message (sent,
or waiting for the renderer to load) has `requestId` `r`, for every state of
the `Database` channel, which assigns its own id to the forwarded message, and
for every value the promise settles with, among them a response echoing
another id and the immediate rejection; and with the renderer loaded the
response is sent. -/
theorem renderer_response_keeps_request_id (ipc : MainIPCService) (db : Database)
    (m : RequestData) (r : Int) (outcome : Outcome)
    (hm : m.requestId = some r) (hr : r ≠ 0)
    (ht : m.type ∈ MainIPCService.databaseTypes) :
    (∀ data,
      ((MainIPCService._handleRequest ipc db (some m) (some outcome)).2.2
          = some (SendOutcome.sent data) ∨
        (MainIPCService._handleRequest ipc db (some m) (some outcome)).2.2
          = some (SendOutcome.waiting data)) →
      data.requestId = some r) ∧
    (ipc.rendererLoadPromise = some (some true) → ipc.webContents = true →
      ∃ data,
        (MainIPCService._handleRequest ipc db (some m) (some outcome)).2.2
          = some (SendOutcome.sent data) ∧ data.requestId = some r) ∧
    (MainIPCService._handleRequest ipc db (some m) (some outcome)).1
      = (Database.sendRequest db m).1 ∧
    (MainIPCService._handleRequest ipc db (some m) (some outcome)).2.1
      = (Database.sendRequest db m).2.2 := by
  have happ : m.type ∉ MainIPCService.appTypes := by
    intro h
    simp only [MainIPCService.databaseTypes, List.mem_cons, List.mem_singleton,
      List.not_mem_nil, or_false] at ht
    rcases ht with h1 | h1 | h1 | h1 | h1 | h1 | h1 | h1 | h1 | h1 | h1 <;>
      rw [h1] at h <;> revert h <;> decide
  have hres : ∀ d : Option ResponseData,
      (∀ data, (MainIPCService._sendResponse ipc r d = SendOutcome.sent data ∨
          MainIPCService._sendResponse ipc r d = SendOutcome.waiting data) →
        data.requestId = some r) ∧
      (ipc.rendererLoadPromise = some (some true) → ipc.webContents = true →
        ∃ data, MainIPCService._sendResponse ipc r d = SendOutcome.sent data ∧
          data.requestId = some r) := by
    intro d
    unfold MainIPCService._sendResponse
    constructor
    · intro data h
      cases hl : ipc.rendererLoadPromise with
      | none => simp [hl] at h
      | some loaded =>
        cases loaded with
        | none =>
          simp [hl] at h
          rw [← h]
        | some b =>
          cases b with
          | false => simp [hl] at h
          | true =>
            cases hw : ipc.webContents with
            | false => simp [hl, hw] at h
            | true =>
              simp [hl, hw] at h
              rw [← h]
    · intro hl hw
      simp [hl, hw]
  unfold MainIPCService._handleRequest
  simp only [hm, hr, happ, ht, if_false, if_true]
  cases hs : (Database.sendRequest db m).2.1 with
  | rejected err =>
    simp only [Option.some.injEq]
    exact ⟨(hres _).1, (hres _).2, trivial, trivial⟩
  | pending future =>
    simp only [Option.map, Option.some.injEq]
    exact ⟨(hres _).1, (hres _).2, trivial, trivial⟩

/-- Witness of C29: the renderer asks for the status with request id 5, the
coordinator forwards the message under its own id 1, the data process answers
with id 1, and the renderer is sent a response with id 5. -/
theorem renderer_response_keeps_request_id_witness :
    sentIds (MainIPCService._handleRequest mainReady coordinatorConnected (some statusRequest)
        (some (Outcome.value (Value.message ⟨some 1, none, false, none, Payload.empty⟩)))).2.1
      = [1] ∧
    (MainIPCService._handleRequest mainReady coordinatorConnected (some statusRequest)
        (some (Outcome.value (Value.message ⟨some 1, none, false, none, Payload.empty⟩)))).2.2
      = some (SendOutcome.sent ⟨some 5, none, none, false, none, some Payload.empty⟩) ∧
    ∃ data,
      (MainIPCService._handleRequest mainReady coordinatorConnected (some statusRequest)
          (some (Outcome.value (Value.message ⟨some 1, none, false, none, Payload.empty⟩)))).2.2
        = some (SendOutcome.sent data) ∧ data.requestId = some 5 :=
  ⟨by decide, by decide,
   (renderer_response_keeps_request_id mainReady coordinatorConnected statusRequest 5
      (Outcome.value (Value.message ⟨some 1, none, false, none, Payload.empty⟩))
      rfl (by decide) (by decide)).2.1 rfl rfl⟩

/-! ## The content service (C21, C22, C23) -/

theorem databaseError_nonexistent :
    ContentService.databaseError ["QUERY", "COLLECTION", "NONEXISTENT"] =
        ⟨"DatabaseError", "Attempted to query document(s) from a non-existent collection."⟩ ∧
      ContentService.databaseError ["RESULT_SET", "COLLECTION", "NONEXISTENT"] =
        ⟨"DatabaseError",
          "Attempted to perform result set actions for a non-existent collection."⟩ ∧
      ContentService.databaseError ["INSERT", "COLLECTION", "NONEXISTENT"] =
        ⟨"DatabaseError", "Attempted to insert document(s) into a non-existent collection."⟩ ∧
      ContentService.databaseError ["UPDATE", "COLLECTION", "NONEXISTENT"] =
        ⟨"DatabaseError", "Attempted to update document(s) in a non-existent collection."⟩ ∧
      ContentService.databaseError ["REMOVE", "COLLECTION", "NONEXISTENT"] =
        ⟨"DatabaseError", "Attempted to remove document(s) from a non-existent collection."⟩ := by
  decide

theorem db_setDb (p : DataProcess) (store : Store) (h : p.db ≠ none) :
    (DataProcess.setDb p (some store)).db = some store := by
  unfold DataProcess.db at h
  cases hdb : p.service.db with
  | none => simp [hdb] at h
  | some handle =>
    simp [DataProcess.db, DataProcess.setDb, hdb, List.lookup]

/-- C21. With a store in place, well-formed arguments and a collection name the
store does not have, each of `query`, `runResultSetActions`, `insert`, `update`
and `remove` throws its `DatabaseError` for a non-existent collection and
leaves the store as it was; as a step of the data process such a call leaves
the data service, and with it the list of alerts sent, and the content of the
store unchanged. -/
theorem missing_collection_fails_untouched (loki : Loki) (p : DataProcess) (store : Store)
    (name : String) (type : Option String) (options : QueryOptions) (actions : List Action)
    (data : List Doc) (filter : String)
    (hdb : p.db = some store) (hmiss : store.lookup name = none) :
    ContentService.query loki p.db (some name) type (some options) =
      (p.db, Except.error ⟨"DatabaseError",
        "Attempted to query document(s) from a non-existent collection."⟩) ∧
    ContentService.runResultSetActions loki p.db (some name) (some actions) =
      (p.db, Except.error ⟨"DatabaseError",
        "Attempted to perform result set actions for a non-existent collection."⟩) ∧
    ContentService.insert loki p.db (some name) (some data) =
      (p.db, Except.error ⟨"DatabaseError",
        "Attempted to insert document(s) into a non-existent collection."⟩) ∧
    ContentService.update loki p.db (some name) (some data) =
      (p.db, Except.error ⟨"DatabaseError",
        "Attempted to update document(s) in a non-existent collection."⟩) ∧
    ContentService.remove loki p.db (some name) (some filter) =
      (p.db, Except.error ⟨"DatabaseError",
        "Attempted to remove document(s) from a non-existent collection."⟩) ∧
    (∀ op ∈ [ContentOp.query (some name) type (some options),
              ContentOp.runResultSetActions (some name) (some actions),
              ContentOp.insert (some name) (some data),
              ContentOp.update (some name) (some data),
              ContentOp.remove (some name) (some filter)],
      (DataProcess.step loki p (DataOp.content op)).service = p.service ∧
        (DataProcess.step loki p (DataOp.content op)).service.outbox = p.service.outbox ∧
        (DataProcess.step loki p (DataOp.content op)).db = p.db) := by
  have hq : ContentService.query loki p.db (some name) type (some options) =
      (p.db, Except.error ⟨"DatabaseError",
        "Attempted to query document(s) from a non-existent collection."⟩) := by
    rw [hdb]
    simp only [ContentService.query, DataService.getCollection, hmiss]
    rw [databaseError_nonexistent.1]
  have hr : ContentService.runResultSetActions loki p.db (some name) (some actions) =
      (p.db, Except.error ⟨"DatabaseError",
        "Attempted to perform result set actions for a non-existent collection."⟩) := by
    rw [hdb]
    simp only [ContentService.runResultSetActions, DataService.getCollection, hmiss]
    rw [databaseError_nonexistent.2.1]
  have hi : ContentService.insert loki p.db (some name) (some data) =
      (p.db, Except.error ⟨"DatabaseError",
        "Attempted to insert document(s) into a non-existent collection."⟩) := by
    rw [hdb]
    simp only [ContentService.insert, DataService.getCollection, hmiss]
    rw [databaseError_nonexistent.2.2.1]
  have hu : ContentService.update loki p.db (some name) (some data) =
      (p.db, Except.error ⟨"DatabaseError",
        "Attempted to update document(s) in a non-existent collection."⟩) := by
    rw [hdb]
    simp only [ContentService.update, DataService.getCollection, hmiss]
    rw [databaseError_nonexistent.2.2.2.1]
  have hrm : ContentService.remove loki p.db (some name) (some filter) =
      (p.db, Except.error ⟨"DatabaseError",
        "Attempted to remove document(s) from a non-existent collection."⟩) := by
    rw [hdb]
    simp only [ContentService.remove, DataService.getCollection, hmiss]
    rw [databaseError_nonexistent.2.2.2.2]
  have hne : p.db ≠ none := by rw [hdb]; exact Option.some_ne_none store
  have hkeep : (DataProcess.setDb p p.db).db = p.db := by
    rw [hdb]
    exact db_setDb p store hne
  refine ⟨hq, hr, hi, hu, hrm, ?_⟩
  intro op hop
  simp only [List.mem_cons, List.mem_singleton, List.not_mem_nil, or_false] at hop
  rcases hop with h | h | h | h | h <;> subst h <;>
    simp only [DataProcess.step, ContentService.call, hq, hr, hi, hu, hrm, setDb_service,
      hkeep, and_self]

/-- Witness of C21: scenario D of the specification, an insert into the
collection `x.y`, which the loaded store does not have. -/
theorem missing_collection_fails_untouched_witness :
    ContentService.insert lokiPlain loadedProcess.db (some "x.y") (some [⟨8, "Lee"⟩]) =
      (loadedProcess.db, Except.error ⟨"DatabaseError",
        "Attempted to insert document(s) into a non-existent collection."⟩) :=
  (missing_collection_fails_untouched lokiPlain loadedProcess
    [("product.example",
      [⟨1, "Jane"⟩, ⟨2, "Steve"⟩, ⟨3, "Alex"⟩, ⟨4, "Susie"⟩, ⟨5, "Charles"⟩, ⟨6, "Brit"⟩,
       ⟨7, "Kim"⟩])]
    "x.y" none ⟨none, none, none, ""⟩ [] [⟨8, "Lee"⟩] "all" (by decide) (by decide)).2.2.1

/-- C22 fails for every action that reaches the last two branches of the
`switch`. On the collection of the adapter, an action of type `where`, `sort`
or `update` does not throw the `DatabaseError` for an unsupported action type,
and an action of an unknown type or without a type does not throw the one for
an invalid action type: the code reads `CONST.ERROR.CONTENT.RESULT_SET.TYPE`,
which is `undefined` (the texts are under `RESULT_SET.ACTION.TYPE`), so that
evaluating the argument of the constructor throws a `TypeError`. The same
holds for the check of `args`, whose text is under `RESULT_SET.ACTION.ARGS`. -/
theorem unsupported_action_throws_type_error (loki : Loki) (args : List String) :
    (ContentService.runResultSetActions loki (some exampleStore) (some "product.example")
        (some [⟨some "sort", some args⟩])).2 =
      Except.error ⟨"TypeError", "Cannot read property UNSUPPORTED of undefined"⟩ ∧
    (ContentService.runResultSetActions loki (some exampleStore) (some "product.example")
        (some [⟨some "where", some args⟩])).2 =
      Except.error ⟨"TypeError", "Cannot read property UNSUPPORTED of undefined"⟩ ∧
    (ContentService.runResultSetActions loki (some exampleStore) (some "product.example")
        (some [⟨some "update", some args⟩])).2 =
      Except.error ⟨"TypeError", "Cannot read property UNSUPPORTED of undefined"⟩ ∧
    (ContentService.runResultSetActions loki (some exampleStore) (some "product.example")
        (some [⟨some "shuffle", some args⟩])).2 =
      Except.error ⟨"TypeError", "Cannot read property INVALID of undefined"⟩ ∧
    (ContentService.runResultSetActions loki (some exampleStore) (some "product.example")
        (some [⟨none, some args⟩])).2 =
      Except.error ⟨"TypeError", "Cannot read property INVALID of undefined"⟩ ∧
    (ContentService.runResultSetActions loki (some exampleStore) (some "product.example")
        (some [⟨some "find", none⟩])).2 =
      Except.error ⟨"TypeError", "Cannot read property INVALID of undefined"⟩ ∧
    ContentService.databaseError ["RESULT_SET", "ACTION", "TYPE", "UNSUPPORTED"] =
      ⟨"DatabaseError",
        "Attempted to perform result set actions with an action type that is not yet supported."⟩ ∧
    ContentService.databaseError ["RESULT_SET", "ACTION", "TYPE", "INVALID"] =
      ⟨"DatabaseError",
        "Attempted to perform result set actions with an invalid action type."⟩ := by
  have hu : ContentService.databaseError ["RESULT_SET", "TYPE", "UNSUPPORTED"] =
      ⟨"TypeError", "Cannot read property UNSUPPORTED of undefined"⟩ := by decide
  have hi : ContentService.databaseError ["RESULT_SET", "TYPE", "INVALID"] =
      ⟨"TypeError", "Cannot read property INVALID of undefined"⟩ := by decide
  have ha : ContentService.databaseError ["RESULT_SET", "ARGS", "INVALID"] =
      ⟨"TypeError", "Cannot read property INVALID of undefined"⟩ := by decide
  refine ⟨?_, ?_, ?_, ?_, ?_, ?_, by decide, by decide⟩ <;>
    simp [ContentService.runResultSetActions, ContentService.runActions,
      DataService.getCollection, exampleStore, List.lookup, hu, hi, ha,
      CONST.DB_RESULT_SET_FIND, CONST.DB_RESULT_SET_WHERE, CONST.DB_RESULT_SET_SORT,
      CONST.DB_RESULT_SET_SIMPLE_SORT, CONST.DB_RESULT_SET_COMPOUND_SORT,
      CONST.DB_RESULT_SET_UPDATE, CONST.DB_RESULT_SET_REMOVE, CONST.DB_RESULT_SET_LIMIT,
      CONST.DB_RESULT_SET_OFFSET]

theorem runActions_applied (loki : Loki) (name : String) (db : Option Store)
    (rows : List Doc) (a : Action) (h : ContentService.applies a = true) :
    ∃ db2 rows2,
      (∀ rest, ContentService.runActions loki name db rows (a :: rest) =
        ContentService.runActions loki name db2 rows2 rest) ∧
      (a.type ≠ some CONST.DB_RESULT_SET_REMOVE → db2 = db) := by
  obtain ⟨type, args⟩ := a
  cases args with
  | none => simp [ContentService.applies] at h
  | some args =>
    simp only [ContentService.applies, Option.isSome_some, Bool.true_and,
      decide_eq_true_eq] at h
    by_cases hc : type = some CONST.DB_RESULT_SET_FIND
        ∨ type = some CONST.DB_RESULT_SET_SIMPLE_SORT
        ∨ type = some CONST.DB_RESULT_SET_COMPOUND_SORT
        ∨ type = some CONST.DB_RESULT_SET_LIMIT
        ∨ type = some CONST.DB_RESULT_SET_OFFSET
    · refine ⟨db, loki.chain (type.getD "") args rows, fun rest => ?_, fun _ => rfl⟩
      simp only [ContentService.runActions]
      rw [if_pos hc]
    · have hr : type = some CONST.DB_RESULT_SET_REMOVE := by
        rcases h with h | h | h | h | h | h
        · exact absurd (Or.inl h) hc
        · exact absurd (Or.inr (Or.inl h)) hc
        · exact absurd (Or.inr (Or.inr (Or.inl h))) hc
        · exact absurd (Or.inr (Or.inr (Or.inr (Or.inl h)))) hc
        · exact absurd (Or.inr (Or.inr (Or.inr (Or.inr h)))) hc
        · exact h
      refine ⟨Store.removeRows db name rows, [], fun rest => ?_, fun hn => absurd hr hn⟩
      simp only [ContentService.runActions]
      rw [if_neg hc, if_pos hr]

theorem runActions_refused (loki : Loki) (name : String) (db : Option Store)
    (rows : List Doc) (a : Action) (rest : List Action)
    (h : ContentService.applies a = false) :
    (ContentService.runActions loki name db rows (a :: rest)).1 = db ∧
      ∃ e, (ContentService.runActions loki name db rows (a :: rest)).2 = Except.error e := by
  obtain ⟨type, args⟩ := a
  cases args with
  | none => exact ⟨rfl, _, rfl⟩
  | some args =>
    simp only [ContentService.applies, Option.isSome_some, Bool.true_and,
      decide_eq_false_iff_not, not_or] at h
    simp only [ContentService.runActions]
    rw [if_neg (by tauto), if_neg h.2.2.2.2.2]
    split_ifs
    · exact ⟨rfl, _, rfl⟩
    · exact ⟨rfl, _, rfl⟩

theorem runActions_stops_at_refused (loki : Loki) (name : String) (bad : Action) (post : List Action)
    (hbad : ContentService.applies bad = false) (pre : List Action) :
    ∀ (db : Option Store) (rows : List Doc),
      (∀ a ∈ pre, ContentService.applies a = true) →
      (ContentService.runActions loki name db rows (pre ++ bad :: post)).1 =
          (ContentService.runActions loki name db rows pre).1 ∧
        (∃ e, (ContentService.runActions loki name db rows (pre ++ bad :: post)).2 =
          Except.error e) ∧
        ((∀ a ∈ pre, a.type ≠ some CONST.DB_RESULT_SET_REMOVE) →
          (ContentService.runActions loki name db rows (pre ++ bad :: post)).1 = db) := by
  induction pre with
  | nil =>
    intro db rows _
    have h := runActions_refused loki name db rows bad post hbad
    exact ⟨h.1, h.2, fun _ => h.1⟩
  | cons a pre ih =>
    intro db rows hpre
    obtain ⟨db2, rows2, hstep, hkeep⟩ :=
      runActions_applied loki name db rows a (hpre a (List.mem_cons_self a pre))
    have hrest := ih db2 rows2 (fun b hb => hpre b (List.mem_cons_of_mem a hb))
    rw [List.cons_append, hstep, hstep]
    refine ⟨hrest.1, hrest.2.1, fun hno => ?_⟩
    rw [hrest.2.2 (fun b hb => hno b (List.mem_cons_of_mem a hb))]
    exact hkeep (hno a (List.mem_cons_self a pre))

theorem query_keeps_store (loki : Loki) (db : Option Store) (collectionName type : Option String)
    (options : Option QueryOptions) :
    (ContentService.query loki db collectionName type options).1 = db := by
  unfold ContentService.query
  cases options with
  | none => rfl
  | some options =>
    cases collectionName with
    | none => rfl
    | some name =>
      simp only []
      split
      · rfl
      · rfl
      · split_ifs <;> rfl

theorem failed_call_keeps_store (loki : Loki) (db : Option Store) (op : ContentOp)
    (e : JsError) (hop : ∀ collection actions, op ≠ ContentOp.runResultSetActions collection actions)
    (h : (ContentService.call loki db op).2 = Except.error e) :
    (ContentService.call loki db op).1 = db := by
  cases op with
  | compound type options =>
    cases options <;> rfl
  | query collectionName type options =>
    exact query_keeps_store loki db collectionName type options
  | runResultSetActions collection actions => exact absurd rfl (hop collection actions)
  | insert collectionName data =>
    simp only [ContentService.call, ContentService.insert] at h ⊢
    cases data with
    | none => rfl
    | some data =>
      simp only [] at h ⊢
      split at h
      · rfl
      · rfl
      · simp at h
  | update collectionName data =>
    simp only [ContentService.call, ContentService.update] at h ⊢
    cases data with
    | none => rfl
    | some data =>
      simp only [] at h ⊢
      split at h
      · rfl
      · rfl
      · simp at h
  | remove collectionName filter =>
    simp only [ContentService.call, ContentService.remove] at h ⊢
    cases filter with
    | none => rfl
    | some filter =>
      simp only [] at h ⊢
      split at h
      · rfl
      · rfl
      · simp at h

/-- C23 as stated fails. On the collection of the adapter, the actions `remove`
and then `sort` make `runResultSetActions` throw at the second action, and by
then the first one has removed all six documents from the collection. -/
theorem remove_before_bad_action_is_applied :
    ContentService.runResultSetActions lokiPlain (some exampleStore) (some "product.example")
        (some [⟨some "remove", some []⟩, ⟨some "sort", some []⟩]) =
      (some [("product.example", [])],
        Except.error ⟨"TypeError", "Cannot read property UNSUPPORTED of undefined"⟩) := by
  rfl

/-- C23, amended. `runResultSetActions` checks each action when the loop reaches
it. For actions `pre` that the loop applies, followed by an action `bad` that
it does not (`args` not an array, a type that is not supported or not known),
the call throws, and the store is then as the actions `pre` left it: it is
unchanged when no `remove` is among them. A call that fails before the loop
(no action array, no collection name, no such collection) and a failing call
of `compound`, `query`, `insert`, `update` or `remove` leave the store
unchanged. -/
theorem failed_actions_keep_earlier_ones (loki : Loki) (name : String)
    (db : Option Store) (rows : List Doc) (pre post : List Action) (bad : Action)
    (hpre : ∀ a ∈ pre, ContentService.applies a = true)
    (hbad : ContentService.applies bad = false) :
    (ContentService.runActions loki name db rows (pre ++ bad :: post)).1 =
      (ContentService.runActions loki name db rows pre).1 ∧
    (∃ e, (ContentService.runActions loki name db rows (pre ++ bad :: post)).2 =
      Except.error e) ∧
    ((∀ a ∈ pre, a.type ≠ some CONST.DB_RESULT_SET_REMOVE) →
      (ContentService.runActions loki name db rows (pre ++ bad :: post)).1 = db) ∧
    (∀ collection, (ContentService.runResultSetActions loki db collection none).1 = db) ∧
    (∀ actions, (ContentService.runResultSetActions loki db none (some actions)).1 = db) ∧
    (∀ actions, (∀ docs, DataService.getCollection db (some name) ≠ Except.ok (some docs)) →
      (ContentService.runResultSetActions loki db (some name) (some actions)).1 = db) ∧
    (∀ docs, DataService.getCollection db (some name) = Except.ok (some docs) →
      ContentService.runResultSetActions loki db (some name) (some (pre ++ bad :: post)) =
        ContentService.runActions loki name db docs (pre ++ bad :: post)) ∧
    (∀ op e, (∀ collection actions, op ≠ ContentOp.runResultSetActions collection actions) →
      (ContentService.call loki db op).2 = Except.error e →
      (ContentService.call loki db op).1 = db) := by
  have h := runActions_stops_at_refused loki name bad post hbad pre db rows hpre
  refine ⟨h.1, h.2.1, h.2.2, fun _ => rfl, fun _ => rfl, ?_, ?_,
    fun op e hop he => failed_call_keeps_store loki db op e hop he⟩
  · intro actions hno
    simp only [ContentService.runResultSetActions]
    split
    · rfl
    · rfl
    · next docs hd => exact absurd hd (hno docs)
  · intro docs hd
    simp only [ContentService.runResultSetActions, hd]

/-- Witness of C23, amended: on the collection of the adapter, `limit` and then
`sort` throw and leave the store as it was; `remove` and then `sort` throw
with the store as `remove` left it. -/
theorem failed_actions_keep_earlier_ones_witness :
    (ContentService.runActions lokiPlain "product.example" (some exampleStore) []
        ([⟨some "limit", some ["2"]⟩] ++ ⟨some "sort", some []⟩ :: [])).1 = some exampleStore ∧
    (ContentService.runActions lokiPlain "product.example" (some exampleStore)
        [⟨1, "Jane"⟩, ⟨2, "Steve"⟩]
        ([⟨some "remove", some []⟩] ++ ⟨some "sort", some []⟩ :: [])).1 =
      some [("product.example", [⟨3, "Alex"⟩, ⟨4, "Susie"⟩, ⟨5, "Charles"⟩, ⟨6, "Brit"⟩])] :=
  ⟨(failed_actions_keep_earlier_ones lokiPlain "product.example" (some exampleStore) []
      [⟨some "limit", some ["2"]⟩] [] ⟨some "sort", some []⟩
      (by decide) (by decide)).2.2.1 (by decide),
   ((failed_actions_keep_earlier_ones lokiPlain "product.example" (some exampleStore)
      [⟨1, "Jane"⟩, ⟨2, "Steve"⟩]
      [⟨some "remove", some []⟩] [] ⟨some "sort", some []⟩
      (by decide) (by decide)).1).trans (by decide)⟩

end AppBase
